import Mathlib

/-!
# LinkUp: real-time chat and notification delivery

A shallow embedding of `backend/src/services/socketService.js` (class
`SocketService`, with its handshake middleware), of the controllers
`toggleLike` (`controllers/postController.js`), `createComment`
(`controllers/commentController.js`), `sendMessage`, `markMessagesAsRead`,
`getChatMessages` and `getUserChats` (`controllers/chatController.js`) and
`getNotifications` (`controllers/notificationController.js`), and of the
Mongoose schemas they write to (`models/Chat.js`, `models/Message.js`,
`models/Notification.js`, `models/Post.js`, `models/Comment.js`).

* Identifiers (user, chat, message and connection ids) are opaque values
  compared by equality; they are represented by natural numbers.
* A JavaScript `Map` is an insertion-ordered association list, a `Set` an
  insertion-ordered list.
* The document store is explicit state (`Db`).  Every awaited store call can
  reject; whether it does is read from `Env` (socket handlers), `RestEnv`
  (controllers) or `AuthEnv` (handshake), together with the clock and the
  identifier generated for a new document.
* Everything a handler sends through socket.io is appended to
  `World.emitted`.
* Unread counters are integers, so that staying at or above 0 is a property
  of the handlers and not of the representation.
* A rejected promise that nothing awaits or catches ends the process, nothing
  in `server.js` listening for it; `World.terminated` records that.
* The `length` of a string counts UTF-16 code units (`jsLength`), as the
  `maxlength` validators of the schemas do.
-/

set_option autoImplicit false

namespace LinkUp

abbrev UserId := Nat
abbrev SocketId := Nat
abbrev ChatId := Nat
abbrev MessageId := Nat
abbrev Time := Nat

/-! ## JavaScript `Map` and `Set` -/

/-- An insertion-ordered association list standing for a JavaScript `Map`. -/
abbrev JSMap (κ ν : Type) := List (κ × ν)

/-- The call `map.get(k)`: the value stored under `k`, `none` for `undefined`. -/
def JSMap.get {κ ν : Type} [DecidableEq κ] : JSMap κ ν → κ → Option ν
  | [], _ => none
  | e :: rest, k => if e.1 = k then some e.2 else JSMap.get rest k

/-- The call `map.has(k)`. -/
def JSMap.has {κ ν : Type} [DecidableEq κ] (m : JSMap κ ν) (k : κ) : Bool :=
  (JSMap.get m k).isSome

/-- The call `map.set(k, v)`: an existing key keeps its position and gets the
new value, a new key is appended. -/
def JSMap.set {κ ν : Type} [DecidableEq κ] (m : JSMap κ ν) (k : κ) (v : ν) : JSMap κ ν :=
  if JSMap.has m k then m.map (fun e => if e.1 = k then (k, v) else e) else m ++ [(k, v)]

/-- The call `map.delete(k)`. -/
def JSMap.delete {κ ν : Type} [DecidableEq κ] (m : JSMap κ ν) (k : κ) : JSMap κ ν :=
  m.filter (fun e => !decide (e.1 = k))

/-- The call `set.add(x)`. -/
def JSSet.add {α : Type} [DecidableEq α] (s : List α) (x : α) : List α :=
  if x ∈ s then s else s ++ [x]

/-- The call `set.delete(x)`. -/
def JSSet.delete {α : Type} [DecidableEq α] (s : List α) (x : α) : List α :=
  s.filter (fun y => !decide (y = x))

/-- The expression `x || 0` for a numeric map lookup: `undefined` and `0`
both give `0`. -/
def orZero : Option Int → Int
  | none => 0
  | some n => n

/-! ## Documents (Mongoose schemas) -/

/-- The fields of a `User` document that the service selects
(`username profilePic`). -/
structure UserInfo where
  username : String
  profilePic : String
deriving DecidableEq

/-- A `User` document. -/
structure UserDoc where
  id : UserId
  info : UserInfo
deriving DecidableEq

/-- A document of `models/Chat.js`. -/
structure Chat where
  id : ChatId
  participants : List UserId
  lastMessage : Option MessageId
  lastMessageAt : Time
  /-- The Mongoose `Map` of `Number`: user id to unread counter. -/
  unreadCount : JSMap UserId Int
  isGroupChat : Bool
  groupName : String
  groupAdmin : Option UserId
deriving DecidableEq

/-- One element of `readBy` in `models/Message.js`. -/
structure ReadReceipt where
  user : UserId
  readAt : Time
deriving DecidableEq

/-- A document of `models/Message.js`. -/
structure Message where
  id : MessageId
  chat : ChatId
  sender : UserId
  content : String
  messageType : String
  media : Option String
  readBy : List ReadReceipt
  replyTo : Option MessageId
deriving DecidableEq

/-- A document of `models/Notification.js`. -/
structure Notification where
  recipient : UserId
  sender : UserId
  type : String
  post : Option Nat
  comment : Option Nat
  chat : Option ChatId
  message : Option MessageId
  isRead : Bool
  readAt : Option Time
deriving DecidableEq

abbrev PostId := Nat
abbrev CommentId := Nat

/-- A document of `models/Post.js`, with the fields the post and comment
controllers read or write; saving a loaded post leaves the other fields of the
schema as they are. -/
structure Post where
  id : PostId
  author : UserId
  content : String
  likes : List UserId
  comments : List CommentId
deriving DecidableEq

/-- A document of `models/Comment.js`. -/
structure Comment where
  id : CommentId
  author : UserId
  post : PostId
  content : String
  likes : List UserId
  parentComment : Option CommentId
  replies : List CommentId
deriving DecidableEq

/-- The collections of the document store. -/
structure Db where
  users : List UserDoc
  chats : List Chat
  messages : List Message
  notifications : List Notification
  posts : List Post := []
  comments : List Comment := []
deriving DecidableEq

/-- The `enum` of `messageType` in `models/Message.js`. -/
def Message.messageTypes : List String := ["text", "image", "video", "file"]

/-- The `length` of a JavaScript string: the number of its UTF-16 code units,
two for every character outside the basic plane. -/
def jsLength (s : String) : Nat :=
  s.data.foldl (fun n c => n + (if c.toNat < 65536 then 1 else 2)) 0

/-- Schema validation run by `message.save()`: `content` is required and its
`length` is at most 1000, `messageType` is one of the enumerated values. -/
def Message.valid (m : Message) : Bool :=
  decide (m.content ≠ "") && decide (jsLength m.content ≤ 1000) &&
    decide (m.messageType ∈ Message.messageTypes)

/-- The query `Chat.findById(chatId)` on a store that answers. -/
def Chat.findById (db : Db) (chatId : ChatId) : Option Chat :=
  db.chats.find? (fun c => decide (c.id = chatId))

/-- The query `Message.findById(id)` on a store that answers. -/
def Message.findById (db : Db) (id : MessageId) : Option Message :=
  db.messages.find? (fun m => decide (m.id = id))

/-- The query `User.findById(id)` on a store that answers. -/
def User.findById (db : Db) (id : UserId) : Option UserDoc :=
  db.users.find? (fun u => decide (u.id = id))

/-- The effect of a successful `chat.save()` for a loaded document: the stored
document with that id is replaced. -/
def Db.saveChat (db : Db) (chat : Chat) : Db :=
  { db with chats := db.chats.map (fun c => if c.id = chat.id then chat else c) }

/-- The effect of a successful `message.save()` for a new document. -/
def Db.insertMessage (db : Db) (m : Message) : Db :=
  { db with messages := db.messages ++ [m] }

/-- The effect of a successful `Notification.create(doc)`. -/
def Db.insertNotification (db : Db) (n : Notification) : Db :=
  { db with notifications := db.notifications ++ [n] }

/-! ## Connections and outgoing events -/

/-- An authenticated connection: `socket.id`, `socket.userId`, `socket.user`. -/
structure Socket where
  id : SocketId
  userId : UserId
  user : UserInfo
deriving DecidableEq

/-- A socket.io room name. -/
inductive Room where
  /-- The room named by a connection id, which holds that connection only. -/
  | socket (id : SocketId)
  /-- The room of a chat, joined through join-chat. -/
  | chat (chatId : ChatId)
  /-- The personal room of a user, joined on connection. -/
  | user (userId : UserId)
deriving DecidableEq

/-- The addressees of an emit. -/
inductive Target where
  /-- The form `io.to(room).emit`: every connection in the room. -/
  | to (room : Room)
  /-- The form `socket.to(room).emit`: the room without the acting connection. -/
  | toExcept (room : Room) (sender : SocketId)
  /-- The form `socket.emit`: the acting connection alone. -/
  | direct (id : SocketId)
deriving DecidableEq

/-- The `sender` object of a new-notification payload. -/
structure SenderInfo where
  id : UserId
  username : String
  profilePic : String
deriving DecidableEq

/-- A message after `populate('sender', 'username profilePic')` and, when a
reply reference was given, `populate('replyTo')`. -/
structure PopulatedMessage where
  message : Message
  sender : Option UserInfo
  replyTo : Option Message
deriving DecidableEq

/-- The data carried by an outgoing event. -/
inductive Payload where
  | newMessage (message : PopulatedMessage) (chatId : ChatId)
  | newNotification (type : String) (chatId : ChatId) (sender : SenderInfo)
  | messagesRead (chatId : ChatId) (userId : UserId)
  | userTyping (chatId : ChatId) (userId : UserId) (username : String)
  | userTypingStop (chatId : ChatId) (userId : UserId)
  | error (message : String)
  /-- Data handed over by the caller of `emitToUser`, `emitToChat` or
  `emitNotification`. -/
  | data (d : String)
deriving DecidableEq

/-- One call of `emit`. -/
structure Emit where
  target : Target
  event : String
  payload : Payload
deriving DecidableEq

/-- The whole state: the store, the two maps of `SocketService`, the room
membership kept by socket.io, and what has been emitted and logged so far. -/
structure World where
  db : Db
  /-- The field `this.userSockets`: user id to connection id. -/
  userSockets : JSMap UserId SocketId
  /-- The field `this.typingUsers`: chat id to the set of typing users. -/
  typingUsers : JSMap ChatId (List UserId)
  /-- Room membership: which connection has joined which room. -/
  rooms : List (SocketId × Room)
  /-- Every emit so far, oldest first. -/
  emitted : List Emit
  /-- The first argument of every `console.error` call so far. -/
  errorLog : List String
  /-- Rejected promises that nothing awaits. -/
  unhandledRejections : Nat
  /-- Whether an unhandled rejection has ended the server process: nothing in
  `server.js` listens for unhandled rejections, and Node then ends the process.
  The store outlives the process. -/
  terminated : Bool := false
deriving DecidableEq

/-- What the environment decides during one handler run. -/
structure Env where
  /-- The value of `new Date()`. -/
  now : Time
  /-- The `_id` generated for a new message. -/
  newMessageId : MessageId
  /-- Whether `Chat.findById` rejects: the store fails, or the id handed to it
  is not a well-formed identifier and cannot be cast (such an id names no
  chat). -/
  chatFindFails : Bool
  /-- Whether the store rejects `message.save()`. -/
  messageSaveFails : Bool
  /-- Whether the store rejects `chat.save()`. -/
  chatSaveFails : Bool
  /-- Whether `message.populate` rejects. -/
  populateFails : Bool
  /-- Whether `Message.updateMany` rejects. -/
  updateManyFails : Bool
  /-- Whether `Notification.create` rejects for the given recipient. -/
  notificationCreateFails : UserId → Bool
  /-- Whether a `Message.findById` or `Message.find` query rejects: the store
  fails, or the id handed to `findById` is not a well-formed identifier and
  cannot be cast (such an id names no message). -/
  messageFindFails : Bool := false

/-- How a handler run ended. -/
inductive Outcome where
  /-- The early `return` of the access check. -/
  | dropped
  /-- The `catch` block ran. -/
  | failed
  /-- The `try` block ran to its end. -/
  | completed
deriving DecidableEq

/-- Append an emit to the world. -/
def World.emit (w : World) (e : Emit) : World :=
  { w with emitted := w.emitted ++ [e] }

/-- The emits made between two states of one run, oldest first. -/
def emittedBy (before after : World) : List Emit :=
  after.emitted.drop before.emitted.length

/-! ## `SocketService` -/

/-- The body of the connection handler up to the registration of the event
listeners: the registry entry is written and the personal room joined. -/
def onConnection (socket : Socket) (w : World) : World :=
  { w with
    userSockets := JSMap.set w.userSockets socket.userId socket.id
    rooms := w.rooms ++ [(socket.id, Room.user socket.userId)] }

/-- The join-chat listener. -/
def onJoinChat (socket : Socket) (chatId : ChatId) (w : World) : World :=
  { w with rooms := w.rooms ++ [(socket.id, Room.chat chatId)] }

/-- The leave-chat listener. -/
def onLeaveChat (socket : Socket) (chatId : ChatId) (w : World) : World :=
  { w with rooms := w.rooms.filter (fun e => !decide (e = (socket.id, Room.chat chatId))) }

/-- The method `handleTypingStart(socket, chatId)`. -/
def handleTypingStart (socket : Socket) (chatId : ChatId) (w : World) : World :=
  let typing :=
    if !JSMap.has w.typingUsers chatId then JSMap.set w.typingUsers chatId [] else w.typingUsers
  let users := (JSMap.get typing chatId).getD []
  let typing := JSMap.set typing chatId (JSSet.add users socket.userId)
  World.emit { w with typingUsers := typing }
    { target := .toExcept (.chat chatId) socket.id
      event := "user-typing"
      payload := .userTyping chatId socket.userId socket.user.username }

/-- The method `handleTypingStop(socket, chatId)`. -/
def handleTypingStop (socket : Socket) (chatId : ChatId) (w : World) : World :=
  let typing :=
    match JSMap.get w.typingUsers chatId with
    | some users =>
      let users := JSSet.delete users socket.userId
      if users.length = 0 then JSMap.delete w.typingUsers chatId
      else JSMap.set w.typingUsers chatId users
    | none => w.typingUsers
  World.emit { w with typingUsers := typing }
    { target := .toExcept (.chat chatId) socket.id
      event := "user-typing-stop"
      payload := .userTypingStop chatId socket.userId }

/-- One round of the first `forEach` of `handleNewMessage`: the unread counter
of a participant other than the sender goes up by one. -/
def bumpUnread (senderId : UserId) (unreadCount : JSMap UserId Int) (participantId : UserId) :
    JSMap UserId Int :=
  if participantId ≠ senderId then
    let currentCount := orZero (JSMap.get unreadCount participantId)
    JSMap.set unreadCount participantId (currentCount + 1)
  else unreadCount

/-- The updates `handleNewMessage` makes to the loaded chat before saving it:
the last-message reference and time, and the first `forEach`. -/
def Chat.recordMessage (chat : Chat) (senderId : UserId) (messageId : MessageId) (now : Time) :
    Chat :=
  { chat with
    lastMessage := some messageId
    lastMessageAt := now
    unreadCount := chat.participants.foldl (bumpUnread senderId) chat.unreadCount }

/-- The error event of the `catch` block of `handleNewMessage`. -/
def errorEmit (socket : Socket) : Emit :=
  { target := .direct socket.id
    event := "error"
    payload := .error "Failed to send message" }

/-- The `catch` block of `handleNewMessage`. -/
def newMessageCatch (socket : Socket) (w : World) : World × Outcome :=
  (World.emit { w with errorLog := w.errorLog ++ ["Error handling new message:"] }
    (errorEmit socket), .failed)

/-- The fields of a new-message event; `messageType` and `replyTo` may be
missing. -/
structure NewMessageData where
  chatId : ChatId
  content : String
  messageType : Option String
  replyTo : Option MessageId
  /-- Any further properties of the payload, by name, such as a sender; the
  destructuring assignment of the handler does not read them. -/
  others : List (String × String) := []
deriving DecidableEq

/-- The new-message broadcast of `handleNewMessage`, sent after both saves:
the populated message goes to the room of the chat. -/
def newMessageEmit (db : Db) (socket : Socket) (data : NewMessageData) (message : Message) : Emit :=
  { target := .to (.chat data.chatId)
    event := "new-message"
    payload := .newMessage
      { message := message
        sender := (User.findById db socket.userId).map (fun u => u.info)
        replyTo := data.replyTo.bind (Message.findById db) }
      data.chatId }

/-- The document handed to `Notification.create` in `handleNewMessage`; the
fields it leaves out take their schema defaults. -/
def messageNotification (socket : Socket) (chatId : ChatId) (messageId : MessageId)
    (participantId : UserId) : Notification :=
  { recipient := participantId
    sender := socket.userId
    type := "message"
    post := none
    comment := none
    chat := some chatId
    message := some messageId
    isRead := false
    readAt := none }

/-- The document built by `new Message(...)` in `handleNewMessage`:
`messageType` defaults to text, `replyTo || null` keeps the reference. -/
def NewMessageData.toMessage (env : Env) (socket : Socket) (data : NewMessageData) : Message :=
  { id := env.newMessageId
    chat := data.chatId
    sender := socket.userId
    content := data.content
    messageType := data.messageType.getD "text"
    media := none
    readBy := []
    replyTo := data.replyTo }

/-- One callback of the second `forEach` of `handleNewMessage`.  The callback
is `async` and its promise is not awaited, so a rejection of
`Notification.create` reaches no `catch` and nothing is logged: the rejection
stays unhandled and ends the process.  The callbacks are all started before
any create settles; a create that is not rejected is taken to resolve, and its
callback to go on, before the process ends. -/
def notifyParticipant (env : Env) (socket : Socket) (chatId : ChatId) (messageId : MessageId)
    (w : World) (participantId : UserId) : World :=
  if participantId ≠ socket.userId then
    if env.notificationCreateFails participantId then
      { w with unhandledRejections := w.unhandledRejections + 1, terminated := true }
    else
      let w := { w with
        db := w.db.insertNotification (messageNotification socket chatId messageId participantId) }
      match JSMap.get w.userSockets participantId with
      | some participantSocketId =>
        World.emit w
          { target := .to (.socket participantSocketId)
            event := "new-notification"
            payload := .newNotification "message" chatId
              { id := socket.userId
                username := socket.user.username
                profilePic := socket.user.profilePic } }
      | none => w
  else w

/-- The method `handleNewMessage(socket, data)`. -/
def handleNewMessage (env : Env) (socket : Socket) (data : NewMessageData) (w : World) :
    World × Outcome :=
  if env.chatFindFails then newMessageCatch socket w else
  match Chat.findById w.db data.chatId with
  | none => (w, .dropped)
  | some chat =>
    if !chat.participants.contains socket.userId then (w, .dropped) else
    let message := data.toMessage env socket
    if !message.valid || env.messageSaveFails then newMessageCatch socket w else
    let w := { w with db := w.db.insertMessage message }
    let chat := chat.recordMessage socket.userId message.id env.now
    if env.chatSaveFails then newMessageCatch socket w else
    let w := { w with db := w.db.saveChat chat }
    if env.populateFails then newMessageCatch socket w else
    let w := World.emit w (newMessageEmit w.db socket data message)
    (chat.participants.foldl (notifyParticipant env socket data.chatId message.id) w, .completed)

/-- The filter and update of `Message.updateMany` in `handleMarkRead`, for one
message: a message of the chat, sent by someone else, with no receipt of the
user gets a receipt pushed. -/
def markMessageRead (chatId : ChatId) (userId : UserId) (now : Time) (m : Message) : Message :=
  if m.chat = chatId ∧ m.sender ≠ userId ∧ m.readBy.all (fun r => !decide (r.user = userId)) then
    { m with readBy := m.readBy ++ [{ user := userId, readAt := now }] }
  else m

/-- The effect of a successful `Message.updateMany` of `handleMarkRead` on the
store. -/
def Db.markRead (db : Db) (chatId : ChatId) (userId : UserId) (now : Time) : Db :=
  { db with messages := db.messages.map (markMessageRead chatId userId now) }

/-- The `catch` block of `handleMarkRead`. -/
def markReadCatch (w : World) : World × Outcome :=
  ({ w with errorLog := w.errorLog ++ ["Error handling mark read:"] }, .failed)

/-- The method `handleMarkRead(socket, data)`, `data` being `{ chatId }`. -/
def handleMarkRead (env : Env) (socket : Socket) (chatId : ChatId) (w : World) :
    World × Outcome :=
  if env.chatFindFails then markReadCatch w else
  match Chat.findById w.db chatId with
  | none => (w, .dropped)
  | some chat =>
    if !chat.participants.contains socket.userId then (w, .dropped) else
    if env.updateManyFails then markReadCatch w else
    let w := { w with db := w.db.markRead chatId socket.userId env.now }
    let chat := { chat with unreadCount := JSMap.set chat.unreadCount socket.userId 0 }
    if env.chatSaveFails then markReadCatch w else
    let w := { w with db := w.db.saveChat chat }
    (World.emit w
      { target := .toExcept (.chat chatId) socket.id
        event := "messages-read"
        payload := .messagesRead chatId socket.userId }, .completed)

/-- One callback of the `typingUsers.forEach` in `handleDisconnect`. -/
def dropTyping (userId : UserId) (typing : JSMap ChatId (List UserId))
    (entry : ChatId × List UserId) : JSMap ChatId (List UserId) :=
  let users := JSSet.delete entry.2 userId
  if users.length = 0 then JSMap.delete typing entry.1
  else JSMap.set typing entry.1 users

/-- The method `handleDisconnect(socket)`. -/
def handleDisconnect (socket : Socket) (w : World) : World :=
  { w with
    userSockets := JSMap.delete w.userSockets socket.userId
    typingUsers := w.typingUsers.foldl (dropTyping socket.userId) w.typingUsers }

/-- The reply check of the REST handler `sendMessage`
(`controllers/chatController.js`): a given reference must name a stored
message of the same chat.  `handleNewMessage` has no such check. -/
def replyReferenceValid (db : Db) (chatId : ChatId) (replyTo : Option MessageId) : Bool :=
  match replyTo with
  | none => true
  | some id =>
    match Message.findById db id with
    | none => false
    | some replyMessage => decide (replyMessage.chat = chatId)

/-- The method `emitNotification(userId, notification)`. -/
def emitNotification (userId : UserId) (notification : String) (w : World) : World :=
  match JSMap.get w.userSockets userId with
  | some socketId =>
    World.emit w
      { target := .to (.socket socketId), event := "new-notification", payload := .data notification }
  | none => w

/-- The method `emitToChat(chatId, event, data)`. -/
def emitToChat (chatId : ChatId) (event : String) (data : String) (w : World) : World :=
  World.emit w { target := .to (.chat chatId), event := event, payload := .data data }

/-- The method `emitToUser(userId, event, data)`. -/
def emitToUser (userId : UserId) (event : String) (data : String) (w : World) : World :=
  match JSMap.get w.userSockets userId with
  | some socketId =>
    World.emit w { target := .to (.socket socketId), event := event, payload := .data data }
  | none => w

/-! ## Typing states -/

/-- The users marked as typing in a chat: the set stored under the chat id,
the empty set when the chat has no entry. -/
def typingIn (typing : JSMap ChatId (List UserId)) (chatId : ChatId) : List UserId :=
  (JSMap.get typing chatId).getD []

/-- The keys of a map, in insertion order. -/
def JSMap.keys {κ ν : Type} (m : JSMap κ ν) : List κ :=
  m.map Prod.fst

/-- The events that touch `typingUsers`. -/
inductive TypingEvent where
  /-- A typing-start event of a connection for a chat. -/
  | start (socket : Socket) (chatId : ChatId)
  /-- A typing-stop event of a connection for a chat. -/
  | stop (socket : Socket) (chatId : ChatId)
  /-- The disconnect of a connection. -/
  | disconnect (socket : Socket)
deriving DecidableEq

/-- The listener that the service runs for a typing event. -/
def TypingEvent.apply : TypingEvent → World → World
  | .start socket chatId, w => handleTypingStart socket chatId w
  | .stop socket chatId, w => handleTypingStop socket chatId w
  | .disconnect socket, w => handleDisconnect socket w

/-- The listeners run one after the other, oldest event first. -/
def runTypingEvents (events : List TypingEvent) (w : World) : World :=
  events.foldl (fun w e => e.apply w) w

/-- The shape of `typingUsers` that the three listeners keep: no chat id
occurs twice and no stored set is empty. -/
def TypingWellFormed (typing : JSMap ChatId (List UserId)) : Prop :=
  (JSMap.keys typing).Nodup ∧ ∀ e ∈ typing, e.2 ≠ []

/-! ## The handshake middleware -/

/-- What a client presents when it connects. -/
structure Handshake where
  /-- The id of the new connection, `socket.id`. -/
  id : SocketId
  /-- The field `socket.handshake.auth.token`. -/
  authToken : Option String
  /-- The field `socket.handshake.headers.authorization`. -/
  authorization : Option String
deriving DecidableEq

/-- JavaScript truthiness of an optional string: `undefined` and the empty
string are falsy. -/
def truthy : Option String → Bool
  | some s => !decide (s = "")
  | none => false

/-- The expression `auth.token || headers.authorization`. -/
def Handshake.token (hs : Handshake) : Option String :=
  if truthy hs.authToken then hs.authToken else hs.authorization

/-- What the environment decides during the handshake. -/
structure AuthEnv where
  /-- The call `jwt.verify(token, secret)`: the `id` of the decoded payload,
  `none` when the call throws. -/
  verify : String → Option UserId
  /-- Whether `User.findById` rejects. -/
  userFindFails : Bool

/-- One call of the callback `next`. -/
inductive NextCall where
  /-- The call `next()`. -/
  | proceed
  /-- The call `next(new Error(message))`. -/
  | error (message : String)
deriving DecidableEq

/-- What one run of the middleware did: the calls of `next`, and the
connection with `userId` and `user` set when the run set them. -/
structure MiddlewareResult where
  socket : Option Socket
  nextCalls : List NextCall
deriving DecidableEq

/-- The middleware registered by `setupMiddleware`. -/
def authMiddleware (auth : AuthEnv) (db : Db) (hs : Handshake) : MiddlewareResult :=
  if !truthy hs.token then
    { socket := none, nextCalls := [.error "Authentication error"] }
  else
    match hs.token.bind auth.verify with
    | none => { socket := none, nextCalls := [.error "Authentication error"] }
    | some id =>
      if auth.userFindFails then
        { socket := none, nextCalls := [.error "Authentication error"] }
      else
        match User.findById db id with
        | none => { socket := none, nextCalls := [.error "User not found"] }
        | some user =>
          { socket := some { id := hs.id, userId := id, user := user.info }
            nextCalls := [.proceed] }

/-- A connection attempt: socket.io runs the connection handler only for a
connection whose middleware called `next` without an error. -/
def connect (auth : AuthEnv) (hs : Handshake) (w : World) : World :=
  match authMiddleware auth w.db hs with
  | { socket := some socket, nextCalls := [.proceed] } => onConnection socket w
  | _ => w

/-! ## The post and comment controllers -/

/-- The query `Post.findById(postId)` on a store that answers. -/
def Post.findById (db : Db) (postId : PostId) : Option Post :=
  db.posts.find? (fun p => decide (p.id = postId))

/-- The query `Comment.findById(id)` on a store that answers. -/
def Comment.findById (db : Db) (id : CommentId) : Option Comment :=
  db.comments.find? (fun c => decide (c.id = id))

/-- The effect of a successful `post.save()` for a loaded document. -/
def Db.savePost (db : Db) (post : Post) : Db :=
  { db with posts := db.posts.map (fun p => if p.id = post.id then post else p) }

/-- The effect of a successful `comment.save()` for a new document. -/
def Db.insertComment (db : Db) (c : Comment) : Db :=
  { db with comments := db.comments ++ [c] }

/-- Schema validation run by `comment.save()`: `content` is required and its
`length` is at most 500. -/
def Comment.valid (c : Comment) : Bool :=
  !decide (c.content = "") && decide (jsLength c.content ≤ 500)

/-- The status and the texts of an HTTP response; the `data` of the body is
left out. -/
structure Response where
  status : Nat
  success : Bool
  error : Option String
  message : Option String
deriving DecidableEq

/-- What the environment decides during one controller run. -/
structure RestEnv where
  /-- The `_id` generated for a new comment. -/
  newCommentId : CommentId
  /-- Whether `Post.findById` rejects. -/
  postFindFails : Bool
  /-- Whether `Comment.findById` rejects. -/
  commentFindFails : Bool
  /-- Whether the store rejects `comment.save()`. -/
  commentSaveFails : Bool
  /-- Whether the store rejects `post.save()`. -/
  postSaveFails : Bool
  /-- Whether a `populate` call rejects. -/
  populateFails : Bool
  /-- Whether `Notification.create` rejects. -/
  notificationCreateFails : Bool

/-- A `catch` block of a controller: the error is logged and 500 sent. -/
def restCatch (log : String) (error : String) (w : World) : World × Response :=
  ({ w with errorLog := w.errorLog ++ [log] },
    { status := 500, success := false, error := some error, message := none })

/-- The document handed to `Notification.create` in `toggleLike`. -/
def likeNotification (post : Post) (userId : UserId) (postId : PostId) : Notification :=
  { recipient := post.author
    sender := userId
    type := "like"
    post := some postId
    comment := none
    chat := none
    message := none
    isRead := false
    readAt := none }

/-- The document handed to `Notification.create` in `createComment`. -/
def commentNotification (post : Post) (userId : UserId) (postId : PostId)
    (commentId : CommentId) : Notification :=
  { recipient := post.author
    sender := userId
    type := "comment"
    post := some postId
    comment := some commentId
    chat := none
    message := none
    isRead := false
    readAt := none }

/-- The part of `toggleLike` after the like or unlike: `post.save()`, the two
`populate` calls and the response. -/
def toggleLikeSave (env : RestEnv) (post : Post) (isLiked : Bool) (w : World) :
    World × Response :=
  if env.postSaveFails then restCatch "Toggle like error:" "Failed to toggle like" w else
  let w := { w with db := w.db.savePost post }
  if env.populateFails then restCatch "Toggle like error:" "Failed to toggle like" w else
  (w, { status := 200
        success := true
        error := none
        message := some (if isLiked then "Post unliked" else "Post liked") })

/-- The controller `toggleLike`, for the authenticated user `userId`
(`req.user.id`) and the route parameter `postId`. -/
def toggleLike (env : RestEnv) (userId : UserId) (postId : PostId) (w : World) :
    World × Response :=
  if env.postFindFails then restCatch "Toggle like error:" "Failed to toggle like" w else
  match Post.findById w.db postId with
  | none => (w, { status := 404, success := false, error := some "Post not found",
                  message := none })
  | some post =>
    let isLiked := post.likes.contains userId
    if isLiked then
      let post := { post with likes := post.likes.filter (fun id => !decide (id = userId)) }
      toggleLikeSave env post isLiked w
    else
      let post := { post with likes := post.likes ++ [userId] }
      if post.author ≠ userId then
        if env.notificationCreateFails then
          restCatch "Toggle like error:" "Failed to toggle like" w
        else
          let w := { w with db := w.db.insertNotification (likeNotification post userId postId) }
          toggleLikeSave env post isLiked w
      else toggleLikeSave env post isLiked w

/-- The controller `createComment`, for the authenticated user `userId`
(`req.user.id`), the route parameter `postId` and the body fields `content`
and `parentCommentId`. -/
def createComment (env : RestEnv) (userId : UserId) (postId : PostId) (content : String)
    (parentCommentId : Option CommentId) (w : World) : World × Response :=
  if env.postFindFails then restCatch "Create comment error:" "Failed to create comment" w else
  match Post.findById w.db postId with
  | none => (w, { status := 404, success := false, error := some "Post not found",
                  message := none })
  | some post =>
    if parentCommentId.isSome && env.commentFindFails then
      restCatch "Create comment error:" "Failed to create comment" w
    else if parentCommentId.isSome && (parentCommentId.bind (Comment.findById w.db)).isNone then
      (w, { status := 404, success := false, error := some "Parent comment not found",
            message := none })
    else
      let comment : Comment :=
        { id := env.newCommentId
          author := userId
          post := postId
          content := content
          likes := []
          parentComment := parentCommentId
          replies := [] }
      if !comment.valid || env.commentSaveFails then
        restCatch "Create comment error:" "Failed to create comment" w
      else
        let w := { w with db := w.db.insertComment comment }
        let post := { post with comments := post.comments ++ [comment.id] }
        if env.postSaveFails then
          restCatch "Create comment error:" "Failed to create comment" w
        else
          let w := { w with db := w.db.savePost post }
          if env.populateFails then
            restCatch "Create comment error:" "Failed to create comment" w
          else if post.author ≠ userId then
            if env.notificationCreateFails then
              restCatch "Create comment error:" "Failed to create comment" w
            else
              let notification := commentNotification post userId postId comment.id
              ({ w with db := w.db.insertNotification notification },
                { status := 201, success := true, error := none, message := none })
          else (w, { status := 201, success := true, error := none, message := none })

/-! ## The chat controller -/

/-- A response without further texts. -/
def Response.ok (status : Nat) (message : Option String) : Response :=
  { status := status, success := true, error := none, message := message }

/-- A refusal: `res.status(status).json` with `success: false` and the error
text. -/
def Response.refuse (status : Nat) (error : String) : Response :=
  { status := status, success := false, error := some error, message := none }

/-- The document built by `new Message(...)` in `sendMessage`. -/
def sendMessageDocument (env : Env) (currentUserId : UserId) (data : NewMessageData) : Message :=
  { id := env.newMessageId
    chat := data.chatId
    sender := currentUserId
    content := data.content
    messageType := data.messageType.getD "text"
    media := none
    readBy := []
    replyTo := data.replyTo }

/-- The document handed to `Notification.create` in `sendMessage`. -/
def sendMessageNotification (currentUserId : UserId) (chatId : ChatId) (messageId : MessageId)
    (participantId : UserId) : Notification :=
  { recipient := participantId
    sender := currentUserId
    type := "message"
    post := none
    comment := none
    chat := some chatId
    message := some messageId
    isRead := false
    readAt := none }

/-- One callback of the second `forEach` of `sendMessage`: the notification
is created and nothing is pushed.  The callback is `async` and not awaited, so
a rejection reaches no `catch`: it stays unhandled and ends the process, as in
`notifyParticipant`. -/
def sendMessageNotify (env : Env) (currentUserId : UserId) (chatId : ChatId)
    (messageId : MessageId) (w : World) (participantId : UserId) : World :=
  if participantId ≠ currentUserId then
    if env.notificationCreateFails participantId then
      { w with unhandledRejections := w.unhandledRejections + 1, terminated := true }
    else
      let notification := sendMessageNotification currentUserId chatId messageId participantId
      { w with db := w.db.insertNotification notification }
  else w

/-- The controller `sendMessage`, for the authenticated user `currentUserId`
(`req.user.id`), the route parameter `chatId` and the body fields `content`,
`messageType` and `replyTo`. -/
def sendMessage (env : Env) (currentUserId : UserId) (data : NewMessageData) (w : World) :
    World × Response :=
  if env.chatFindFails then restCatch "Send message error:" "Failed to send message" w else
  match Chat.findById w.db data.chatId with
  | none => (w, Response.refuse 404 "Chat not found")
  | some chat =>
    if !chat.participants.contains currentUserId then (w, Response.refuse 403 "Access denied")
    else if data.replyTo.isSome && env.messageFindFails then
      restCatch "Send message error:" "Failed to send message" w
    else if !replyReferenceValid w.db data.chatId data.replyTo then
      (w, Response.refuse 400 "Invalid reply message")
    else
      let message := sendMessageDocument env currentUserId data
      if !message.valid || env.messageSaveFails then
        restCatch "Send message error:" "Failed to send message" w
      else
        let w := { w with db := w.db.insertMessage message }
        let chat := chat.recordMessage currentUserId message.id env.now
        if env.chatSaveFails then restCatch "Send message error:" "Failed to send message" w
        else
          let w := { w with db := w.db.saveChat chat }
          if env.populateFails then
            restCatch "Send message error:" "Failed to send message" w
          else
            (chat.participants.foldl
              (sendMessageNotify env currentUserId data.chatId message.id) w,
              Response.ok 201 none)

/-- The controller `markMessagesAsRead`, for the authenticated user and the
route parameter `chatId`. -/
def markMessagesAsRead (env : Env) (currentUserId : UserId) (chatId : ChatId) (w : World) :
    World × Response :=
  if env.chatFindFails then
    restCatch "Mark messages as read error:" "Failed to mark messages as read" w
  else
    match Chat.findById w.db chatId with
    | none => (w, Response.refuse 404 "Chat not found")
    | some chat =>
      if !chat.participants.contains currentUserId then
        (w, Response.refuse 403 "Access denied")
      else if env.updateManyFails then
        restCatch "Mark messages as read error:" "Failed to mark messages as read" w
      else
        let w := { w with db := w.db.markRead chatId currentUserId env.now }
        let chat := { chat with unreadCount := JSMap.set chat.unreadCount currentUserId 0 }
        if env.chatSaveFails then
          restCatch "Mark messages as read error:" "Failed to mark messages as read" w
        else
          ({ w with db := w.db.saveChat chat },
            Response.ok 200 (some "Messages marked as read"))

/-! ## Pagination -/

/-- The expression `parseInt(q) || d` for a query value that is missing,
not a number (both `none`) or a number that is not negative: a missing value
and 0 give the default. -/
def queryNumber (q : Option Nat) (d : Nat) : Nat :=
  match q with
  | none => d
  | some 0 => d
  | some n => n

/-- The `pagination` object of a list response. -/
structure Pagination where
  currentPage : Nat
  totalPages : Nat
  /-- The count under its name in the response: `totalChats`,
  `totalMessages` or `totalNotifications`. -/
  total : Nat
  hasNext : Bool
  hasPrev : Bool
deriving DecidableEq

/-- The expression `(page - 1) * limit`. -/
def skipOf (page limit : Nat) : Nat :=
  (page - 1) * limit

/-- The expression `Math.ceil(total / limit)` for a limit of at least 1. -/
def ceilDiv (total limit : Nat) : Nat :=
  (total + limit - 1) / limit

/-- The `pagination` object that `getUserChats`, `getChatMessages` and
`getNotifications` build from the page, the limit, the count and the number of
documents the query returned. -/
def pagination (page limit total returned : Nat) : Pagination :=
  { currentPage := page
    totalPages := ceilDiv total limit
    total := total
    hasNext := decide (skipOf page limit + returned < total)
    hasPrev := decide (page > 1) }

/-- The query modifiers `.skip(skip).limit(limit)` on the documents that match,
in the order of the sort. -/
def pageSlice {α : Type} (matching : List α) (skip limit : Nat) : List α :=
  (matching.drop skip).take limit

/-- The body of a list response: the status, the documents and the
`pagination` object. -/
structure ListResponse (α : Type) where
  status : Nat
  success : Bool
  error : Option String
  data : List α
  pagination : Option Pagination

/-- A `catch` block of a list controller. -/
def listCatch {α : Type} (log : String) (error : String) (w : World) :
    World × ListResponse α :=
  ({ w with errorLog := w.errorLog ++ [log] },
    { status := 500, success := false, error := some error, data := [], pagination := none })

/-- A refusal of a list controller. -/
def ListResponse.refuse {α : Type} (status : Nat) (error : String) : ListResponse α :=
  { status := status, success := false, error := some error, data := [], pagination := none }

/-- The controller `getChatMessages`, for the authenticated user, the route
parameter `chatId` and the query values `page` and `limit`.  Stored messages
are in the order of their creation; the `populate` calls of the query are left
out of the returned documents. -/
def getChatMessages (env : Env) (currentUserId : UserId) (chatId : ChatId)
    (pageQuery limitQuery : Option Nat) (w : World) : World × ListResponse Message :=
  let page := queryNumber pageQuery 1
  let limit := queryNumber limitQuery 50
  let skip := skipOf page limit
  if env.chatFindFails then
    listCatch "Get chat messages error:" "Failed to fetch messages" w
  else
    match Chat.findById w.db chatId with
    | none => (w, ListResponse.refuse 404 "Chat not found")
    | some chat =>
      if !chat.participants.contains currentUserId then
        (w, ListResponse.refuse 403 "Access denied")
      else if env.messageFindFails then
        listCatch "Get chat messages error:" "Failed to fetch messages" w
      else
        let matching := w.db.messages.filter (fun m => decide (m.chat = chatId))
        let messages := pageSlice matching.reverse skip limit
        let total := matching.length
        if env.updateManyFails then
          listCatch "Get chat messages error:" "Failed to fetch messages" w
        else
          let w := { w with db := w.db.markRead chatId currentUserId env.now }
          let chat := { chat with unreadCount := JSMap.set chat.unreadCount currentUserId 0 }
          if env.chatSaveFails then
            listCatch "Get chat messages error:" "Failed to fetch messages" w
          else
            ({ w with db := w.db.saveChat chat },
              { status := 200
                success := true
                error := none
                data := messages.reverse
                pagination := some (pagination page limit total messages.length) })

/-- The controller `getNotifications`, for the authenticated user and the
query values `page`, `limit` and `unreadOnly`; notifications are stored in
the order of their creation and the `populate` calls are left out. -/
def getNotifications (findFails : Bool) (currentUserId : UserId)
    (pageQuery limitQuery : Option Nat) (unreadOnly : Option String) (w : World) :
    World × ListResponse Notification :=
  let page := queryNumber pageQuery 1
  let limit := queryNumber limitQuery 20
  let skip := skipOf page limit
  if findFails then listCatch "Get notifications error:" "Failed to fetch notifications" w
  else
    let matching := w.db.notifications.filter (fun n =>
      decide (n.recipient = currentUserId) &&
        (if unreadOnly = some "true" then !n.isRead else true))
    let notifications := pageSlice matching.reverse skip limit
    let total := matching.length
    (w, { status := 200
          success := true
          error := none
          data := notifications
          pagination := some (pagination page limit total notifications.length) })

/-- The controller `getUserChats`, for the authenticated user and the query
values `page` and `limit`; the chats come sorted by `lastMessageAt`, latest
first, and the `populate` calls are left out. -/
def getUserChats (findFails : Bool) (currentUserId : UserId)
    (pageQuery limitQuery : Option Nat) (w : World) : World × ListResponse Chat :=
  let page := queryNumber pageQuery 1
  let limit := queryNumber limitQuery 20
  let skip := skipOf page limit
  if findFails then listCatch "Get user chats error:" "Failed to fetch chats" w
  else
    let matching := w.db.chats.filter (fun c => c.participants.contains currentUserId)
    let sorted := matching.mergeSort (fun a b => decide (b.lastMessageAt ≤ a.lastMessageAt))
    let chats := pageSlice sorted skip limit
    let total := matching.length
    (w, { status := 200
          success := true
          error := none
          data := chats
          pagination := some (pagination page limit total chats.length) })

/-! ## Sequences of operations -/

/-- The operations that write unread counters. -/
inductive ChatOp where
  /-- A new-message event handled by `handleNewMessage`. -/
  | socketSend (env : Env) (socket : Socket) (data : NewMessageData)
  /-- A request handled by `sendMessage`. -/
  | restSend (env : Env) (currentUserId : UserId) (data : NewMessageData)
  /-- A mark-read event handled by `handleMarkRead`. -/
  | socketRead (env : Env) (socket : Socket) (chatId : ChatId)
  /-- A request handled by `markMessagesAsRead`. -/
  | restRead (env : Env) (currentUserId : UserId) (chatId : ChatId)
  /-- A request handled by `getChatMessages`. -/
  | getMessages (env : Env) (currentUserId : UserId) (chatId : ChatId)
      (pageQuery limitQuery : Option Nat)

/-- The state after one operation. -/
def ChatOp.apply : ChatOp → World → World
  | .socketSend env socket data, w => (handleNewMessage env socket data w).1
  | .restSend env currentUserId data, w => (sendMessage env currentUserId data w).1
  | .socketRead env socket chatId, w => (handleMarkRead env socket chatId w).1
  | .restRead env currentUserId chatId, w => (markMessagesAsRead env currentUserId chatId w).1
  | .getMessages env currentUserId chatId pageQuery limitQuery, w =>
    (getChatMessages env currentUserId chatId pageQuery limitQuery w).1

/-- The operations run one after the other, oldest first. -/
def runChatOps (ops : List ChatOp) (w : World) : World :=
  ops.foldl (fun w op => op.apply w) w

/-- Every stored unread counter is at least 0. -/
def UnreadNonNegative (db : Db) : Prop :=
  ∀ chat ∈ db.chats, ∀ e ∈ chat.unreadCount, 0 ≤ e.2

/-- The events of the socket service. -/
inductive SocketEvent where
  /-- A connection that passed the middleware. -/
  | connection (socket : Socket)
  | joinChat (socket : Socket) (chatId : ChatId)
  | leaveChat (socket : Socket) (chatId : ChatId)
  | typingStart (socket : Socket) (chatId : ChatId)
  | typingStop (socket : Socket) (chatId : ChatId)
  | newMessage (env : Env) (socket : Socket) (data : NewMessageData)
  | markRead (env : Env) (socket : Socket) (chatId : ChatId)
  | disconnect (socket : Socket)

/-- The listener that the service runs for an event; on a disconnect
socket.io also takes the connection out of every room it had joined. -/
def SocketEvent.apply : SocketEvent → World → World
  | .connection socket, w => onConnection socket w
  | .joinChat socket chatId, w => onJoinChat socket chatId w
  | .leaveChat socket chatId, w => onLeaveChat socket chatId w
  | .typingStart socket chatId, w => handleTypingStart socket chatId w
  | .typingStop socket chatId, w => handleTypingStop socket chatId w
  | .newMessage env socket data, w => (handleNewMessage env socket data w).1
  | .markRead env socket chatId, w => (handleMarkRead env socket chatId w).1
  | .disconnect socket, w =>
    { handleDisconnect socket w with
      rooms := w.rooms.filter (fun r => !decide (r.1 = socket.id)) }

/-- Whether the event is a connection of the given user. -/
def SocketEvent.connects (userId : UserId) : SocketEvent → Bool
  | .connection socket => decide (socket.userId = userId)
  | _ => false

/-- The listeners run one after the other, oldest event first. -/
def runSocketEvents (events : List SocketEvent) (w : World) : World :=
  events.foldl (fun w e => e.apply w) w

/-- Whether socket.io delivers an emit with the given target to connection
`s`, for the room membership `rooms`: a room named by a connection id holds
that connection, any other room the connections that joined it, and
`socket.to` leaves out the acting connection. -/
def Target.delivers (rooms : List (SocketId × Room)) : Target → SocketId → Bool
  | .to (.socket id), s => decide (s = id)
  | .to r, s => decide ((s, r) ∈ rooms)
  | .toExcept (.socket id) x, s => decide (s = id) && !decide (s = x)
  | .toExcept r x, s => decide ((s, r) ∈ rooms) && !decide (s = x)
  | .direct id, s => decide (s = id)

/-! ## A small concrete world -/

/-- An environment in which no store call rejects. -/
def Example.env : Env :=
  { now := 5
    newMessageId := 900
    chatFindFails := false
    messageSaveFails := false
    chatSaveFails := false
    populateFails := false
    updateManyFails := false
    notificationCreateFails := fun _ => false }

/-- A connection of user 1. -/
def Example.alice : Socket :=
  { id := 10, userId := 1, user := { username := "alice", profilePic := "a.png" } }

/-- A connection of user 2. -/
def Example.bob : Socket :=
  { id := 20, userId := 2, user := { username := "bob", profilePic := "b.png" } }

/-- A chat of users 1, 2 and 3 in which user 2 has four unread messages. -/
def Example.chat : Chat :=
  { id := 100
    participants := [1, 2, 3]
    lastMessage := none
    lastMessageAt := 0
    unreadCount := [(2, 4)]
    isGroupChat := true
    groupName := "team"
    groupAdmin := some 1 }

/-- A chat of users 4 and 5. -/
def Example.otherChat : Chat :=
  { id := 200
    participants := [4, 5]
    lastMessage := some 700
    lastMessageAt := 1
    unreadCount := []
    isGroupChat := false
    groupName := ""
    groupAdmin := none }

/-- A message of user 4 in the chat of users 4 and 5. -/
def Example.foreignMessage : Message :=
  { id := 700
    chat := 200
    sender := 4
    content := "elsewhere"
    messageType := "text"
    media := none
    readBy := []
    replyTo := none }

/-- A message of user 1 in the chat of users 1, 2 and 3, read by user 3. -/
def Example.earlierMessage : Message :=
  { id := 600
    chat := 100
    sender := 1
    content := "earlier"
    messageType := "text"
    media := none
    readBy := [{ user := 3, readAt := 2 }]
    replyTo := none }

/-- A world with both chats and both messages, nobody connected. -/
def Example.world : World :=
  { db :=
      { users := [{ id := 1, info := { username := "alice", profilePic := "a.png" } },
                  { id := 2, info := { username := "bob", profilePic := "b.png" } }]
        chats := [Example.chat, Example.otherChat]
        messages := [Example.earlierMessage, Example.foreignMessage]
        notifications := [] }
    userSockets := []
    typingUsers := []
    rooms := []
    emitted := []
    errorLog := []
    unhandledRejections := 0 }

/-- A new-message event for the chat of users 1, 2 and 3. -/
def Example.hello : NewMessageData :=
  { chatId := 100, content := "hi", messageType := none, replyTo := none }

/-- A new-message event for the chat of users 1, 2 and 3 whose reply
reference names a message of the chat of users 4 and 5. -/
def Example.replyAcrossChats : NewMessageData :=
  { chatId := 100, content := "re", messageType := none, replyTo := some 700 }

/-- A new-message event whose reply reference names no stored message. -/
def Example.replyToNothing : NewMessageData :=
  { chatId := 100, content := "re", messageType := none, replyTo := some 999 }

/-- A new-message event for a chat id that names no chat. -/
def Example.toNowhere : NewMessageData :=
  { chatId := 300, content := "hi", messageType := none, replyTo := none }

/-- The environment of a later run: the clock has moved on. -/
def Example.laterEnv : Env :=
  { Example.env with now := 9, newMessageId := 901 }

/-- A second connection of user 1. -/
def Example.aliceAgain : Socket :=
  { id := 11, userId := 1, user := { username := "alice", profilePic := "a.png" } }

/-- A connection of user 4, who is no participant of chat 100. -/
def Example.dora : Socket :=
  { id := 40, userId := 4, user := { username := "dora", profilePic := "d.png" } }

/-- An environment in which the store rejects `message.save()`. -/
def Example.storeRejectsMessage : Env :=
  { Example.env with messageSaveFails := true }

/-- An environment in which `Notification.create` is rejected for user 2. -/
def Example.createFailsForBob : Env :=
  { Example.env with notificationCreateFails := fun p => decide (p = 2) }

/-- Typing events on the example world: users 1 and 2 start typing in chat
100, user 2 also in chat 200, then user 1 stops. -/
def Example.typingEvents : List TypingEvent :=
  [.start Example.alice 100, .start Example.bob 100, .start Example.bob 200,
   .stop Example.alice 100]

/-- The example world after user 1 started typing in chat 100. -/
def Example.aliceTyping : World :=
  handleTypingStart Example.alice 100 Example.world

/-- The example world after user 2 connected. -/
def Example.bobOnline : World :=
  onConnection Example.bob Example.world

/-- A new-message event of type image that also carries a sender property
naming user 2. -/
def Example.forged : NewMessageData :=
  { chatId := 100
    content := "look"
    messageType := some "image"
    replyTo := some 600
    others := [("sender", "2")] }

/-- A verifier that accepts the token of user 1, the token of user 2 and a
token of a user 9 who is not stored. -/
def Example.auth : AuthEnv :=
  { verify := fun token =>
      if token = "token-1" then some 1
      else if token = "token-2" then some 2
      else if token = "token-9" then some 9
      else none
    userFindFails := false }

/-- A handshake that presents the token of user 1. -/
def Example.goodHandshake : Handshake :=
  { id := 10, authToken := some "token-1", authorization := none }

/-- A handshake that presents a token that does not verify. -/
def Example.badHandshake : Handshake :=
  { id := 50, authToken := none, authorization := some "garbage" }

/-- A controller environment in which no store call rejects. -/
def Example.restEnv : RestEnv :=
  { newCommentId := 800
    postFindFails := false
    commentFindFails := false
    commentSaveFails := false
    postSaveFails := false
    populateFails := false
    notificationCreateFails := false }

/-- A post of user 1, liked by user 3. -/
def Example.post : Post :=
  { id := 500, author := 1, content := "first post", likes := [3], comments := [] }

/-- The example world with the post of user 1 stored. -/
def Example.blog : World :=
  { Example.world with db := { Example.world.db with posts := [Example.post] } }

/-- The example world after user 4, no participant of chat 100, connected,
joined the room of chat 100, and user 1 connected and joined it too. -/
def Example.eavesdropped : World :=
  onJoinChat Example.alice 100
    (onConnection Example.alice (onJoinChat Example.dora 100 (onConnection Example.dora Example.world)))

/-- Events after a disconnect of user 1 in which user 1 does not connect:
user 2 connects, joins chat 100, types and sends a message. -/
def Example.quietEvents : List SocketEvent :=
  [.connection Example.bob, .joinChat Example.bob 100, .typingStart Example.bob 100,
   .newMessage Example.env Example.bob Example.hello, .typingStop Example.bob 100]

/-- The world with the post of user 1, the author being connected. -/
def Example.blogAuthorOnline : World :=
  onConnection Example.alice Example.blog

/-- A request of user 1 to send to chat 100 a reply to a message of chat 200. -/
def Example.restReplyAcrossChats : NewMessageData :=
  { chatId := 100, content := "re", messageType := none, replyTo := some 700 }

/-- A world with one newly created chat of users 1 and 2. -/
def Example.freshWorld : World :=
  { Example.world with
    db := { Example.world.db with
      chats := [{ Example.chat with participants := [1, 2], unreadCount := [] }]
      messages := [] } }

/-- Operations on the new chat: user 1 sends twice, over the socket and over
HTTP, user 2 fetches the messages, sends, and user 1 marks the chat read both
ways. -/
def Example.chatOps : List ChatOp :=
  [.socketSend Example.env Example.alice Example.hello,
   .restSend Example.laterEnv 1 Example.hello,
   .getMessages Example.env 2 100 none none,
   .socketSend Example.env Example.bob Example.hello,
   .socketRead Example.env Example.alice 100,
   .restRead Example.env 1 100]

/-- An environment in which `Chat.findById` rejects. -/
def Example.chatLookupRejects : Env :=
  { Example.env with chatFindFails := true }

/-- An environment in which `Message.findById` rejects. -/
def Example.replyLookupRejects : Env :=
  { Example.env with messageFindFails := true }

/-- The example world after user 1 connected twice, with connections 10 and
11, and both connections joined the room of chat 100. -/
def Example.twoConnections : World :=
  onJoinChat Example.aliceAgain 100
    (onJoinChat Example.alice 100
      (onConnection Example.aliceAgain (onConnection Example.alice Example.world)))

/-! # Lemmas and theorems -/

/-! ## Lemmas on `JSMap` -/

theorem JSMap.get_map_replace {κ ν : Type} [DecidableEq κ] (m : JSMap κ ν) (k k' : κ) (v : ν) :
    JSMap.get (m.map (fun e => if e.1 = k then (k, v) else e)) k' =
      if k' = k then (JSMap.get m k).map (fun _ => v) else JSMap.get m k' := by
  induction m with
  | nil => simp [JSMap.get]
  | cons e rest ih =>
    simp only [List.map_cons, JSMap.get, ih]
    by_cases hak : e.1 = k
    · rw [if_pos hak]
      by_cases hk : k' = k
      · subst hk; simp [hak]
      · have : ¬ k = k' := fun h => hk h.symm
        have : ¬ e.1 = k' := fun h => hk (h ▸ hak)
        simp [*]
    · rw [if_neg hak]
      by_cases hk : k' = k
      · subst hk; simp [hak]
      · by_cases hek : e.1 = k' <;> simp [hk, hek]

theorem JSMap.get_append_single {κ ν : Type} [DecidableEq κ] (m : JSMap κ ν) (k k' : κ) (v : ν) :
    JSMap.get (m ++ [(k, v)]) k' =
      match JSMap.get m k' with
      | some x => some x
      | none => if k = k' then some v else none := by
  induction m with
  | nil => simp [JSMap.get]
  | cons e rest ih =>
    by_cases hak : e.1 = k'
    · simp [JSMap.get, hak]
    · simp only [List.cons_append, JSMap.get, if_neg hak]
      exact ih

theorem JSMap.get_set_self {κ ν : Type} [DecidableEq κ] (m : JSMap κ ν) (k : κ) (v : ν) :
    JSMap.get (JSMap.set m k v) k = some v := by
  unfold JSMap.set JSMap.has
  cases h : JSMap.get m k with
  | none => simp [JSMap.get_append_single, h]
  | some x => simp [JSMap.get_map_replace, h]

theorem JSMap.get_set_other {κ ν : Type} [DecidableEq κ] (m : JSMap κ ν) (k k' : κ) (v : ν)
    (hne : k' ≠ k) : JSMap.get (JSMap.set m k v) k' = JSMap.get m k' := by
  unfold JSMap.set JSMap.has
  cases h : JSMap.get m k with
  | none =>
    have : ¬ k = k' := fun h => hne h.symm
    simp [JSMap.get_append_single, this]
    cases JSMap.get m k' <;> rfl
  | some x => simp [JSMap.get_map_replace, hne]

theorem JSMap.get_eq_none_of_not_mem {κ ν : Type} [DecidableEq κ] (m : JSMap κ ν) (k : κ)
    (h : JSMap.get m k = none) (x : ν) : (k, x) ∉ m := by
  induction m with
  | nil => simp
  | cons e rest ih =>
    simp only [JSMap.get] at h
    by_cases hek : e.1 = k
    · simp [hek] at h
    · simp only [hek, if_false] at h
      intro hmem
      rcases List.mem_cons.mp hmem with h' | h'
      · exact hek (by rw [← h'])
      · exact ih h h'

theorem JSMap.mem_set_self {κ ν : Type} [DecidableEq κ] (m : JSMap κ ν) (k : κ) (v x : ν)
    (hmem : (k, x) ∈ JSMap.set m k v) : x = v := by
  unfold JSMap.set at hmem
  split at hmem
  · rw [List.mem_map] at hmem
    obtain ⟨e, _, he⟩ := hmem
    by_cases hk : e.1 = k
    · simp [hk] at he; exact he.symm
    · simp [hk] at he
      exact absurd (by rw [he]) hk
  · rename_i hhas
    rw [List.mem_append] at hmem
    rcases hmem with hmem | hmem
    · exfalso
      have hnone : JSMap.get m k = none := by
        unfold JSMap.has at hhas
        cases hg : JSMap.get m k with
        | none => rfl
        | some y => simp [hg] at hhas
      exact JSMap.get_eq_none_of_not_mem m k hnone x hmem
    · simpa using hmem

theorem JSMap.get_delete_self {κ ν : Type} [DecidableEq κ] (m : JSMap κ ν) (k : κ) :
    JSMap.get (JSMap.delete m k) k = none := by
  unfold JSMap.delete
  induction m with
  | nil => simp [JSMap.get]
  | cons e rest ih =>
    by_cases hak : e.1 = k
    · simp [List.filter_cons, hak, ih]
    · simp [List.filter_cons, hak, JSMap.get, ih]

theorem JSMap.get_delete_other {κ ν : Type} [DecidableEq κ] (m : JSMap κ ν) (k k' : κ)
    (hne : k' ≠ k) : JSMap.get (JSMap.delete m k) k' = JSMap.get m k' := by
  unfold JSMap.delete
  induction m with
  | nil => simp [JSMap.get]
  | cons e rest ih =>
    obtain ⟨a, b⟩ := e
    by_cases hak : a = k
    · subst hak
      have : ¬ a = k' := fun h => hne h.symm
      simp [List.filter_cons, JSMap.get, this, ih]
    · by_cases hak' : a = k'
      · subst hak'
        simp [List.filter_cons, hak, JSMap.get]
      · simp [List.filter_cons, hak, JSMap.get, hak', ih]

/-! ## Lemmas on the store and on the two loops of `handleNewMessage` -/

theorem Chat.findById_id (db : Db) (chatId : ChatId) (chat : Chat)
    (h : Chat.findById db chatId = some chat) : chat.id = chatId := by
  unfold Chat.findById at h
  simpa using List.find?_some h

theorem Chat.findById_saveChat (db : Db) (chatId : ChatId) (chat chat' : Chat)
    (h : Chat.findById db chatId = some chat) (hid : chat'.id = chat.id) :
    Chat.findById (db.saveChat chat') chatId = some chat' := by
  have hc := Chat.findById_id db chatId chat h
  unfold Chat.findById at h
  unfold Chat.findById Db.saveChat
  simp only
  generalize db.chats = chats at h
  induction chats with
  | nil => simp at h
  | cons c rest ih =>
    rw [List.find?_cons] at h
    by_cases hcid : c.id = chatId
    · have h1 : c.id = chat'.id := by rw [hid, hc, hcid]
      have h2 : chat'.id = chatId := by rw [hid, hc]
      simp [List.find?_cons, h1, h2]
    · have h1 : ¬ c.id = chat'.id := by rw [hid, hc]; exact hcid
      simp only [hcid, decide_False] at h
      simp only [List.map_cons, if_neg h1, List.find?_cons, hcid, decide_False]
      exact ih h

theorem foldl_bumpUnread_get (senderId : UserId) (ps : List UserId) (m : JSMap UserId Int)
    (p : UserId) (hnodup : ps.Nodup) :
    JSMap.get (ps.foldl (bumpUnread senderId) m) p =
      if p ∈ ps ∧ p ≠ senderId then some (orZero (JSMap.get m p) + 1) else JSMap.get m p := by
  induction ps generalizing m with
  | nil => simp
  | cons a rest ih =>
    rw [List.nodup_cons] at hnodup
    rw [List.foldl_cons, ih _ hnodup.2]
    by_cases hpa : p = a
    · subst hpa
      by_cases hps : p = senderId
      · simp [hps, bumpUnread]
      · simp [hps, hnodup.1, bumpUnread, JSMap.get_set_self]
    · have hget : JSMap.get (bumpUnread senderId m a) p = JSMap.get m p := by
        unfold bumpUnread
        split
        · exact JSMap.get_set_other _ _ _ _ hpa
        · rfl
      simp [hget, hpa]

theorem notifyParticipant_chats (env : Env) (socket : Socket) (chatId : ChatId)
    (messageId : MessageId) (w : World) (p : UserId) :
    (notifyParticipant env socket chatId messageId w p).db.chats = w.db.chats ∧
    (notifyParticipant env socket chatId messageId w p).db.messages = w.db.messages ∧
    (notifyParticipant env socket chatId messageId w p).db.users = w.db.users ∧
    (notifyParticipant env socket chatId messageId w p).userSockets = w.userSockets := by
  unfold notifyParticipant
  split
  · split
    · simp
    · simp only [Db.insertNotification]
      split <;> simp [World.emit]
  · simp

theorem foldl_notifyParticipant_chats (env : Env) (socket : Socket) (chatId : ChatId)
    (messageId : MessageId) (ps : List UserId) (w : World) :
    (ps.foldl (notifyParticipant env socket chatId messageId) w).db.chats = w.db.chats ∧
    (ps.foldl (notifyParticipant env socket chatId messageId) w).db.messages = w.db.messages ∧
    (ps.foldl (notifyParticipant env socket chatId messageId) w).db.users = w.db.users ∧
    (ps.foldl (notifyParticipant env socket chatId messageId) w).userSockets = w.userSockets := by
  induction ps generalizing w with
  | nil => simp
  | cons a rest ih =>
    rw [List.foldl_cons]
    obtain ⟨h1, h2, h3, h4⟩ := notifyParticipant_chats env socket chatId messageId w a
    obtain ⟨i1, i2, i3, i4⟩ := ih (notifyParticipant env socket chatId messageId w a)
    exact ⟨i1.trans h1, i2.trans h2, i3.trans h3, i4.trans h4⟩

/-- What a completed run of `handleNewMessage` went through: the lookup
answered with a chat listing the sender, the message was valid and both saves
and the populate went through; the result is the fan-out over the saved
state. -/
theorem handleNewMessage_completed (env : Env) (socket : Socket) (data : NewMessageData)
    (w : World) (hok : (handleNewMessage env socket data w).2 = .completed) :
    ∃ chat, Chat.findById w.db data.chatId = some chat ∧
      socket.userId ∈ chat.participants ∧
      env.chatFindFails = false ∧
      (data.toMessage env socket).valid = true ∧
      env.messageSaveFails = false ∧ env.chatSaveFails = false ∧ env.populateFails = false ∧
      (handleNewMessage env socket data w).1 =
        chat.participants.foldl
          (notifyParticipant env socket data.chatId (data.toMessage env socket).id)
          (World.emit
            { w with db := ((w.db.insertMessage (data.toMessage env socket)).saveChat
                (chat.recordMessage socket.userId (data.toMessage env socket).id env.now)) }
            (newMessageEmit
              ((w.db.insertMessage (data.toMessage env socket)).saveChat
                (chat.recordMessage socket.userId (data.toMessage env socket).id env.now))
              socket data (data.toMessage env socket))) := by
  unfold handleNewMessage at hok ⊢
  by_cases h1 : env.chatFindFails = true
  · simp [h1, newMessageCatch] at hok
  · cases hc : Chat.findById w.db data.chatId with
    | none => simp [h1, hc] at hok
    | some chat =>
      by_cases h2 : socket.userId ∈ chat.participants
      · by_cases h3 : (data.toMessage env socket).valid = true
        · by_cases h4 : env.messageSaveFails = true
          · simp [h1, hc, h2, h3, h4, newMessageCatch] at hok
          · by_cases h5 : env.chatSaveFails = true
            · simp [h1, hc, h2, h3, h4, h5, newMessageCatch] at hok
            · by_cases h6 : env.populateFails = true
              · simp [h1, hc, h2, h3, h4, h5, h6, newMessageCatch] at hok
              · refine ⟨chat, rfl, h2, ?_, h3, ?_, ?_, ?_, ?_⟩
                · simpa using h1
                · simpa using h4
                · simpa using h5
                · simpa using h6
                · simp [h1, h2, h3, h4, h5, h6, Chat.recordMessage]
        · simp [h1, hc, h2, h3, newMessageCatch] at hok
      · simp [h1, hc, h2] at hok

/-! ## Unread counters -/

/-- C1: for a chat with pairwise distinct participants, a completed
`handleNewMessage` by `socket.userId` (who is then a participant) stores the
chat with `unreadCount[p]` equal to the previous value, absent counting as 0,
plus 1 for every participant `p` other than the sender, and with the sender's
own entry as it was. -/
theorem handleNewMessage_unread_counts (env : Env) (socket : Socket) (data : NewMessageData)
    (w : World) (chat : Chat)
    (hchat : Chat.findById w.db data.chatId = some chat)
    (hdistinct : chat.participants.Nodup)
    (hok : (handleNewMessage env socket data w).2 = .completed) :
    ∃ chat', Chat.findById (handleNewMessage env socket data w).1.db data.chatId = some chat' ∧
      (∀ p ∈ chat.participants, p ≠ socket.userId →
        JSMap.get chat'.unreadCount p = some (orZero (JSMap.get chat.unreadCount p) + 1)) ∧
      JSMap.get chat'.unreadCount socket.userId = JSMap.get chat.unreadCount socket.userId := by
  obtain ⟨c, hc, -, -, -, -, -, -, hrun⟩ := handleNewMessage_completed env socket data w hok
  rw [hchat] at hc
  cases hc
  refine ⟨chat.recordMessage socket.userId (data.toMessage env socket).id env.now, ?_, ?_, ?_⟩
  · have hfind : Chat.findById (w.db.insertMessage (data.toMessage env socket)) data.chatId =
        some chat := hchat
    have hsaved := Chat.findById_saveChat _ data.chatId chat
      (chat.recordMessage socket.userId (data.toMessage env socket).id env.now) hfind rfl
    rw [hrun]
    unfold Chat.findById at hsaved ⊢
    rw [(foldl_notifyParticipant_chats env socket data.chatId _ chat.participants _).1]
    exact hsaved
  · intro p hp hne
    simp only [Chat.recordMessage]
    rw [foldl_bumpUnread_get _ _ _ _ hdistinct]
    simp [hp, hne]
  · simp only [Chat.recordMessage]
    rw [foldl_bumpUnread_get _ _ _ _ hdistinct]
    simp

/-- An instance of C1: user 1 sends to the chat of users 1, 2 and 3 in the example world. -/
theorem handleNewMessage_unread_counts_witness :
    ∃ chat', Chat.findById
        (handleNewMessage Example.env Example.alice Example.hello Example.world).1.db 100 =
          some chat' ∧
      (∀ p ∈ Example.chat.participants, p ≠ 1 →
        JSMap.get chat'.unreadCount p =
          some (orZero (JSMap.get Example.chat.unreadCount p) + 1)) ∧
      JSMap.get chat'.unreadCount 1 = JSMap.get Example.chat.unreadCount 1 :=
  handleNewMessage_unread_counts Example.env Example.alice Example.hello Example.world
    Example.chat (by decide) (by decide) (by decide)

/-! ## Read receipts -/

theorem handleMarkRead_completed (env : Env) (socket : Socket) (chatId : ChatId) (w : World)
    (hok : (handleMarkRead env socket chatId w).2 = .completed) :
    ∃ chat, Chat.findById w.db chatId = some chat ∧
      socket.userId ∈ chat.participants ∧
      (handleMarkRead env socket chatId w).1 =
        World.emit
          { w with db := ((w.db.markRead chatId socket.userId env.now).saveChat
              { chat with unreadCount := JSMap.set chat.unreadCount socket.userId 0 }) }
          { target := .toExcept (.chat chatId) socket.id
            event := "messages-read"
            payload := .messagesRead chatId socket.userId } := by
  unfold handleMarkRead at hok ⊢
  by_cases h1 : env.chatFindFails = true
  · simp [h1, markReadCatch] at hok
  · cases hc : Chat.findById w.db chatId with
    | none => simp [h1, hc] at hok
    | some chat =>
      by_cases h2 : socket.userId ∈ chat.participants
      · by_cases h3 : env.updateManyFails = true
        · simp [h1, hc, h2, h3, markReadCatch] at hok
        · by_cases h4 : env.chatSaveFails = true
          · simp [h1, hc, h2, h3, h4, markReadCatch] at hok
          · exact ⟨chat, rfl, h2, by simp [h1, h2, h3, h4]⟩
      · simp [h1, hc, h2] at hok

/-- C2: whatever `unreadCount` held for the acting user before, a completed
`handleMarkRead` by that user on chat `chatId` stores the chat with
`unreadCount[userId]` equal to 0. -/
theorem handleMarkRead_resets_unread (env : Env) (socket : Socket) (chatId : ChatId) (w : World)
    (hok : (handleMarkRead env socket chatId w).2 = .completed) :
    ∃ chat', Chat.findById (handleMarkRead env socket chatId w).1.db chatId = some chat' ∧
      JSMap.get chat'.unreadCount socket.userId = some 0 := by
  obtain ⟨chat, hchat, -, hrun⟩ := handleMarkRead_completed env socket chatId w hok
  refine ⟨{ chat with unreadCount := JSMap.set chat.unreadCount socket.userId 0 }, ?_, ?_⟩
  · rw [hrun]
    have hfind : Chat.findById (w.db.markRead chatId socket.userId env.now) chatId = some chat :=
      hchat
    exact Chat.findById_saveChat _ chatId chat _ hfind rfl
  · exact JSMap.get_set_self _ _ _

/-- An instance of C2: user 2, with four unread messages, reads chat 100. -/
theorem handleMarkRead_resets_unread_witness :
    ∃ chat', Chat.findById (handleMarkRead Example.env Example.bob 100 Example.world).1.db 100 =
        some chat' ∧
      JSMap.get chat'.unreadCount 2 = some 0 :=
  handleMarkRead_resets_unread Example.env Example.bob 100 Example.world (by decide)

theorem markMessageRead_chat_sender (chatId : ChatId) (u : UserId) (now : Time) (m : Message) :
    (markMessageRead chatId u now m).chat = m.chat ∧
    (markMessageRead chatId u now m).sender = m.sender := by
  unfold markMessageRead
  split <;> simp

theorem markMessageRead_idem (chatId : ChatId) (u : UserId) (t1 t2 : Time) (m : Message) :
    markMessageRead chatId u t2 (markMessageRead chatId u t1 m) = markMessageRead chatId u t1 m := by
  by_cases h : m.chat = chatId ∧ m.sender ≠ u ∧
      m.readBy.all (fun r => !decide (r.user = u)) = true
  · have h1 : markMessageRead chatId u t1 m =
        { m with readBy := m.readBy ++ [{ user := u, readAt := t1 }] } := by
      unfold markMessageRead; rw [if_pos h]
    rw [h1]
    unfold markMessageRead
    simp
  · have h1 : markMessageRead chatId u t1 m = m := by
      unfold markMessageRead; rw [if_neg h]
    rw [h1]
    unfold markMessageRead
    rw [if_neg h]

theorem markMessageRead_count_self (chatId : ChatId) (u : UserId) (now : Time) (m : Message)
    (hchat : m.chat = chatId) (hsender : m.sender ≠ u)
    (hone : m.readBy.countP (fun r => decide (r.user = u)) ≤ 1) :
    (markMessageRead chatId u now m).readBy.countP (fun r => decide (r.user = u)) = 1 := by
  by_cases h : m.readBy.all (fun r => !decide (r.user = u)) = true
  · have h1 : markMessageRead chatId u now m =
        { m with readBy := m.readBy ++ [{ user := u, readAt := now }] } := by
      unfold markMessageRead; rw [if_pos ⟨hchat, hsender, h⟩]
    have h0 : m.readBy.countP (fun r => decide (r.user = u)) = 0 := by
      rw [List.countP_eq_zero]
      intro r hr
      have := List.all_eq_true.mp h r hr
      simpa using this
    rw [h1]
    simp [List.countP_append, h0]
  · have h1 : markMessageRead chatId u now m = m := by
      unfold markMessageRead; rw [if_neg (fun hh => h hh.2.2)]
    rw [h1]
    have hpos : 0 < m.readBy.countP (fun r => decide (r.user = u)) := by
      rw [List.countP_pos_iff]
      simp only [List.all_eq_true, not_forall] at h
      obtain ⟨r, hr, hne⟩ := h
      exact ⟨r, hr, by simpa using hne⟩
    omega

theorem markMessageRead_count_le (chatId : ChatId) (u v : UserId) (now : Time) (m : Message)
    (hone : m.readBy.countP (fun r => decide (r.user = v)) ≤ 1) :
    (markMessageRead chatId u now m).readBy.countP (fun r => decide (r.user = v)) ≤ 1 := by
  by_cases h : m.chat = chatId ∧ m.sender ≠ u ∧
      m.readBy.all (fun r => !decide (r.user = u)) = true
  · have h1 : markMessageRead chatId u now m =
        { m with readBy := m.readBy ++ [{ user := u, readAt := now }] } := by
      unfold markMessageRead; rw [if_pos h]
    rw [h1]
    by_cases huv : u = v
    · subst huv
      have h0 : m.readBy.countP (fun r => decide (r.user = u)) = 0 := by
        rw [List.countP_eq_zero]
        intro r hr
        have := List.all_eq_true.mp h.2.2 r hr
        simpa using this
      simp [List.countP_append, h0]
    · simp [List.countP_append, huv, hone]
  · have h1 : markMessageRead chatId u now m = m := by
      unfold markMessageRead; rw [if_neg h]
    rw [h1]
    exact hone

theorem handleMarkRead_messages (env : Env) (socket : Socket) (chatId : ChatId) (w : World) :
    (handleMarkRead env socket chatId w).1.db.messages = w.db.messages ∨
    (handleMarkRead env socket chatId w).1.db.messages =
      w.db.messages.map (markMessageRead chatId socket.userId env.now) := by
  unfold handleMarkRead
  by_cases h1 : env.chatFindFails = true
  · simp [h1, markReadCatch]
  · cases hc : Chat.findById w.db chatId with
    | none => simp [h1]
    | some chat =>
      by_cases h2 : socket.userId ∈ chat.participants
      · by_cases h3 : env.updateManyFails = true
        · simp [h1, h2, h3, markReadCatch]
        · by_cases h4 : env.chatSaveFails = true
          · simp [h1, h2, h3, h4, markReadCatch, Db.markRead]
          · simp [h1, h2, h3, h4, Db.markRead, Db.saveChat, World.emit]
      · simp [h1, h2]

/-- C3: in a store where no message carries more than one receipt per user,
a completed `handleMarkRead` by `socket.userId` on chat `chatId` leaves every
message of that chat not sent by the user with exactly one receipt of the
user; a second `handleMarkRead` by the same user on the same chat, at any
later time and however it ends, leaves the stored messages (and so every
`readBy` list) as the first run left them, still with at most one receipt
per user. -/
theorem handleMarkRead_idempotent (env1 env2 : Env) (socket : Socket) (chatId : ChatId)
    (w : World)
    (hone : ∀ m ∈ w.db.messages, ∀ u : UserId,
      m.readBy.countP (fun r => decide (r.user = u)) ≤ 1)
    (hok : (handleMarkRead env1 socket chatId w).2 = .completed) :
    (∀ m ∈ (handleMarkRead env1 socket chatId w).1.db.messages,
      m.chat = chatId → m.sender ≠ socket.userId →
        m.readBy.countP (fun r => decide (r.user = socket.userId)) = 1) ∧
    (handleMarkRead env2 socket chatId (handleMarkRead env1 socket chatId w).1).1.db.messages =
      (handleMarkRead env1 socket chatId w).1.db.messages ∧
    (∀ m ∈ (handleMarkRead env2 socket chatId
        (handleMarkRead env1 socket chatId w).1).1.db.messages,
      ∀ u : UserId, m.readBy.countP (fun r => decide (r.user = u)) ≤ 1) := by
  obtain ⟨chat, -, -, hrun⟩ := handleMarkRead_completed env1 socket chatId w hok
  have hfirst : (handleMarkRead env1 socket chatId w).1.db.messages =
      w.db.messages.map (markMessageRead chatId socket.userId env1.now) := by
    rw [hrun]; rfl
  have hsecond : (handleMarkRead env2 socket chatId
      (handleMarkRead env1 socket chatId w).1).1.db.messages =
      (handleMarkRead env1 socket chatId w).1.db.messages := by
    rcases handleMarkRead_messages env2 socket chatId (handleMarkRead env1 socket chatId w).1
      with h | h
    · exact h
    · rw [h, hfirst, List.map_map]
      apply List.map_congr_left
      intro m _
      exact markMessageRead_idem chatId socket.userId env1.now env2.now m
  refine ⟨?_, hsecond, ?_⟩
  · intro m hm hchat hsender
    rw [hfirst, List.mem_map] at hm
    obtain ⟨m0, hm0, rfl⟩ := hm
    obtain ⟨hc, hs⟩ := markMessageRead_chat_sender chatId socket.userId env1.now m0
    exact markMessageRead_count_self chatId socket.userId env1.now m0 (hc ▸ hchat)
      (hs ▸ hsender) (hone m0 hm0 socket.userId)
  · intro m hm u
    rw [hsecond, hfirst, List.mem_map] at hm
    obtain ⟨m0, hm0, rfl⟩ := hm
    exact markMessageRead_count_le chatId socket.userId u env1.now m0 (hone m0 hm0 u)

/-- An instance of C3: user 2 reads chat 100 twice, the second time later. -/
theorem handleMarkRead_idempotent_witness :
    (∀ m ∈ (handleMarkRead Example.env Example.bob 100 Example.world).1.db.messages,
      m.chat = 100 → m.sender ≠ Example.bob.userId →
        m.readBy.countP (fun r => decide (r.user = Example.bob.userId)) = 1) ∧
    (handleMarkRead Example.laterEnv Example.bob 100
        (handleMarkRead Example.env Example.bob 100 Example.world).1).1.db.messages =
      (handleMarkRead Example.env Example.bob 100 Example.world).1.db.messages ∧
    (∀ m ∈ (handleMarkRead Example.laterEnv Example.bob 100
        (handleMarkRead Example.env Example.bob 100 Example.world).1).1.db.messages,
      ∀ u : UserId, m.readBy.countP (fun r => decide (r.user = u)) ≤ 1) :=
  handleMarkRead_idempotent Example.env Example.laterEnv Example.bob 100 Example.world
    (by
      intro m hm u
      have hm' : m = Example.earlierMessage ∨ m = Example.foreignMessage := by
        simpa [Example.world] using hm
      rcases hm' with rfl | rfl
      · by_cases h : 3 = u <;> simp [Example.earlierMessage, List.countP_cons, h]
      · simp [Example.foreignMessage])
    (by decide)

/-! ## The session registry -/

/-- C4: after two connection events of one user, with connection ids
`s1.id` then `s2.id`, the registry holds `s2.id` for that user and no other
entry for the user, and `emitToUser` and `emitNotification` for the user each
make one emit, addressed to `s2.id` and not to `s1.id`. -/
theorem second_connection_supersedes (w : World) (s1 s2 : Socket) (event data : String)
    (huser : s1.userId = s2.userId) (hid : s1.id ≠ s2.id) :
    JSMap.get (onConnection s2 (onConnection s1 w)).userSockets s1.userId = some s2.id ∧
    (∀ id, (s1.userId, id) ∈ (onConnection s2 (onConnection s1 w)).userSockets → id = s2.id) ∧
    emittedBy (onConnection s2 (onConnection s1 w))
        (emitToUser s1.userId event data (onConnection s2 (onConnection s1 w))) =
      [{ target := .to (.socket s2.id), event := event, payload := .data data }] ∧
    emittedBy (onConnection s2 (onConnection s1 w))
        (emitNotification s1.userId data (onConnection s2 (onConnection s1 w))) =
      [{ target := .to (.socket s2.id), event := "new-notification", payload := .data data }] ∧
    Target.to (.socket s2.id) ≠ Target.to (.socket s1.id) := by
  have hget : JSMap.get (onConnection s2 (onConnection s1 w)).userSockets s1.userId =
      some s2.id := by
    simp only [onConnection, huser]
    exact JSMap.get_set_self _ _ _
  refine ⟨hget, ?_, ?_, ?_, ?_⟩
  · intro id hmem
    simp only [onConnection, huser] at hmem
    exact JSMap.mem_set_self _ _ _ _ hmem
  · simp [emitToUser, hget, emittedBy, World.emit]
  · simp [emitNotification, hget, emittedBy, World.emit]
  · intro h
    injection h with h
    injection h with h
    exact hid h.symm

/-- An instance of C4: user 1 connects with connection 10, then with connection 11. -/
theorem second_connection_supersedes_witness :
    JSMap.get (onConnection Example.aliceAgain (onConnection Example.alice Example.world)).userSockets
        1 = some 11 ∧
    (∀ id, (1, id) ∈
        (onConnection Example.aliceAgain (onConnection Example.alice Example.world)).userSockets →
      id = 11) ∧
    emittedBy (onConnection Example.aliceAgain (onConnection Example.alice Example.world))
        (emitToUser 1 "ping" "x"
          (onConnection Example.aliceAgain (onConnection Example.alice Example.world))) =
      [{ target := .to (.socket 11), event := "ping", payload := .data "x" }] ∧
    emittedBy (onConnection Example.aliceAgain (onConnection Example.alice Example.world))
        (emitNotification 1 "x"
          (onConnection Example.aliceAgain (onConnection Example.alice Example.world))) =
      [{ target := .to (.socket 11), event := "new-notification", payload := .data "x" }] ∧
    Target.to (.socket 11) ≠ Target.to (.socket 10) :=
  second_connection_supersedes Example.world Example.alice Example.aliceAgain "ping" "x"
    (by decide) (by decide)

/-- C5 as stated fails: user 1 connects with connection 10 and then with
connection 11; `handleDisconnect` for connection 10 leaves no registry entry
for user 1, although the entry held connection 11. -/
theorem stale_disconnect_evicts_newer_session :
    JSMap.get (onConnection Example.aliceAgain (onConnection Example.alice Example.world)).userSockets
        1 = some 11 ∧
    JSMap.get (handleDisconnect Example.alice
        (onConnection Example.aliceAgain (onConnection Example.alice Example.world))).userSockets
        1 = none := by
  decide

/-- C5 amended: `handleDisconnect` removes the registry entry of the
disconnecting connection's user without comparing connection ids; after user
`u` connected with `s1` and later with `s2`, `handleDisconnect` for `s1` leaves
no entry for `u`, and the entries of all other users are as before. -/
theorem handleDisconnect_removes_entry (w : World) (s1 s2 : Socket)
    (huser : s1.userId = s2.userId) :
    JSMap.get (handleDisconnect s1 (onConnection s2 (onConnection s1 w))).userSockets s2.userId =
      none ∧
    ∀ v, v ≠ s2.userId →
      JSMap.get (handleDisconnect s1 (onConnection s2 (onConnection s1 w))).userSockets v =
        JSMap.get (onConnection s2 (onConnection s1 w)).userSockets v := by
  constructor
  · simp only [handleDisconnect, huser]
    exact JSMap.get_delete_self _ _
  · intro v hv
    simp only [handleDisconnect, huser]
    exact JSMap.get_delete_other _ _ _ hv

/-- An instance of C5 as amended: connections 10 and 11 of user 1, then connection 10 disconnects. -/
theorem handleDisconnect_removes_entry_witness :
    JSMap.get (handleDisconnect Example.alice
        (onConnection Example.aliceAgain (onConnection Example.alice Example.world))).userSockets
        1 = none ∧
    ∀ v, v ≠ 1 →
      JSMap.get (handleDisconnect Example.alice
          (onConnection Example.aliceAgain (onConnection Example.alice Example.world))).userSockets
          v =
        JSMap.get
          (onConnection Example.aliceAgain (onConnection Example.alice Example.world)).userSockets v :=
  handleDisconnect_removes_entry Example.world Example.alice Example.aliceAgain (by decide)

/-! ## The message pipeline: drops, failures and the fan-out -/

theorem notifyParticipant_effect (env : Env) (socket : Socket) (chatId : ChatId)
    (messageId : MessageId) (w : World) (p : UserId) :
    (notifyParticipant env socket chatId messageId w p).db.notifications =
      w.db.notifications ++
        (if p ≠ socket.userId ∧ env.notificationCreateFails p = false then
          [messageNotification socket chatId messageId p] else []) ∧
    ∃ es, (notifyParticipant env socket chatId messageId w p).emitted = w.emitted ++ es ∧
      ∀ e ∈ es, e.event = "new-notification" := by
  unfold notifyParticipant
  by_cases hp : p = socket.userId
  · simp [hp]
  · by_cases hf : env.notificationCreateFails p = true
    · simp [hp, hf]
    · simp only [ne_eq, hp, not_false_eq_true, if_true, hf, Bool.false_eq_true, if_false]
      have hf' : env.notificationCreateFails p = false := by simpa using hf
      constructor
      · split <;> simp [World.emit, Db.insertNotification, hf']
      · split
        · exact ⟨_, rfl, by simp⟩
        · exact ⟨[], by simp, by simp⟩

theorem foldl_notifyParticipant_effect (env : Env) (socket : Socket) (chatId : ChatId)
    (messageId : MessageId) (ps : List UserId) (w : World) :
    (ps.foldl (notifyParticipant env socket chatId messageId) w).db.notifications =
      w.db.notifications ++
        (ps.filter (fun p => !decide (p = socket.userId) && !env.notificationCreateFails p)).map
          (messageNotification socket chatId messageId) ∧
    ∃ es, (ps.foldl (notifyParticipant env socket chatId messageId) w).emitted =
        w.emitted ++ es ∧
      ∀ e ∈ es, e.event = "new-notification" := by
  induction ps generalizing w with
  | nil => exact ⟨by simp, [], by simp, by simp⟩
  | cons a rest ih =>
    rw [List.foldl_cons]
    obtain ⟨hn, es1, he1, hev1⟩ := notifyParticipant_effect env socket chatId messageId w a
    obtain ⟨ihn, es2, he2, hev2⟩ := ih (notifyParticipant env socket chatId messageId w a)
    constructor
    · rw [ihn, hn, List.filter_cons]
      by_cases ha : a = socket.userId
      · simp [ha]
      · by_cases hf : env.notificationCreateFails a = true
        · simp [ha, hf]
        · have hf' : env.notificationCreateFails a = false := by simpa using hf
          simp [ha, hf']
    · refine ⟨es1 ++ es2, ?_, ?_⟩
      · rw [he2, he1, List.append_assoc]
      · intro e he
        rcases List.mem_append.mp he with h | h
        · exact hev1 e h
        · exact hev2 e h

/-- The run of `handleNewMessage` when the lookup answers with a chat that
lists the sender, the message is valid and both saves and the populate go
through: the try block runs to its end. -/
theorem handleNewMessage_run (env : Env) (socket : Socket) (data : NewMessageData) (w : World)
    (chat : Chat)
    (hfind : env.chatFindFails = false)
    (hchat : Chat.findById w.db data.chatId = some chat)
    (hmem : socket.userId ∈ chat.participants)
    (hvalid : (data.toMessage env socket).valid = true)
    (hmsg : env.messageSaveFails = false)
    (hsave : env.chatSaveFails = false)
    (hpop : env.populateFails = false) :
    handleNewMessage env socket data w =
      (chat.participants.foldl
        (notifyParticipant env socket data.chatId (data.toMessage env socket).id)
        (World.emit
          { w with db := ((w.db.insertMessage (data.toMessage env socket)).saveChat
              (chat.recordMessage socket.userId (data.toMessage env socket).id env.now)) }
          (newMessageEmit
            ((w.db.insertMessage (data.toMessage env socket)).saveChat
              (chat.recordMessage socket.userId (data.toMessage env socket).id env.now))
            socket data (data.toMessage env socket))), .completed) := by
  unfold handleNewMessage
  simp [hfind, hchat, hmem, hvalid, hmsg, hsave, hpop, Chat.recordMessage]

/-- C6 fails on the code: user 1 sends a new-message event to chat 100 whose
`replyTo` names message 700 of chat 200, and another whose `replyTo` names no
stored message.  The reply check of the REST handler rejects both references,
yet `handleNewMessage` runs to its end, stores a message carrying the
reference and broadcasts it. -/
theorem handleNewMessage_accepts_invalid_reply :
    Message.findById Example.world.db 700 = some Example.foreignMessage ∧
    Example.foreignMessage.chat ≠ Example.replyAcrossChats.chatId ∧
    replyReferenceValid Example.world.db 100 (some 700) = false ∧
    (handleNewMessage Example.env Example.alice Example.replyAcrossChats Example.world).2 =
      .completed ∧
    Example.replyAcrossChats.toMessage Example.env Example.alice ∈
      (handleNewMessage Example.env Example.alice Example.replyAcrossChats
        Example.world).1.db.messages ∧
    (Example.replyAcrossChats.toMessage Example.env Example.alice).replyTo = some 700 ∧
    (∃ e ∈ emittedBy Example.world
        (handleNewMessage Example.env Example.alice Example.replyAcrossChats Example.world).1,
      e.event = "new-message" ∧ e.target = .to (.chat 100)) ∧
    Message.findById Example.world.db 999 = none ∧
    replyReferenceValid Example.world.db 100 (some 999) = false ∧
    (handleNewMessage Example.env Example.alice Example.replyToNothing Example.world).2 =
      .completed ∧
    Example.replyToNothing.toMessage Example.env Example.alice ∈
      (handleNewMessage Example.env Example.alice Example.replyToNothing
        Example.world).1.db.messages ∧
    (∃ e ∈ emittedBy Example.world
        (handleNewMessage Example.env Example.alice Example.replyToNothing Example.world).1,
      e.event = "new-message" ∧ e.target = .to (.chat 100)) := by
  decide

/-- C7 as stated fails: the chat id of the event names no chat and, being no
well-formed identifier, makes `Chat.findById` reject; the handler then logs
the error and sends the error event to the calling connection. -/
theorem handleNewMessage_unknown_chat_gets_error :
    Chat.findById Example.world.db Example.toNowhere.chatId = none ∧
    Example.chatLookupRejects.chatFindFails = true ∧
    (handleNewMessage Example.chatLookupRejects Example.alice Example.toNowhere
      Example.world).2 = .failed ∧
    emittedBy Example.world
        (handleNewMessage Example.chatLookupRejects Example.alice Example.toNowhere
          Example.world).1 =
      [{ target := .direct Example.alice.id
         event := "error"
         payload := .error "Failed to send message" }] := by
  decide

/-- C7 amended: let the chat id of a new-message event name no chat, or a
chat that does not list the connection's user.  (1) When the lookup answers,
`handleNewMessage` returns at the access check with the world as it was: no
message, no chat update, no notification, no emit of any kind (so no
new-message, new-notification or error event), nothing logged.  (2) When the
lookup rejects, as it does for a chat id that is no well-formed identifier,
the store is left as it was, the error is logged, and the run emits exactly
one event: the error event, to the calling connection alone. -/
theorem handleNewMessage_drops_or_reports (env : Env) (socket : Socket)
    (data : NewMessageData) (w : World)
    (hdrop : ∀ chat, Chat.findById w.db data.chatId = some chat →
      socket.userId ∉ chat.participants) :
    (env.chatFindFails = false →
      handleNewMessage env socket data w = (w, .dropped) ∧
      emittedBy w (handleNewMessage env socket data w).1 = []) ∧
    (env.chatFindFails = true →
      (handleNewMessage env socket data w).2 = .failed ∧
      (handleNewMessage env socket data w).1.db = w.db ∧
      (handleNewMessage env socket data w).1.errorLog =
        w.errorLog ++ ["Error handling new message:"] ∧
      emittedBy w (handleNewMessage env socket data w).1 =
        [{ target := .direct socket.id
           event := "error"
           payload := .error "Failed to send message" }]) := by
  constructor
  · intro hfind
    have hrun : handleNewMessage env socket data w = (w, .dropped) := by
      unfold handleNewMessage
      cases hc : Chat.findById w.db data.chatId with
      | none => simp [hfind]
      | some chat => simp [hfind, hdrop chat hc]
    exact ⟨hrun, by simp [hrun, emittedBy]⟩
  · intro hfind
    have hrun : handleNewMessage env socket data w = newMessageCatch socket w := by
      unfold handleNewMessage
      simp [hfind]
    rw [hrun]
    simp [newMessageCatch, World.emit, emittedBy, errorEmit]

/-- Three instances of C7 as amended: a chat id that names no chat and a
sender who is no participant, the lookup answering; and a chat id that names
no chat, the lookup rejecting. -/
theorem handleNewMessage_drops_or_reports_witness :
    (handleNewMessage Example.env Example.alice Example.toNowhere Example.world =
        (Example.world, .dropped) ∧
      emittedBy Example.world
        (handleNewMessage Example.env Example.alice Example.toNowhere Example.world).1 = []) ∧
    (handleNewMessage Example.env Example.dora Example.hello Example.world =
        (Example.world, .dropped) ∧
      emittedBy Example.world
        (handleNewMessage Example.env Example.dora Example.hello Example.world).1 = []) ∧
    ((handleNewMessage Example.chatLookupRejects Example.alice Example.toNowhere
        Example.world).2 = .failed ∧
      (handleNewMessage Example.chatLookupRejects Example.alice Example.toNowhere
        Example.world).1.db = Example.world.db ∧
      (handleNewMessage Example.chatLookupRejects Example.alice Example.toNowhere
        Example.world).1.errorLog = Example.world.errorLog ++ ["Error handling new message:"] ∧
      emittedBy Example.world
          (handleNewMessage Example.chatLookupRejects Example.alice Example.toNowhere
            Example.world).1 =
        [{ target := .direct Example.alice.id
           event := "error"
           payload := .error "Failed to send message" }]) :=
  ⟨(handleNewMessage_drops_or_reports Example.env Example.alice Example.toNowhere Example.world
      (fun chat h => by
        rw [show Chat.findById Example.world.db Example.toNowhere.chatId = none by decide] at h
        cases h)).1 rfl,
    (handleNewMessage_drops_or_reports Example.env Example.dora Example.hello Example.world
      (fun chat h => by
        rw [show Chat.findById Example.world.db Example.hello.chatId = some Example.chat
          by decide] at h
        cases h
        decide)).1 rfl,
    (handleNewMessage_drops_or_reports Example.chatLookupRejects Example.alice Example.toNowhere
      Example.world
      (fun chat h => by
        rw [show Chat.findById Example.world.db Example.toNowhere.chatId = none by decide] at h
        cases h)).2 rfl⟩

/-- C8: (1) when the message save is rejected, by schema validation or by
the store, the store is left as it was (so the chat keeps its `lastMessage`,
`lastMessageAt` and `unreadCount`) and no new-message event is emitted;
(2) when a new-message event is emitted, the message save and the chat save
both went through: the message is stored and the stored chat is the updated
one; (3) when the access check passed and the message save or the chat save
is rejected, the run emits exactly one event, the error event addressed to
the sending connection alone. -/
theorem handleNewMessage_persistence_failure (env : Env) (socket : Socket)
    (data : NewMessageData) (w : World) :
    ((data.toMessage env socket).valid = false ∨ env.messageSaveFails = true →
      (handleNewMessage env socket data w).1.db = w.db ∧
      ∀ e ∈ emittedBy w (handleNewMessage env socket data w).1, e.event ≠ "new-message") ∧
    ((∃ e ∈ emittedBy w (handleNewMessage env socket data w).1, e.event = "new-message") →
      (data.toMessage env socket).valid = true ∧
      env.messageSaveFails = false ∧ env.chatSaveFails = false ∧
      data.toMessage env socket ∈ (handleNewMessage env socket data w).1.db.messages ∧
      ∃ chat, Chat.findById w.db data.chatId = some chat ∧
        Chat.findById (handleNewMessage env socket data w).1.db data.chatId =
          some (chat.recordMessage socket.userId env.newMessageId env.now)) ∧
    (∀ chat, env.chatFindFails = false → Chat.findById w.db data.chatId = some chat →
      socket.userId ∈ chat.participants →
      ((data.toMessage env socket).valid = false ∨ env.messageSaveFails = true ∨
        env.chatSaveFails = true) →
      (handleNewMessage env socket data w).2 = .failed ∧
      emittedBy w (handleNewMessage env socket data w).1 =
        [{ target := .direct socket.id
           event := "error"
           payload := .error "Failed to send message" }]) := by
  refine ⟨?_, ?_, ?_⟩
  · intro hrej
    have hcond : (!(data.toMessage env socket).valid || env.messageSaveFails) = true := by
      rcases hrej with h | h <;> simp [h]
    unfold handleNewMessage
    by_cases h1 : env.chatFindFails = true
    · simp [h1, newMessageCatch, World.emit, emittedBy, errorEmit]
    · cases hc : Chat.findById w.db data.chatId with
      | none => simp [h1, emittedBy]
      | some chat =>
        by_cases h2 : socket.userId ∈ chat.participants
        · simp only [h1, Bool.false_eq_true, if_false, List.contains_eq_any_beq, hcond, if_true]
          split
          · simp [emittedBy]
          · simp [newMessageCatch, World.emit, emittedBy, errorEmit]
        · simp [h1, h2, emittedBy]
  · rintro ⟨e, he, hev⟩
    have hok : (handleNewMessage env socket data w).2 = .completed := by
      revert he
      unfold handleNewMessage
      by_cases h1 : env.chatFindFails = true
      · simp only [h1, if_true, newMessageCatch, emittedBy, World.emit, List.drop_left,
          List.mem_singleton]
        intro he
        rw [he] at hev
        simp [errorEmit] at hev
      · cases hc : Chat.findById w.db data.chatId with
        | none => simp [h1, emittedBy]
        | some chat =>
          simp only [h1, Bool.false_eq_true, if_false]
          split
          · simp [emittedBy]
          · split
            · simp only [newMessageCatch, emittedBy, World.emit, List.drop_left,
                List.mem_singleton]
              intro he
              rw [he] at hev
              simp [errorEmit] at hev
            · split
              · simp only [newMessageCatch, emittedBy, World.emit, List.drop_left,
                  List.mem_singleton]
                intro he
                rw [he] at hev
                simp [errorEmit] at hev
              · split
                · simp only [newMessageCatch, emittedBy, World.emit, List.drop_left,
                    List.mem_singleton]
                  intro he
                  rw [he] at hev
                  simp [errorEmit] at hev
                · intro _; rfl
    obtain ⟨chat, hchat, hmem, -, hvalid, hmsg, hsave, -, hrun⟩ :=
      handleNewMessage_completed env socket data w hok
    refine ⟨hvalid, hmsg, hsave, ?_, chat, hchat, ?_⟩
    · rw [hrun, (foldl_notifyParticipant_chats env socket data.chatId _ chat.participants _).2.1]
      simp [World.emit, Db.saveChat, Db.insertMessage]
    · have hfind : Chat.findById (w.db.insertMessage (data.toMessage env socket)) data.chatId =
          some chat := hchat
      have hsaved := Chat.findById_saveChat _ data.chatId chat
        (chat.recordMessage socket.userId (data.toMessage env socket).id env.now) hfind rfl
      rw [hrun]
      unfold Chat.findById at hsaved ⊢
      rw [(foldl_notifyParticipant_chats env socket data.chatId _ chat.participants _).1]
      exact hsaved
  · intro chat hfind hchat hmem hfail
    unfold handleNewMessage
    by_cases hrej : (!(data.toMessage env socket).valid || env.messageSaveFails) = true
    · simp [hfind, hchat, hmem, hrej, newMessageCatch, World.emit, emittedBy, errorEmit]
    · have hsave : env.chatSaveFails = true := by
        rcases hfail with h | h | h
        · simp [h] at hrej
        · simp [h] at hrej
        · exact h
      simp [hfind, hchat, hmem, hrej, hsave, newMessageCatch, World.emit, emittedBy, errorEmit]

/-- Instances of C8: the store rejects the message save; and a run in which nothing is rejected. -/
theorem handleNewMessage_persistence_failure_witness :
    ((handleNewMessage Example.storeRejectsMessage Example.alice Example.hello
        Example.world).1.db = Example.world.db ∧
      ∀ e ∈ emittedBy Example.world
          (handleNewMessage Example.storeRejectsMessage Example.alice Example.hello
            Example.world).1,
        e.event ≠ "new-message") ∧
    ((handleNewMessage Example.storeRejectsMessage Example.alice Example.hello
        Example.world).2 = .failed ∧
      emittedBy Example.world
          (handleNewMessage Example.storeRejectsMessage Example.alice Example.hello
            Example.world).1 =
        [{ target := .direct 10, event := "error", payload := .error "Failed to send message" }]) ∧
    ((Example.hello.toMessage Example.env Example.alice).valid = true ∧
      Example.env.messageSaveFails = false ∧ Example.env.chatSaveFails = false ∧
      Example.hello.toMessage Example.env Example.alice ∈
        (handleNewMessage Example.env Example.alice Example.hello Example.world).1.db.messages ∧
      ∃ chat, Chat.findById Example.world.db Example.hello.chatId = some chat ∧
        Chat.findById (handleNewMessage Example.env Example.alice Example.hello
            Example.world).1.db Example.hello.chatId =
          some (chat.recordMessage 1 900 5)) :=
  ⟨(handleNewMessage_persistence_failure Example.storeRejectsMessage Example.alice Example.hello
      Example.world).1 (Or.inr rfl),
    (handleNewMessage_persistence_failure Example.storeRejectsMessage Example.alice Example.hello
      Example.world).2.2 Example.chat rfl (by decide) (by decide) (Or.inr (Or.inl rfl)),
    (handleNewMessage_persistence_failure Example.env Example.alice Example.hello
      Example.world).2.1 (by decide)⟩

/-- The world `handleNewMessage` hands to the fan-out: the message is stored,
the updated chat saved and the broadcast emitted. -/
theorem handleNewMessage_run_effects (env : Env) (socket : Socket)
    (data : NewMessageData) (w : World) (chat : Chat)
    (hfind : env.chatFindFails = false)
    (hchat : Chat.findById w.db data.chatId = some chat)
    (hmem : socket.userId ∈ chat.participants)
    (hvalid : (data.toMessage env socket).valid = true)
    (hmsg : env.messageSaveFails = false)
    (hsave : env.chatSaveFails = false)
    (hpop : env.populateFails = false) :
    (handleNewMessage env socket data w).2 = .completed ∧
    (handleNewMessage env socket data w).1.db.messages =
      w.db.messages ++ [data.toMessage env socket] ∧
    Chat.findById (handleNewMessage env socket data w).1.db data.chatId =
      some (chat.recordMessage socket.userId env.newMessageId env.now) ∧
    (∃ es, emittedBy w (handleNewMessage env socket data w).1 =
        newMessageEmit
          ((w.db.insertMessage (data.toMessage env socket)).saveChat
            (chat.recordMessage socket.userId env.newMessageId env.now))
          socket data (data.toMessage env socket) :: es ∧
      ∀ e ∈ es, e.event = "new-notification") ∧
    (handleNewMessage env socket data w).1.db.notifications =
      w.db.notifications ++
        (chat.participants.filter
          (fun p => !decide (p = socket.userId) && !env.notificationCreateFails p)).map
          (messageNotification socket data.chatId env.newMessageId) := by
  have hrun := handleNewMessage_run env socket data w chat hfind hchat hmem hvalid hmsg hsave hpop
  obtain ⟨hn, es, hes, hev⟩ := foldl_notifyParticipant_effect env socket data.chatId
    (data.toMessage env socket).id chat.participants
    (World.emit
      { w with db := ((w.db.insertMessage (data.toMessage env socket)).saveChat
          (chat.recordMessage socket.userId (data.toMessage env socket).id env.now)) }
      (newMessageEmit
        ((w.db.insertMessage (data.toMessage env socket)).saveChat
          (chat.recordMessage socket.userId (data.toMessage env socket).id env.now))
        socket data (data.toMessage env socket)))
  obtain ⟨hchats, hmsgs, -, -⟩ := foldl_notifyParticipant_chats env socket data.chatId
    (data.toMessage env socket).id chat.participants
    (World.emit
      { w with db := ((w.db.insertMessage (data.toMessage env socket)).saveChat
          (chat.recordMessage socket.userId (data.toMessage env socket).id env.now)) }
      (newMessageEmit
        ((w.db.insertMessage (data.toMessage env socket)).saveChat
          (chat.recordMessage socket.userId (data.toMessage env socket).id env.now))
        socket data (data.toMessage env socket)))
  refine ⟨by rw [hrun], ?_, ?_, ⟨es, ?_, hev⟩, ?_⟩
  · rw [hrun]
    simp only
    rw [hmsgs]
    rfl
  · have hfind' : Chat.findById (w.db.insertMessage (data.toMessage env socket)) data.chatId =
        some chat := hchat
    have hsaved := Chat.findById_saveChat _ data.chatId chat
      (chat.recordMessage socket.userId (data.toMessage env socket).id env.now) hfind' rfl
    rw [hrun]
    unfold Chat.findById at hsaved ⊢
    simp only
    rw [hchats]
    exact hsaved
  · rw [hrun]
    simp only [emittedBy]
    rw [hes]
    simp [World.emit]
    rfl
  · rw [hrun]
    simp only
    rw [hn]
    rfl

/-- What one fan-out callback does besides storing and pushing: it logs
nothing, and a rejected create is left unhandled and ends the process. -/
theorem notifyParticipant_exit (env : Env) (socket : Socket) (chatId : ChatId)
    (messageId : MessageId) (w : World) (p : UserId) :
    (notifyParticipant env socket chatId messageId w p).errorLog = w.errorLog ∧
    w.unhandledRejections ≤
      (notifyParticipant env socket chatId messageId w p).unhandledRejections ∧
    (w.terminated = true →
      (notifyParticipant env socket chatId messageId w p).terminated = true) ∧
    (p ≠ socket.userId → env.notificationCreateFails p = true →
      (notifyParticipant env socket chatId messageId w p).terminated = true ∧
      w.unhandledRejections <
        (notifyParticipant env socket chatId messageId w p).unhandledRejections) := by
  unfold notifyParticipant
  by_cases hp : p = socket.userId
  · simp [hp]
  · by_cases hf : env.notificationCreateFails p = true
    · simp [hp, hf]
    · have hf' : env.notificationCreateFails p = false := by simpa using hf
      cases hget : JSMap.get w.userSockets p with
      | none => simp [hp, hf', hget]
      | some sid => simp [hp, hf', hget, World.emit]

theorem foldl_notifyParticipant_exit (env : Env) (socket : Socket) (chatId : ChatId)
    (messageId : MessageId) (ps : List UserId) (w : World) :
    (ps.foldl (notifyParticipant env socket chatId messageId) w).errorLog = w.errorLog ∧
    w.unhandledRejections ≤
      (ps.foldl (notifyParticipant env socket chatId messageId) w).unhandledRejections ∧
    (w.terminated = true →
      (ps.foldl (notifyParticipant env socket chatId messageId) w).terminated = true) ∧
    ((∃ p ∈ ps, p ≠ socket.userId ∧ env.notificationCreateFails p = true) →
      (ps.foldl (notifyParticipant env socket chatId messageId) w).terminated = true ∧
      w.unhandledRejections <
        (ps.foldl (notifyParticipant env socket chatId messageId) w).unhandledRejections) := by
  induction ps generalizing w with
  | nil =>
    refine ⟨rfl, le_refl _, fun h => h, ?_⟩
    rintro ⟨p, hp, -⟩
    cases hp
  | cons a rest ih =>
    rw [List.foldl_cons]
    obtain ⟨h1, h2, h3, h4⟩ := notifyParticipant_exit env socket chatId messageId w a
    obtain ⟨i1, i2, i3, i4⟩ := ih (notifyParticipant env socket chatId messageId w a)
    refine ⟨i1.trans h1, le_trans h2 i2, fun h => i3 (h3 h), ?_⟩
    rintro ⟨p, hp, hne, hf⟩
    rcases List.mem_cons.mp hp with h | h
    · rw [h] at hne hf
      obtain ⟨ht, hlt⟩ := h4 hne hf
      exact ⟨i3 ht, lt_of_lt_of_le hlt i2⟩
    · obtain ⟨ht, hlt⟩ := i4 ⟨p, h, hne, hf⟩
      exact ⟨ht, lt_of_le_of_lt h2 hlt⟩

/-- C9 as stated fails: `Notification.create` is rejected for user 2 while
user 1 sends to the chat of users 1, 2 and 3.  The sender gets no error event
and the message stays stored, but the failure is neither logged nor
swallowed: the rejected promise stays unhandled, and that ends the process. -/
theorem handleNewMessage_fanout_failure_ends_process :
    Example.world.terminated = false ∧
    Example.createFailsForBob.notificationCreateFails 2 = true ∧
    (handleNewMessage Example.createFailsForBob Example.alice Example.hello Example.world).2 =
      .completed ∧
    (handleNewMessage Example.createFailsForBob Example.alice Example.hello
      Example.world).1.errorLog = Example.world.errorLog ∧
    (handleNewMessage Example.createFailsForBob Example.alice Example.hello
      Example.world).1.unhandledRejections = Example.world.unhandledRejections + 1 ∧
    (handleNewMessage Example.createFailsForBob Example.alice Example.hello
      Example.world).1.terminated = true := by
  decide

/-- C9 amended: let the access check pass, the message be valid, both saves
and the populate go through, and let `Notification.create` be rejected for a
participant other than the sender.  Then the try block of `handleNewMessage`
runs to its end: the message is stored, the stored chat is the updated one,
the new-message broadcast to the room of the chat is among the emits of the
run, no error event is emitted and nothing is logged.  The rejection is
handled nowhere: it is left as an unhandled rejection, which ends the
process.  Every notification in the store afterwards was there before or is
the one of a participant other than the sender whose create was not
rejected. -/
theorem handleNewMessage_fanout_failure_unhandled (env : Env) (socket : Socket)
    (data : NewMessageData) (w : World) (chat : Chat)
    (hfind : env.chatFindFails = false)
    (hchat : Chat.findById w.db data.chatId = some chat)
    (hmem : socket.userId ∈ chat.participants)
    (hvalid : (data.toMessage env socket).valid = true)
    (hmsg : env.messageSaveFails = false)
    (hsave : env.chatSaveFails = false)
    (hpop : env.populateFails = false)
    (hfail : ∃ p ∈ chat.participants, p ≠ socket.userId ∧
      env.notificationCreateFails p = true) :
    (handleNewMessage env socket data w).2 = .completed ∧
    (handleNewMessage env socket data w).1.db.messages =
      w.db.messages ++ [data.toMessage env socket] ∧
    Chat.findById (handleNewMessage env socket data w).1.db data.chatId =
      some (chat.recordMessage socket.userId env.newMessageId env.now) ∧
    (∃ e ∈ emittedBy w (handleNewMessage env socket data w).1,
      e.event = "new-message" ∧ e.target = .to (.chat data.chatId)) ∧
    (∀ e ∈ emittedBy w (handleNewMessage env socket data w).1, e.event ≠ "error") ∧
    (handleNewMessage env socket data w).1.errorLog = w.errorLog ∧
    w.unhandledRejections < (handleNewMessage env socket data w).1.unhandledRejections ∧
    (handleNewMessage env socket data w).1.terminated = true ∧
    (∀ n ∈ (handleNewMessage env socket data w).1.db.notifications,
      n ∈ w.db.notifications ∨
      ∃ p ∈ chat.participants, p ≠ socket.userId ∧ env.notificationCreateFails p = false ∧
        n = messageNotification socket data.chatId env.newMessageId p) := by
  obtain ⟨hcompleted, hmessages, hsaved, ⟨es, hemitted, hev⟩, hnotifs⟩ :=
    handleNewMessage_run_effects env socket data w chat hfind hchat hmem hvalid hmsg hsave hpop
  have hrun := handleNewMessage_run env socket data w chat hfind hchat hmem hvalid hmsg hsave hpop
  obtain ⟨hlog, -, -, hexit⟩ := foldl_notifyParticipant_exit env socket data.chatId
    (data.toMessage env socket).id chat.participants
    (World.emit
      { w with db := ((w.db.insertMessage (data.toMessage env socket)).saveChat
          (chat.recordMessage socket.userId (data.toMessage env socket).id env.now)) }
      (newMessageEmit
        ((w.db.insertMessage (data.toMessage env socket)).saveChat
          (chat.recordMessage socket.userId (data.toMessage env socket).id env.now))
        socket data (data.toMessage env socket)))
  obtain ⟨hterminated, hcount⟩ := hexit hfail
  refine ⟨hcompleted, hmessages, hsaved, ?_, ?_, ?_, ?_, ?_, ?_⟩
  · rw [hemitted]
    exact ⟨_, List.mem_cons_self _ _, rfl, rfl⟩
  · intro e he
    rw [hemitted] at he
    rcases List.mem_cons.mp he with h | h
    · rw [h]; simp [newMessageEmit]
    · rw [hev e h]; decide
  · rw [hrun]
    exact hlog
  · rw [hrun]
    exact hcount
  · rw [hrun]
    exact hterminated
  · intro n hn
    rw [hnotifs, List.mem_append, List.mem_map] at hn
    rcases hn with h | ⟨p, hp, rfl⟩
    · exact Or.inl h
    · rw [List.mem_filter] at hp
      have h2 := hp.2
      simp only [Bool.and_eq_true, Bool.not_eq_true', decide_eq_false_iff_not] at h2
      exact Or.inr ⟨p, hp.1, h2.1, h2.2, rfl⟩

/-- An instance of C9 as amended: the create for user 2 is rejected while
user 1 sends to the chat of users 1, 2 and 3. -/
theorem handleNewMessage_fanout_failure_unhandled_witness :
    (handleNewMessage Example.createFailsForBob Example.alice Example.hello Example.world).2 =
      .completed ∧
    (handleNewMessage Example.createFailsForBob Example.alice Example.hello
        Example.world).1.db.messages =
      Example.world.db.messages ++ [Example.hello.toMessage Example.createFailsForBob Example.alice] ∧
    Chat.findById (handleNewMessage Example.createFailsForBob Example.alice Example.hello
        Example.world).1.db Example.hello.chatId =
      some (Example.chat.recordMessage 1 900 5) ∧
    (∃ e ∈ emittedBy Example.world
        (handleNewMessage Example.createFailsForBob Example.alice Example.hello Example.world).1,
      e.event = "new-message" ∧ e.target = .to (.chat Example.hello.chatId)) ∧
    (∀ e ∈ emittedBy Example.world
        (handleNewMessage Example.createFailsForBob Example.alice Example.hello Example.world).1,
      e.event ≠ "error") ∧
    (handleNewMessage Example.createFailsForBob Example.alice Example.hello
      Example.world).1.errorLog = Example.world.errorLog ∧
    Example.world.unhandledRejections <
      (handleNewMessage Example.createFailsForBob Example.alice Example.hello
        Example.world).1.unhandledRejections ∧
    (handleNewMessage Example.createFailsForBob Example.alice Example.hello
      Example.world).1.terminated = true ∧
    (∀ n ∈ (handleNewMessage Example.createFailsForBob Example.alice Example.hello
        Example.world).1.db.notifications,
      n ∈ Example.world.db.notifications ∨
      ∃ p ∈ Example.chat.participants, p ≠ 1 ∧
        Example.createFailsForBob.notificationCreateFails p = false ∧
        n = messageNotification Example.alice Example.hello.chatId 900 p) :=
  handleNewMessage_fanout_failure_unhandled Example.createFailsForBob Example.alice
    Example.hello Example.world Example.chat rfl (by decide) (by decide) (by decide) rfl rfl rfl
    ⟨2, by decide, by decide, rfl⟩

/-- C10: for a chat with pairwise distinct participants, a completed
`handleNewMessage` in which no `Notification.create` is rejected adds to the
notifications, for each participant other than the sender, exactly one record,
the one of type message with the sender, the chat id and the id of the new
message; every record added is for a participant, and none is for the
sender. -/
theorem handleNewMessage_notifications (env : Env) (socket : Socket) (data : NewMessageData)
    (w : World) (chat : Chat)
    (hchat : Chat.findById w.db data.chatId = some chat)
    (hdistinct : chat.participants.Nodup)
    (hcreate : ∀ p, env.notificationCreateFails p = false)
    (hok : (handleNewMessage env socket data w).2 = .completed) :
    ∃ created, (handleNewMessage env socket data w).1.db.notifications =
        w.db.notifications ++ created ∧
      (∀ p ∈ chat.participants, p ≠ socket.userId →
        created.filter (fun n => decide (n.recipient = p)) =
          [{ recipient := p
             sender := socket.userId
             type := "message"
             post := none
             comment := none
             chat := some data.chatId
             message := some env.newMessageId
             isRead := false
             readAt := none }]) ∧
      (∀ n ∈ created, n.recipient ∈ chat.participants ∧ n.recipient ≠ socket.userId) := by
  obtain ⟨c, hc, hmem, hfind, hvalid, hmsg, hsave, hpop, -⟩ :=
    handleNewMessage_completed env socket data w hok
  rw [hchat] at hc
  cases hc
  obtain ⟨-, -, -, -, hn⟩ := handleNewMessage_run_effects env socket data w
    chat hfind hchat hmem hvalid hmsg hsave hpop
  refine ⟨_, hn, ?_, ?_⟩
  · intro p hp hne
    rw [List.filter_map, List.filter_filter]
    have hfilter : chat.participants.filter
        (fun a => ((fun n => decide (n.recipient = p)) ∘
            messageNotification socket data.chatId env.newMessageId) a &&
          (!decide (a = socket.userId) && !env.notificationCreateFails a)) = [p] := by
      have hcount : chat.participants.filter (fun a => decide (a = p)) = [p] := by
        rw [List.filter_eq, List.count_eq_one_of_mem hdistinct hp]
        rfl
      rw [← hcount]
      apply List.filter_congr
      intro a _
      by_cases hap : a = p
      · subst hap; simp [messageNotification, hne, hcreate]
      · simp [messageNotification, hap]
    rw [hfilter]
    rfl
  · intro n hn'
    rw [List.mem_map] at hn'
    obtain ⟨p, hp, rfl⟩ := hn'
    rw [List.mem_filter] at hp
    refine ⟨hp.1, ?_⟩
    have := hp.2
    simp only [Bool.and_eq_true, Bool.not_eq_true', decide_eq_false_iff_not] at this
    exact this.1

/-- An instance of C10: user 1 sends to the chat of users 1, 2 and 3. -/
theorem handleNewMessage_notifications_witness :
    ∃ created, (handleNewMessage Example.env Example.alice Example.hello
        Example.world).1.db.notifications = Example.world.db.notifications ++ created ∧
      (∀ p ∈ Example.chat.participants, p ≠ Example.alice.userId →
        created.filter (fun n => decide (n.recipient = p)) =
          [{ recipient := p
             sender := Example.alice.userId
             type := "message"
             post := none
             comment := none
             chat := some Example.hello.chatId
             message := some Example.env.newMessageId
             isRead := false
             readAt := none }]) ∧
      (∀ n ∈ created,
        n.recipient ∈ Example.chat.participants ∧ n.recipient ≠ Example.alice.userId) :=
  handleNewMessage_notifications Example.env Example.alice Example.hello Example.world
    Example.chat (by decide) (by decide) (fun _ => rfl) (by decide)

/-! ## Typing indicators -/

theorem JSMap.get_eq_none_iff {κ ν : Type} [DecidableEq κ] (m : JSMap κ ν) (k : κ) :
    JSMap.get m k = none ↔ k ∉ JSMap.keys m := by
  induction m with
  | nil => simp [JSMap.get, JSMap.keys]
  | cons e rest ih =>
    by_cases hek : e.1 = k
    · simp [JSMap.get, JSMap.keys, hek]
    · have hke : ¬ k = e.1 := fun h => hek h.symm
      simp only [JSMap.get, if_neg hek, ih, JSMap.keys, List.map_cons, List.mem_cons, hke,
        false_or]

theorem JSMap.get_of_mem {κ ν : Type} [DecidableEq κ] (m : JSMap κ ν) (k : κ) (v : ν)
    (hkeys : (JSMap.keys m).Nodup) (hmem : (k, v) ∈ m) : JSMap.get m k = some v := by
  induction m with
  | nil => cases hmem
  | cons e rest ih =>
    simp only [JSMap.keys, List.map_cons, List.nodup_cons] at hkeys
    rcases List.mem_cons.mp hmem with h | h
    · subst h; simp [JSMap.get]
    · have hne : ¬ e.1 = k := by
        intro heq
        apply hkeys.1
        rw [heq]
        exact List.mem_map_of_mem Prod.fst h
      simp only [JSMap.get, if_neg hne]
      exact ih hkeys.2 h

theorem JSMap.mem_of_get {κ ν : Type} [DecidableEq κ] (m : JSMap κ ν) (k : κ) (v : ν)
    (hget : JSMap.get m k = some v) : (k, v) ∈ m := by
  induction m with
  | nil => simp [JSMap.get] at hget
  | cons e rest ih =>
    by_cases hek : e.1 = k
    · simp only [JSMap.get, if_pos hek, Option.some.injEq] at hget
      have : e = (k, v) := by rw [← hek, ← hget]
      rw [this]; exact List.mem_cons_self _ _
    · simp only [JSMap.get, if_neg hek] at hget
      exact List.mem_cons_of_mem _ (ih hget)

theorem JSMap.delete_of_not_key {κ ν : Type} [DecidableEq κ] (m : JSMap κ ν) (k : κ)
    (hk : k ∉ JSMap.keys m) : JSMap.delete m k = m := by
  unfold JSMap.delete
  rw [List.filter_eq_self]
  intro e he
  have : e.1 ≠ k := by
    intro heq
    apply hk
    rw [← heq]
    exact List.mem_map_of_mem Prod.fst he
  simp [this]

theorem JSMap.replace_of_not_key {κ ν : Type} [DecidableEq κ] (m : JSMap κ ν) (k : κ) (v : ν)
    (hk : k ∉ JSMap.keys m) : m.map (fun e => if e.1 = k then (k, v) else e) = m := by
  induction m with
  | nil => rfl
  | cons e rest ih =>
    simp only [JSMap.keys, List.map_cons, List.mem_cons, not_or] at hk
    have hne : ¬ e.1 = k := fun h => hk.1 h.symm
    simp only [List.map_cons, if_neg hne]
    rw [ih hk.2]

theorem JSMap.replace_self {κ ν : Type} [DecidableEq κ] (m : JSMap κ ν) (k : κ) (v : ν)
    (hkeys : (JSMap.keys m).Nodup) (hmem : (k, v) ∈ m) :
    m.map (fun e => if e.1 = k then (k, v) else e) = m := by
  have hid : m.map (fun e => if e.1 = k then (k, v) else e) = m.map id := by
    apply List.map_congr_left
    intro e he
    by_cases hek : e.1 = k
    · rw [if_pos hek]
      have h1 := JSMap.get_of_mem m k v hkeys hmem
      have h2 := JSMap.get_of_mem m e.1 e.2 hkeys he
      rw [hek, h1] at h2
      have hv : v = e.2 := Option.some.inj h2
      rw [hv, ← hek]
      rfl
    · rw [if_neg hek]
      rfl
  rw [hid, List.map_id]

theorem JSMap.replace_replace {κ ν : Type} [DecidableEq κ] (m : JSMap κ ν) (k : κ) (v v' : ν) :
    (m.map (fun e => if e.1 = k then (k, v) else e)).map (fun e => if e.1 = k then (k, v') else e) =
      m.map (fun e => if e.1 = k then (k, v') else e) := by
  rw [List.map_map]
  apply List.map_congr_left
  intro e _
  by_cases hek : e.1 = k <;> simp [hek]

theorem JSMap.keys_set_nodup {κ ν : Type} [DecidableEq κ] (m : JSMap κ ν) (k : κ) (v : ν)
    (hkeys : (JSMap.keys m).Nodup) : (JSMap.keys (JSMap.set m k v)).Nodup := by
  unfold JSMap.set
  split
  · have : JSMap.keys (m.map (fun e => if e.1 = k then (k, v) else e)) = JSMap.keys m := by
      unfold JSMap.keys
      rw [List.map_map]
      apply List.map_congr_left
      intro e _
      by_cases hek : e.1 = k <;> simp [hek]
    rw [this]; exact hkeys
  · rename_i hhas
    have hnone : JSMap.get m k = none := by
      unfold JSMap.has at hhas
      cases hg : JSMap.get m k with
      | none => rfl
      | some y => simp [hg] at hhas
    have hk := (JSMap.get_eq_none_iff m k).mp hnone
    unfold JSMap.keys at hkeys hk ⊢
    rw [List.map_append, List.nodup_append]
    refine ⟨hkeys, by simp, ?_⟩
    intro a ha hb
    simp only [List.map_cons, List.map_nil, List.mem_singleton] at hb
    exact hk (hb ▸ ha)

theorem JSMap.keys_delete_nodup {κ ν : Type} [DecidableEq κ] (m : JSMap κ ν) (k : κ)
    (hkeys : (JSMap.keys m).Nodup) : (JSMap.keys (JSMap.delete m k)).Nodup := by
  unfold JSMap.delete JSMap.keys
  exact (List.Nodup.sublist (List.Sublist.map _ (List.filter_sublist _)) hkeys)

theorem JSMap.mem_set {κ ν : Type} [DecidableEq κ] (m : JSMap κ ν) (k : κ) (v : ν) (e : κ × ν)
    (hmem : e ∈ JSMap.set m k v) : e = (k, v) ∨ e ∈ m := by
  unfold JSMap.set at hmem
  split at hmem
  · rw [List.mem_map] at hmem
    obtain ⟨e0, he0, rfl⟩ := hmem
    by_cases hek : e0.1 = k
    · left; simp [hek]
    · right; simpa [hek] using he0
  · rw [List.mem_append] at hmem
    rcases hmem with h | h
    · exact Or.inr h
    · exact Or.inl (by simpa using h)

theorem JSMap.mem_delete {κ ν : Type} [DecidableEq κ] (m : JSMap κ ν) (k : κ) (e : κ × ν)
    (hmem : e ∈ JSMap.delete m k) : e ∈ m :=
  List.mem_of_mem_filter hmem
theorem JSSet.add_ne_nil {α : Type} [DecidableEq α] (s : List α) (x : α) : JSSet.add s x ≠ [] := by
  unfold JSSet.add
  split
  · rename_i h
    exact List.ne_nil_of_mem h
  · simp

theorem JSSet.delete_of_not_mem {α : Type} [DecidableEq α] (s : List α) (x : α) (h : x ∉ s) :
    JSSet.delete s x = s := by
  unfold JSSet.delete
  rw [List.filter_eq_self]
  intro y hy
  have : y ≠ x := fun heq => h (heq ▸ hy)
  simp [this]

theorem JSSet.delete_add_of_not_mem {α : Type} [DecidableEq α] (s : List α) (x : α) (h : x ∉ s) :
    JSSet.delete (JSSet.add s x) x = s := by
  have hdel := JSSet.delete_of_not_mem s x h
  unfold JSSet.add
  rw [if_neg h]
  unfold JSSet.delete at hdel ⊢
  rw [List.filter_append, hdel]
  simp

/-- The typing map after `handleTypingStart`: a chat without entry gets the
entry with the user alone, a chat with an entry gets the user added to it. -/
theorem handleTypingStart_typing (socket : Socket) (chatId : ChatId) (w : World) :
    (handleTypingStart socket chatId w).typingUsers =
      match JSMap.get w.typingUsers chatId with
      | none => w.typingUsers ++ [(chatId, [socket.userId])]
      | some users =>
        w.typingUsers.map
          (fun e => if e.1 = chatId then (chatId, JSSet.add users socket.userId) else e) := by
  unfold handleTypingStart
  simp only [World.emit]
  cases hget : JSMap.get w.typingUsers chatId with
  | none =>
    have hk := (JSMap.get_eq_none_iff _ _).mp hget
    have hset : JSMap.set w.typingUsers chatId ([] : List UserId) =
        w.typingUsers ++ [(chatId, [])] := by
      simp [JSMap.set, JSMap.has, hget]
    have hget' : JSMap.get (w.typingUsers ++ [(chatId, ([] : List UserId))]) chatId =
        some [] := by
      rw [JSMap.get_append_single, hget]; simp
    simp only [JSMap.has, hget, Option.isSome_none, Bool.not_false, if_true, hset, hget',
      Option.getD_some]
    simp only [JSMap.set, JSMap.has, hget', Option.isSome_some, if_true, List.map_append,
      List.map_cons, List.map_nil, JSMap.replace_of_not_key _ _ _ hk]
    simp [JSSet.add]
  | some users =>
    simp [JSMap.has, hget, JSMap.set]

theorem handleTypingStop_typing (socket : Socket) (chatId : ChatId) (w : World) :
    (handleTypingStop socket chatId w).typingUsers =
      match JSMap.get w.typingUsers chatId with
      | some users =>
        if (JSSet.delete users socket.userId).length = 0 then JSMap.delete w.typingUsers chatId
        else JSMap.set w.typingUsers chatId (JSSet.delete users socket.userId)
      | none => w.typingUsers := by
  unfold handleTypingStop
  simp only [World.emit]

theorem TypingWellFormed.set (typing : JSMap ChatId (List UserId)) (chatId : ChatId)
    (users : List UserId) (hwf : TypingWellFormed typing) (hne : users ≠ []) :
    TypingWellFormed (JSMap.set typing chatId users) := by
  refine ⟨JSMap.keys_set_nodup _ _ _ hwf.1, ?_⟩
  intro e he
  rcases JSMap.mem_set _ _ _ _ he with h | h
  · rw [h]; exact hne
  · exact hwf.2 e h

theorem TypingWellFormed.delete (typing : JSMap ChatId (List UserId)) (chatId : ChatId)
    (hwf : TypingWellFormed typing) : TypingWellFormed (JSMap.delete typing chatId) :=
  ⟨JSMap.keys_delete_nodup _ _ hwf.1, fun e he => hwf.2 e (JSMap.mem_delete _ _ _ he)⟩

theorem handleTypingStart_wellFormed (socket : Socket) (chatId : ChatId) (w : World)
    (hwf : TypingWellFormed w.typingUsers) :
    TypingWellFormed (handleTypingStart socket chatId w).typingUsers := by
  rw [handleTypingStart_typing]
  cases hget : JSMap.get w.typingUsers chatId with
  | none =>
    have hset : JSMap.set w.typingUsers chatId [socket.userId] =
        w.typingUsers ++ [(chatId, [socket.userId])] := by
      simp [JSMap.set, JSMap.has, hget]
    simp only
    rw [← hset]
    exact TypingWellFormed.set _ _ _ hwf (by simp)
  | some users =>
    have hset : JSMap.set w.typingUsers chatId (JSSet.add users socket.userId) =
        w.typingUsers.map
          (fun e => if e.1 = chatId then (chatId, JSSet.add users socket.userId) else e) := by
      simp [JSMap.set, JSMap.has, hget]
    simp only
    rw [← hset]
    exact TypingWellFormed.set _ _ _ hwf (JSSet.add_ne_nil _ _)

theorem handleTypingStop_wellFormed (socket : Socket) (chatId : ChatId) (w : World)
    (hwf : TypingWellFormed w.typingUsers) :
    TypingWellFormed (handleTypingStop socket chatId w).typingUsers := by
  rw [handleTypingStop_typing]
  cases JSMap.get w.typingUsers chatId with
  | none => exact hwf
  | some users =>
    simp only
    split
    · exact TypingWellFormed.delete _ _ hwf
    · rename_i hlen
      exact TypingWellFormed.set _ _ _ hwf (fun h => hlen (by rw [h]; rfl))

theorem foldl_dropTyping_wellFormed (userId : UserId) (entries : List (ChatId × List UserId))
    (typing : JSMap ChatId (List UserId)) (hwf : TypingWellFormed typing) :
    TypingWellFormed (entries.foldl (dropTyping userId) typing) := by
  induction entries generalizing typing with
  | nil => exact hwf
  | cons e rest ih =>
    rw [List.foldl_cons]
    apply ih
    unfold dropTyping
    simp only
    split
    · exact TypingWellFormed.delete _ _ hwf
    · rename_i hlen
      exact TypingWellFormed.set _ _ _ hwf (fun h => hlen (by rw [h]; rfl))

theorem handleDisconnect_wellFormed (socket : Socket) (w : World)
    (hwf : TypingWellFormed w.typingUsers) :
    TypingWellFormed (handleDisconnect socket w).typingUsers := by
  unfold handleDisconnect
  exact foldl_dropTyping_wellFormed _ _ _ hwf

/-- Every typing state reached from a well-formed one through typing-start,
typing-stop and disconnect events is well-formed. -/
theorem runTypingEvents_wellFormed (events : List TypingEvent) (w : World)
    (hwf : TypingWellFormed w.typingUsers) :
    TypingWellFormed (runTypingEvents events w).typingUsers := by
  unfold runTypingEvents
  induction events generalizing w with
  | nil => exact hwf
  | cons e rest ih =>
    rw [List.foldl_cons]
    apply ih
    cases e with
    | start socket chatId => exact handleTypingStart_wellFormed socket chatId w hwf
    | stop socket chatId => exact handleTypingStop_wellFormed socket chatId w hwf
    | disconnect socket => exact handleDisconnect_wellFormed socket w hwf

theorem TypingWellFormed.nil : TypingWellFormed [] :=
  ⟨List.nodup_nil, fun _ h => absurd h (List.not_mem_nil _)⟩
theorem typingIn_nil_iff_of_wellFormed (typing : JSMap ChatId (List UserId)) (chatId : ChatId)
    (hwf : TypingWellFormed typing) :
    typingIn typing chatId = [] ↔ JSMap.get typing chatId = none := by
  unfold typingIn
  cases hget : JSMap.get typing chatId with
  | none => simp
  | some users =>
    have hne := hwf.2 _ (JSMap.mem_of_get _ _ _ hget)
    simp only [Option.getD_some]
    constructor
    · intro h; exact absurd h hne
    · intro h; cases h

theorem handleTypingStop_noop_of_wellFormed (socket : Socket) (chatId : ChatId) (w : World)
    (hwf : TypingWellFormed w.typingUsers)
    (hnot : socket.userId ∉ typingIn w.typingUsers chatId) :
    (handleTypingStop socket chatId w).typingUsers = w.typingUsers := by
  rw [handleTypingStop_typing]
  unfold typingIn at hnot
  cases hget : JSMap.get w.typingUsers chatId with
  | none => rfl
  | some users =>
    rw [hget] at hnot
    simp only [Option.getD_some] at hnot
    have hmem := JSMap.mem_of_get _ _ _ hget
    have hne : users ≠ [] := hwf.2 _ hmem
    have hlen : ¬ users.length = 0 := fun h => hne (List.length_eq_zero.mp h)
    simp only [JSSet.delete_of_not_mem users socket.userId hnot, if_neg hlen]
    simp only [JSMap.set, JSMap.has, hget, Option.isSome_some, if_true]
    exact JSMap.replace_self _ _ _ hwf.1 hmem

theorem handleTypingStart_stop_of_wellFormed (socket : Socket) (chatId : ChatId) (w : World)
    (hwf : TypingWellFormed w.typingUsers)
    (hnot : socket.userId ∉ typingIn w.typingUsers chatId) :
    (handleTypingStop socket chatId (handleTypingStart socket chatId w)).typingUsers =
      w.typingUsers := by
  rw [handleTypingStop_typing, handleTypingStart_typing]
  unfold typingIn at hnot
  cases hget : JSMap.get w.typingUsers chatId with
  | none =>
    have hk := (JSMap.get_eq_none_iff _ _).mp hget
    have hget' : JSMap.get (w.typingUsers ++ [(chatId, [socket.userId])]) chatId =
        some [socket.userId] := by
      rw [JSMap.get_append_single, hget]; simp
    simp only [hget']
    have hdel : JSSet.delete [socket.userId] socket.userId = [] := by
      simp [JSSet.delete]
    simp only [hdel, List.length_nil, if_true]
    have happ : JSMap.delete (w.typingUsers ++ [(chatId, [socket.userId])]) chatId =
        JSMap.delete w.typingUsers chatId := by
      simp [JSMap.delete, List.filter_append]
    rw [happ]
    exact JSMap.delete_of_not_key _ _ hk
  | some users =>
    rw [hget] at hnot
    simp only [Option.getD_some] at hnot
    have hmem := JSMap.mem_of_get _ _ _ hget
    have hne : users ≠ [] := hwf.2 _ hmem
    have hlen : ¬ users.length = 0 := fun h => hne (List.length_eq_zero.mp h)
    have hget' : JSMap.get (w.typingUsers.map
        (fun e => if e.1 = chatId then (chatId, JSSet.add users socket.userId) else e)) chatId =
        some (JSSet.add users socket.userId) := by
      rw [JSMap.get_map_replace, if_pos rfl, hget]; rfl
    simp only [hget', JSSet.delete_add_of_not_mem users socket.userId hnot, if_neg hlen]
    simp only [JSMap.set, JSMap.has, hget', Option.isSome_some, if_true]
    rw [JSMap.replace_replace]
    exact JSMap.replace_self _ _ _ hwf.1 hmem

/-- C13: in every typing state reached from the empty map through
typing-start, typing-stop and disconnect events in which the user is not
typing in the chat, `handleTypingStart` followed by `handleTypingStop` of that
user for that chat gives back the very same `typingUsers` map; when nobody was
typing in the chat before, the chat has no entry afterwards. -/
theorem typing_start_then_stop_restores (events : List TypingEvent) (w0 : World)
    (socket : Socket) (chatId : ChatId)
    (hinit : w0.typingUsers = [])
    (hnot : socket.userId ∉ typingIn (runTypingEvents events w0).typingUsers chatId) :
    (handleTypingStop socket chatId
        (handleTypingStart socket chatId (runTypingEvents events w0))).typingUsers =
      (runTypingEvents events w0).typingUsers ∧
    (typingIn (runTypingEvents events w0).typingUsers chatId = [] →
      JSMap.get (handleTypingStop socket chatId
        (handleTypingStart socket chatId (runTypingEvents events w0))).typingUsers chatId =
        none) := by
  have hwf : TypingWellFormed (runTypingEvents events w0).typingUsers :=
    runTypingEvents_wellFormed events w0 (hinit ▸ TypingWellFormed.nil)
  have heq := handleTypingStart_stop_of_wellFormed socket chatId _ hwf hnot
  refine ⟨heq, ?_⟩
  intro hempty
  rw [heq]
  exact (typingIn_nil_iff_of_wellFormed _ _ hwf).mp hempty

/-- C14: in every typing state reached from the empty map through
typing-start, typing-stop and disconnect events, `handleTypingStop` for a user
who is not typing in the chat, the chat having an entry or not, leaves the
whole `typingUsers` map as it was, logs no error and emits nothing but the
user-typing-stop broadcast. -/
theorem typing_stop_absent_noop (events : List TypingEvent) (w0 : World)
    (socket : Socket) (chatId : ChatId)
    (hinit : w0.typingUsers = [])
    (hnot : socket.userId ∉ typingIn (runTypingEvents events w0).typingUsers chatId) :
    (handleTypingStop socket chatId (runTypingEvents events w0)).typingUsers =
      (runTypingEvents events w0).typingUsers ∧
    (handleTypingStop socket chatId (runTypingEvents events w0)).errorLog =
      (runTypingEvents events w0).errorLog ∧
    emittedBy (runTypingEvents events w0)
        (handleTypingStop socket chatId (runTypingEvents events w0)) =
      [{ target := .toExcept (.chat chatId) socket.id
         event := "user-typing-stop"
         payload := .userTypingStop chatId socket.userId }] := by
  have hwf : TypingWellFormed (runTypingEvents events w0).typingUsers :=
    runTypingEvents_wellFormed events w0 (hinit ▸ TypingWellFormed.nil)
  refine ⟨handleTypingStop_noop_of_wellFormed socket chatId _ hwf hnot, ?_, ?_⟩
  · simp [handleTypingStop, World.emit]
  · simp [handleTypingStop, World.emit, emittedBy]

theorem foldl_dropTyping_get (userId : UserId) (entries : List (ChatId × List UserId))
    (typing : JSMap ChatId (List UserId)) (chatId : ChatId)
    (hkeys : (JSMap.keys entries).Nodup) :
    JSMap.get (entries.foldl (dropTyping userId) typing) chatId =
      match JSMap.get entries chatId with
      | some users =>
        if (JSSet.delete users userId).length = 0 then none
        else some (JSSet.delete users userId)
      | none => JSMap.get typing chatId := by
  induction entries generalizing typing with
  | nil => simp [JSMap.get]
  | cons e rest ih =>
    simp only [JSMap.keys, List.map_cons, List.nodup_cons] at hkeys
    rw [List.foldl_cons, ih _ hkeys.2]
    by_cases hek : e.1 = chatId
    · have hnone : JSMap.get rest chatId = none := by
        rw [JSMap.get_eq_none_iff]
        rw [← hek]
        exact hkeys.1
      simp only [hnone, JSMap.get, if_pos hek]
      unfold dropTyping
      simp only
      split
      · rw [hek]; exact JSMap.get_delete_self _ _
      · rw [hek]; exact JSMap.get_set_self _ _ _
    · have hce : chatId ≠ e.1 := fun h => hek h.symm
      simp only [JSMap.get, if_neg hek]
      cases JSMap.get rest chatId with
      | some users => rfl
      | none =>
        simp only
        unfold dropTyping
        simp only
        split
        · exact JSMap.get_delete_other _ _ _ hce
        · exact JSMap.get_set_other _ _ _ _ hce

theorem handleDisconnect_typingIn (socket : Socket) (w : World) (chatId : ChatId)
    (hkeys : (JSMap.keys w.typingUsers).Nodup) :
    typingIn (handleDisconnect socket w).typingUsers chatId =
      JSSet.delete (typingIn w.typingUsers chatId) socket.userId := by
  unfold typingIn handleDisconnect
  simp only
  rw [foldl_dropTyping_get _ _ _ _ hkeys]
  cases JSMap.get w.typingUsers chatId with
  | none => simp [JSSet.delete]
  | some users =>
    simp only [Option.getD_some]
    split
    · rename_i hlen
      simp only [Option.getD_none]
      exact (List.length_eq_zero.mp hlen).symm
    · rfl

/-- C15: `typingUsers` being a map (no chat id occurs twice), after
`handleDisconnect` for a connection of user `u` the user is typing in no chat,
and for every other user and every chat the user is typing in the chat
afterwards exactly when the user was before. -/
theorem handleDisconnect_clears_typing (socket : Socket) (w : World)
    (hkeys : (JSMap.keys w.typingUsers).Nodup) :
    (∀ chatId, socket.userId ∉ typingIn (handleDisconnect socket w).typingUsers chatId) ∧
    (∀ chatId v, v ≠ socket.userId →
      (v ∈ typingIn (handleDisconnect socket w).typingUsers chatId ↔
        v ∈ typingIn w.typingUsers chatId)) := by
  constructor
  · intro chatId
    rw [handleDisconnect_typingIn socket w chatId hkeys]
    simp [JSSet.delete]
  · intro chatId v hv
    rw [handleDisconnect_typingIn socket w chatId hkeys]
    simp [JSSet.delete, hv]
/-- An instance of C13: user 4 starts and stops typing in chat 100 while
user 2 is typing there. -/
theorem typing_start_then_stop_restores_witness :
    (handleTypingStop Example.dora 100
        (handleTypingStart Example.dora 100
          (runTypingEvents Example.typingEvents Example.world))).typingUsers =
      (runTypingEvents Example.typingEvents Example.world).typingUsers ∧
    (typingIn (runTypingEvents Example.typingEvents Example.world).typingUsers 100 = [] →
      JSMap.get (handleTypingStop Example.dora 100
        (handleTypingStart Example.dora 100
          (runTypingEvents Example.typingEvents Example.world))).typingUsers 100 = none) :=
  typing_start_then_stop_restores Example.typingEvents Example.world Example.dora 100 rfl
    (by decide)

/-- An instance of C14: user 4, who never started, stops typing in chat 100. -/
theorem typing_stop_absent_noop_witness :
    (handleTypingStop Example.dora 100
        (runTypingEvents Example.typingEvents Example.world)).typingUsers =
      (runTypingEvents Example.typingEvents Example.world).typingUsers ∧
    (handleTypingStop Example.dora 100
        (runTypingEvents Example.typingEvents Example.world)).errorLog =
      (runTypingEvents Example.typingEvents Example.world).errorLog ∧
    emittedBy (runTypingEvents Example.typingEvents Example.world)
        (handleTypingStop Example.dora 100
          (runTypingEvents Example.typingEvents Example.world)) =
      [{ target := .toExcept (.chat 100) 40
         event := "user-typing-stop"
         payload := .userTypingStop 100 4 }] :=
  typing_stop_absent_noop Example.typingEvents Example.world Example.dora 100 rfl (by decide)

/-- An instance of C15: user 2, typing in chats 100 and 200, disconnects. -/
theorem handleDisconnect_clears_typing_witness :
    (∀ chatId, 2 ∉ typingIn (handleDisconnect Example.bob
        (runTypingEvents Example.typingEvents Example.world)).typingUsers chatId) ∧
    (∀ chatId v, v ≠ 2 →
      (v ∈ typingIn (handleDisconnect Example.bob
          (runTypingEvents Example.typingEvents Example.world)).typingUsers chatId ↔
        v ∈ typingIn (runTypingEvents Example.typingEvents Example.world).typingUsers chatId)) :=
  handleDisconnect_clears_typing Example.bob
    (runTypingEvents Example.typingEvents Example.world) (by decide)

/-! ## The message pipeline: typing entries, stored fields and live pushes -/

theorem notifyParticipant_typing (env : Env) (socket : Socket) (chatId : ChatId)
    (messageId : MessageId) (w : World) (p : UserId) :
    (notifyParticipant env socket chatId messageId w p).typingUsers = w.typingUsers := by
  unfold notifyParticipant
  split
  · split
    · rfl
    · simp only
      split <;> rfl
  · rfl

theorem foldl_notifyParticipant_typing (env : Env) (socket : Socket) (chatId : ChatId)
    (messageId : MessageId) (ps : List UserId) (w : World) :
    (ps.foldl (notifyParticipant env socket chatId messageId) w).typingUsers =
      w.typingUsers := by
  induction ps generalizing w with
  | nil => rfl
  | cons a rest ih =>
    rw [List.foldl_cons, ih, notifyParticipant_typing]

/-- C16 as stated fails: user 1 is typing in chat 100 and sends a message to
it; `handleNewMessage` runs to its end and user 1 is still in the typing set
of chat 100. -/
theorem handleNewMessage_keeps_typing_entry :
    1 ∈ typingIn Example.aliceTyping.typingUsers 100 ∧
    (handleNewMessage Example.env Example.alice Example.hello Example.aliceTyping).2 =
      .completed ∧
    1 ∈ typingIn
      (handleNewMessage Example.env Example.alice Example.hello Example.aliceTyping).1.typingUsers
      100 := by
  decide

/-- C16 amended: `handleNewMessage` never changes `typingUsers`; after a
run, successful or not, a user is in the typing set of a chat exactly when the
user was before. -/
theorem handleNewMessage_typing_unchanged (env : Env) (socket : Socket)
    (data : NewMessageData) (w : World) :
    (handleNewMessage env socket data w).1.typingUsers = w.typingUsers ∧
    ∀ chatId u, u ∈ typingIn (handleNewMessage env socket data w).1.typingUsers chatId ↔
      u ∈ typingIn w.typingUsers chatId := by
  have heq : (handleNewMessage env socket data w).1.typingUsers = w.typingUsers := by
    unfold handleNewMessage
    by_cases h1 : env.chatFindFails = true
    · simp [h1, newMessageCatch, World.emit]
    · cases hc : Chat.findById w.db data.chatId with
      | none => simp [h1]
      | some chat =>
        by_cases h2 : socket.userId ∈ chat.participants
        · by_cases h3 : (!(data.toMessage env socket).valid || env.messageSaveFails) = true
          · simp [h1, h2, h3, newMessageCatch, World.emit]
          · by_cases h5 : env.chatSaveFails = true
            · simp [h1, h2, h3, h5, newMessageCatch, World.emit]
            · by_cases h6 : env.populateFails = true
              · simp [h1, h2, h3, h5, h6, newMessageCatch, World.emit]
              · simp [h1, h2, h3, h5, h6, foldl_notifyParticipant_typing, World.emit]
        · simp [h1, h2]
  exact ⟨heq, fun chatId u => by rw [heq]⟩

/-- C18: when the lookup answers and either finds no chat for `chatId` or
finds a chat that does not list the connection's user, `handleMarkRead`
returns at the access check with the world as it was: no receipt is added to
any message, no unread counter changes and nothing is emitted. -/
theorem handleMarkRead_drops (env : Env) (socket : Socket) (chatId : ChatId) (w : World)
    (hfind : env.chatFindFails = false)
    (hdrop : ∀ chat, Chat.findById w.db chatId = some chat →
      socket.userId ∉ chat.participants) :
    handleMarkRead env socket chatId w = (w, .dropped) ∧
    (handleMarkRead env socket chatId w).1.db.messages = w.db.messages ∧
    (handleMarkRead env socket chatId w).1.db.chats = w.db.chats ∧
    emittedBy w (handleMarkRead env socket chatId w).1 = [] := by
  have hrun : handleMarkRead env socket chatId w = (w, .dropped) := by
    unfold handleMarkRead
    cases hc : Chat.findById w.db chatId with
    | none => simp [hfind]
    | some chat => simp [hfind, hdrop chat hc]
  refine ⟨hrun, ?_, ?_, ?_⟩ <;> simp [hrun, emittedBy]

/-- Two instances of C18: a chat id that names no chat, and a user who is no
participant of the chat. -/
theorem handleMarkRead_drops_witness :
    (handleMarkRead Example.env Example.bob 300 Example.world = (Example.world, .dropped) ∧
      (handleMarkRead Example.env Example.bob 300 Example.world).1.db.messages =
        Example.world.db.messages ∧
      (handleMarkRead Example.env Example.bob 300 Example.world).1.db.chats =
        Example.world.db.chats ∧
      emittedBy Example.world (handleMarkRead Example.env Example.bob 300 Example.world).1 =
        []) ∧
    (handleMarkRead Example.env Example.dora 100 Example.world = (Example.world, .dropped) ∧
      (handleMarkRead Example.env Example.dora 100 Example.world).1.db.messages =
        Example.world.db.messages ∧
      (handleMarkRead Example.env Example.dora 100 Example.world).1.db.chats =
        Example.world.db.chats ∧
      emittedBy Example.world (handleMarkRead Example.env Example.dora 100 Example.world).1 =
        []) :=
  ⟨handleMarkRead_drops Example.env Example.bob 300 Example.world rfl
      (fun chat h => by
        rw [show Chat.findById Example.world.db 300 = none by decide] at h
        cases h),
    handleMarkRead_drops Example.env Example.dora 100 Example.world rfl
      (fun chat h => by
        rw [show Chat.findById Example.world.db 100 = some Example.chat by decide] at h
        cases h
        decide)⟩

theorem handleMarkRead_emitted (env : Env) (socket : Socket) (chatId : ChatId) (w : World)
    (hok : (handleMarkRead env socket chatId w).2 = .completed) :
    emittedBy w (handleMarkRead env socket chatId w).1 =
      [{ target := .toExcept (.chat chatId) socket.id
         event := "messages-read"
         payload := .messagesRead chatId socket.userId }] ∧
    (handleMarkRead env socket chatId w).1.db.messages =
      w.db.messages.map (markMessageRead chatId socket.userId env.now) := by
  obtain ⟨chat, -, -, hrun⟩ := handleMarkRead_completed env socket chatId w hok
  rw [hrun]
  constructor
  · simp [emittedBy, World.emit]
  · rfl

theorem handleMarkRead_rooms (env : Env) (socket : Socket) (chatId : ChatId) (w : World) :
    (handleMarkRead env socket chatId w).1.rooms = w.rooms := by
  unfold handleMarkRead
  by_cases h1 : env.chatFindFails = true
  · simp [h1, markReadCatch]
  · cases hc : Chat.findById w.db chatId with
    | none => simp [h1]
    | some chat =>
      by_cases h2 : socket.userId ∈ chat.participants
      · by_cases h3 : env.updateManyFails = true
        · simp [h1, h2, h3, markReadCatch]
        · by_cases h4 : env.chatSaveFails = true
          · simp [h1, h2, h3, h4, markReadCatch]
          · simp [h1, h2, h3, h4, World.emit]
      · simp [h1, h2]

/-- C19 as stated fails: user 1 holds connections 10 and 11, both in the room
of chat 100; the messages-read event of a mark-read sent over connection 10
is delivered to connection 11, a connection of the acting user, and withheld
from connection 10 alone. -/
theorem handleMarkRead_reaches_other_connection_of_user :
    Example.aliceAgain.userId = Example.alice.userId ∧
    Example.aliceAgain.id ≠ Example.alice.id ∧
    (handleMarkRead Example.env Example.alice 100 Example.twoConnections).2 = .completed ∧
    ∃ e ∈ emittedBy Example.twoConnections
        (handleMarkRead Example.env Example.alice 100 Example.twoConnections).1,
      e.event = "messages-read" ∧
      Target.delivers
        (handleMarkRead Example.env Example.alice 100 Example.twoConnections).1.rooms
        e.target Example.aliceAgain.id = true ∧
      Target.delivers
        (handleMarkRead Example.env Example.alice 100 Example.twoConnections).1.rooms
        e.target Example.alice.id = false := by
  decide

/-- C19 amended: a completed `handleMarkRead` by a participant emits exactly
one event: messages-read with the chat id and the user id, to the room of the
chat without the acting connection.  It is delivered to every connection in
the room other than the acting one, other connections of the acting user
included, and to no other connection.  A second completed run by the same
connection on the same chat leaves every message as it was, no receipt being
added, and emits the same event once more. -/
theorem handleMarkRead_broadcast (env1 env2 : Env) (socket : Socket) (chatId : ChatId)
    (w : World)
    (hok1 : (handleMarkRead env1 socket chatId w).2 = .completed)
    (hok2 : (handleMarkRead env2 socket chatId (handleMarkRead env1 socket chatId w).1).2 =
      .completed) :
    emittedBy w (handleMarkRead env1 socket chatId w).1 =
      [{ target := .toExcept (.chat chatId) socket.id
         event := "messages-read"
         payload := .messagesRead chatId socket.userId }] ∧
    (∀ s, Target.delivers (handleMarkRead env1 socket chatId w).1.rooms
        (.toExcept (.chat chatId) socket.id) s = true ↔
      (s, Room.chat chatId) ∈ w.rooms ∧ s ≠ socket.id) ∧
    (handleMarkRead env2 socket chatId (handleMarkRead env1 socket chatId w).1).1.db.messages =
      (handleMarkRead env1 socket chatId w).1.db.messages ∧
    emittedBy (handleMarkRead env1 socket chatId w).1
        (handleMarkRead env2 socket chatId (handleMarkRead env1 socket chatId w).1).1 =
      [{ target := .toExcept (.chat chatId) socket.id
         event := "messages-read"
         payload := .messagesRead chatId socket.userId }] := by
  obtain ⟨he1, hm1⟩ := handleMarkRead_emitted env1 socket chatId w hok1
  obtain ⟨he2, hm2⟩ := handleMarkRead_emitted env2 socket chatId _ hok2
  refine ⟨he1, ?_, ?_, he2⟩
  · intro s
    rw [handleMarkRead_rooms]
    simp [Target.delivers]
  · rw [hm2, hm1, List.map_map]
    apply List.map_congr_left
    intro m _
    exact markMessageRead_idem chatId socket.userId env1.now env2.now m

/-- An instance of C19 as amended: user 1, with connections 10 and 11 in the
room of chat 100, reads chat 100 twice over connection 10. -/
theorem handleMarkRead_broadcast_witness :
    emittedBy Example.twoConnections
        (handleMarkRead Example.env Example.alice 100 Example.twoConnections).1 =
      [{ target := .toExcept (.chat 100) 10
         event := "messages-read"
         payload := .messagesRead 100 1 }] ∧
    (∀ s, Target.delivers
        (handleMarkRead Example.env Example.alice 100 Example.twoConnections).1.rooms
        (.toExcept (.chat 100) 10) s = true ↔
      (s, Room.chat 100) ∈ Example.twoConnections.rooms ∧ s ≠ 10) ∧
    (handleMarkRead Example.laterEnv Example.alice 100
        (handleMarkRead Example.env Example.alice 100 Example.twoConnections).1).1.db.messages =
      (handleMarkRead Example.env Example.alice 100 Example.twoConnections).1.db.messages ∧
    emittedBy (handleMarkRead Example.env Example.alice 100 Example.twoConnections).1
        (handleMarkRead Example.laterEnv Example.alice 100
          (handleMarkRead Example.env Example.alice 100 Example.twoConnections).1).1 =
      [{ target := .toExcept (.chat 100) 10
         event := "messages-read"
         payload := .messagesRead 100 1 }] :=
  handleMarkRead_broadcast Example.env Example.laterEnv Example.alice 100 Example.twoConnections
    (by decide) (by decide)

/-- C20: a completed `handleNewMessage` adds exactly one message to the
store.  Its sender is the user id of the connection, whatever else the payload
carries, its chat is the chat id of the payload, its type is the type of the
payload or text when the payload has none, its reply reference is that of the
payload or null; the chat stored afterwards has that message's id as
`lastMessage`. -/
theorem handleNewMessage_stored_message (env : Env) (socket : Socket) (data : NewMessageData)
    (w : World)
    (hok : (handleNewMessage env socket data w).2 = .completed) :
    ∃ m, (handleNewMessage env socket data w).1.db.messages = w.db.messages ++ [m] ∧
      m.sender = socket.userId ∧
      m.chat = data.chatId ∧
      m.content = data.content ∧
      m.messageType = (match data.messageType with
        | some t => t
        | none => "text") ∧
      m.replyTo = data.replyTo ∧
      ∃ chat', Chat.findById (handleNewMessage env socket data w).1.db data.chatId =
          some chat' ∧
        chat'.lastMessage = some m.id := by
  obtain ⟨chat, hchat, hmem, hfind, hvalid, hmsg, hsave, hpop, -⟩ :=
    handleNewMessage_completed env socket data w hok
  obtain ⟨-, hmessages, hsaved, -, -⟩ :=
    handleNewMessage_run_effects env socket data w chat hfind hchat hmem hvalid hmsg hsave hpop
  refine ⟨data.toMessage env socket, hmessages, rfl, rfl, rfl, ?_, rfl, _, hsaved, rfl⟩
  show data.messageType.getD "text" = _
  cases data.messageType <;> rfl

/-- An instance of C20: user 1 sends an image message whose payload also
names user 2 as sender. -/
theorem handleNewMessage_stored_message_witness :
    ∃ m, (handleNewMessage Example.env Example.alice Example.forged
        Example.world).1.db.messages = Example.world.db.messages ++ [m] ∧
      m.sender = Example.alice.userId ∧
      m.chat = Example.forged.chatId ∧
      m.content = Example.forged.content ∧
      m.messageType = (match Example.forged.messageType with
        | some t => t
        | none => "text") ∧
      m.replyTo = Example.forged.replyTo ∧
      ∃ chat', Chat.findById (handleNewMessage Example.env Example.alice Example.forged
          Example.world).1.db Example.forged.chatId = some chat' ∧
        chat'.lastMessage = some m.id :=
  handleNewMessage_stored_message Example.env Example.alice Example.forged Example.world
    (by decide)

/-- The emits of the fan-out: one push for each participant other than the
sender whose create was not rejected and who has a registry entry, addressed
to the registered connection. -/
theorem foldl_notifyParticipant_emitted (env : Env) (socket : Socket) (chatId : ChatId)
    (messageId : MessageId) (ps : List UserId) (w : World) :
    (ps.foldl (notifyParticipant env socket chatId messageId) w).emitted =
      w.emitted ++ ps.filterMap (fun p =>
        if p ≠ socket.userId ∧ env.notificationCreateFails p = false then
          (JSMap.get w.userSockets p).map (fun participantSocketId =>
            ({ target := .to (.socket participantSocketId)
               event := "new-notification"
               payload := .newNotification "message" chatId
                 { id := socket.userId
                   username := socket.user.username
                   profilePic := socket.user.profilePic } } : Emit))
        else none) := by
  induction ps generalizing w with
  | nil => simp
  | cons a rest ih =>
    rw [List.foldl_cons, ih, (notifyParticipant_chats env socket chatId messageId w a).2.2.2,
      List.filterMap_cons]
    unfold notifyParticipant
    by_cases ha : a = socket.userId
    · simp [ha]
    · by_cases hf : env.notificationCreateFails a = true
      · simp [ha, hf]
      · have hf' : env.notificationCreateFails a = false := by simpa using hf
        simp only [ne_eq, ha, not_false_eq_true, hf', Bool.false_eq_true, if_false, if_true,
          and_self]
        cases hget : JSMap.get w.userSockets a with
        | none => simp
        | some sid => simp [World.emit]

/-- C11: (1) at the moment the fan-out callback for a participant `p` other
than the sender looks `p` up, its `Notification.create` having gone through,
the callback has stored the notification for `p` and emits the new-notification
event when the registry holds an entry for `p`, once, to the registered
connection, with type message, the chat id and the id, username and profile
picture of the sending user, and emits nothing when the registry holds no
entry; (2) the new-notification events of a completed `handleNewMessage` are
exactly those pushes. -/
theorem fanout_push_iff_registered (env : Env) (socket : Socket) (data : NewMessageData)
    (w : World) (chat : Chat)
    (hchat : Chat.findById w.db data.chatId = some chat)
    (hok : (handleNewMessage env socket data w).2 = .completed) :
    (∀ (w' : World) (p : UserId), p ≠ socket.userId → env.notificationCreateFails p = false →
      (notifyParticipant env socket data.chatId env.newMessageId w' p).db.notifications =
        w'.db.notifications ++ [messageNotification socket data.chatId env.newMessageId p] ∧
      emittedBy w' (notifyParticipant env socket data.chatId env.newMessageId w' p) =
        match JSMap.get w'.userSockets p with
        | some participantSocketId =>
          [{ target := .to (.socket participantSocketId)
             event := "new-notification"
             payload := .newNotification "message" data.chatId
               { id := socket.userId
                 username := socket.user.username
                 profilePic := socket.user.profilePic } }]
        | none => []) ∧
    (∀ e, e ∈ emittedBy w (handleNewMessage env socket data w).1 ∧
        e.event = "new-notification" ↔
      ∃ p ∈ chat.participants, p ≠ socket.userId ∧ env.notificationCreateFails p = false ∧
        ∃ participantSocketId, JSMap.get w.userSockets p = some participantSocketId ∧
          e = { target := .to (.socket participantSocketId)
                event := "new-notification"
                payload := .newNotification "message" data.chatId
                  { id := socket.userId
                    username := socket.user.username
                    profilePic := socket.user.profilePic } }) := by
  constructor
  · intro w' p hne hcreate
    unfold notifyParticipant
    simp only [ne_eq, hne, not_false_eq_true, if_true, hcreate, Bool.false_eq_true, if_false]
    cases hget : JSMap.get w'.userSockets p with
    | none => simp [emittedBy, Db.insertNotification]
    | some sid => simp [emittedBy, World.emit, Db.insertNotification]
  · obtain ⟨c, hc, -, -, -, -, -, -, hrun⟩ := handleNewMessage_completed env socket data w hok
    rw [hchat] at hc
    cases hc
    intro e
    have hemitted : emittedBy w (handleNewMessage env socket data w).1 =
        newMessageEmit
          ((w.db.insertMessage (data.toMessage env socket)).saveChat
            (chat.recordMessage socket.userId (data.toMessage env socket).id env.now))
          socket data (data.toMessage env socket) ::
        chat.participants.filterMap (fun p =>
          if p ≠ socket.userId ∧ env.notificationCreateFails p = false then
            (JSMap.get w.userSockets p).map (fun participantSocketId =>
              ({ target := .to (.socket participantSocketId)
                 event := "new-notification"
                 payload := .newNotification "message" data.chatId
                   { id := socket.userId
                     username := socket.user.username
                     profilePic := socket.user.profilePic } } : Emit))
          else none) := by
      rw [hrun]
      simp only [emittedBy]
      rw [foldl_notifyParticipant_emitted]
      simp [World.emit]
    rw [hemitted]
    constructor
    · rintro ⟨hmem, hev⟩
      rcases List.mem_cons.mp hmem with h | h
      · rw [h] at hev
        simp [newMessageEmit] at hev
      · rw [List.mem_filterMap] at h
        obtain ⟨p, hp, hpe⟩ := h
        by_cases hcond : p ≠ socket.userId ∧ env.notificationCreateFails p = false
        · rw [if_pos hcond] at hpe
          cases hget : JSMap.get w.userSockets p with
          | none => rw [hget] at hpe; cases hpe
          | some sid =>
            rw [hget] at hpe
            simp only [Option.map_some', Option.some.injEq] at hpe
            exact ⟨p, hp, hcond.1, hcond.2, sid, hget, hpe.symm⟩
        · rw [if_neg hcond] at hpe
          cases hpe
    · rintro ⟨p, hp, hne, hcreate, sid, hget, rfl⟩
      refine ⟨List.mem_cons_of_mem _ ?_, rfl⟩
      rw [List.mem_filterMap]
      exact ⟨p, hp, by rw [if_pos ⟨hne, hcreate⟩, hget]; rfl⟩

/-- An instance of C11: user 1 sends to the chat of users 1, 2 and 3 while
user 2 is connected and user 3 is not. -/
theorem fanout_push_iff_registered_witness :
    (∀ (w' : World) (p : UserId), p ≠ Example.alice.userId →
      Example.env.notificationCreateFails p = false →
      (notifyParticipant Example.env Example.alice Example.hello.chatId
          Example.env.newMessageId w' p).db.notifications =
        w'.db.notifications ++
          [messageNotification Example.alice Example.hello.chatId Example.env.newMessageId p] ∧
      emittedBy w' (notifyParticipant Example.env Example.alice Example.hello.chatId
          Example.env.newMessageId w' p) =
        match JSMap.get w'.userSockets p with
        | some participantSocketId =>
          [{ target := .to (.socket participantSocketId)
             event := "new-notification"
             payload := .newNotification "message" Example.hello.chatId
               { id := Example.alice.userId
                 username := Example.alice.user.username
                 profilePic := Example.alice.user.profilePic } }]
        | none => []) ∧
    (∀ e, e ∈ emittedBy Example.bobOnline
          (handleNewMessage Example.env Example.alice Example.hello Example.bobOnline).1 ∧
        e.event = "new-notification" ↔
      ∃ p ∈ Example.chat.participants, p ≠ Example.alice.userId ∧
        Example.env.notificationCreateFails p = false ∧
        ∃ participantSocketId,
          JSMap.get Example.bobOnline.userSockets p = some participantSocketId ∧
          e = { target := .to (.socket participantSocketId)
                event := "new-notification"
                payload := .newNotification "message" Example.hello.chatId
                  { id := Example.alice.userId
                    username := Example.alice.user.username
                    profilePic := Example.alice.user.profilePic } }) :=
  fanout_push_iff_registered Example.env Example.alice Example.hello Example.bobOnline
    Example.chat (by decide) (by decide)

/-! ## The handshake -/

/-- C17: the middleware calls `next()` exactly when a token is supplied, the
token verifies and the user lookup answers with the user the token names; it
has then set `userId` and `user` on the connection.  In every other case it
calls `next` once, with an error, sets nothing, and the connection attempt
leaves the registry, and the whole world, as it was. -/
theorem authMiddleware_accepts_iff (auth : AuthEnv) (hs : Handshake) (w : World) :
    ((authMiddleware auth w.db hs).nextCalls = [.proceed] ↔
      ∃ token id user, hs.token = some token ∧ token ≠ "" ∧ auth.verify token = some id ∧
        auth.userFindFails = false ∧ User.findById w.db id = some user) ∧
    (∀ token id user, hs.token = some token → token ≠ "" → auth.verify token = some id →
      auth.userFindFails = false → User.findById w.db id = some user →
      authMiddleware auth w.db hs =
        { socket := some { id := hs.id, userId := id, user := user.info }
          nextCalls := [.proceed] }) ∧
    ((authMiddleware auth w.db hs).nextCalls ≠ [.proceed] →
      (∃ message, (authMiddleware auth w.db hs).nextCalls = [.error message]) ∧
      (authMiddleware auth w.db hs).socket = none ∧
      connect auth hs w = w ∧
      (connect auth hs w).userSockets = w.userSockets) := by
  have haccept : ∀ token id user, hs.token = some token → token ≠ "" →
      auth.verify token = some id → auth.userFindFails = false →
      User.findById w.db id = some user →
      authMiddleware auth w.db hs =
        { socket := some { id := hs.id, userId := id, user := user.info }
          nextCalls := [.proceed] } := by
    intro token id user htoken hne hverify hfind huser
    unfold authMiddleware
    simp [htoken, truthy, hne, hverify, hfind, huser]
  refine ⟨⟨?_, ?_⟩, haccept, ?_⟩
  · intro hnext
    unfold authMiddleware at hnext
    cases htoken : hs.token with
    | none => simp [htoken, truthy] at hnext
    | some token =>
      by_cases hne : token = ""
      · simp [htoken, truthy, hne] at hnext
      · cases hverify : auth.verify token with
        | none => simp [htoken, truthy, hne, hverify] at hnext
        | some id =>
          by_cases hfind : auth.userFindFails = true
          · simp [htoken, truthy, hne, hverify, hfind] at hnext
          · cases huser : User.findById w.db id with
            | none => simp [htoken, truthy, hne, hverify, hfind, huser] at hnext
            | some user => exact ⟨token, id, user, rfl, hne, hverify, by simpa using hfind, huser⟩
  · rintro ⟨token, id, user, htoken, hne, hverify, hfind, huser⟩
    rw [haccept token id user htoken hne hverify hfind huser]
  · intro hnext
    have hcases : (∃ message, authMiddleware auth w.db hs =
        { socket := none, nextCalls := [.error message] }) := by
      unfold authMiddleware at hnext ⊢
      cases htoken : hs.token with
      | none => exact ⟨"Authentication error", by simp [htoken, truthy]⟩
      | some token =>
        by_cases hne : token = ""
        · exact ⟨"Authentication error", by simp [htoken, truthy, hne]⟩
        · cases hverify : auth.verify token with
          | none => exact ⟨"Authentication error", by simp [htoken, truthy, hne, hverify]⟩
          | some id =>
            by_cases hfind : auth.userFindFails = true
            · exact ⟨"Authentication error", by simp [htoken, truthy, hne, hverify, hfind]⟩
            · cases huser : User.findById w.db id with
              | none =>
                exact ⟨"User not found", by simp [htoken, truthy, hne, hverify, hfind, huser]⟩
              | some user => simp [htoken, truthy, hne, hverify, hfind, huser] at hnext
    obtain ⟨message, hrun⟩ := hcases
    have hconnect : connect auth hs w = w := by
      unfold connect
      rw [hrun]
    exact ⟨⟨message, by rw [hrun]⟩, by rw [hrun], hconnect, by rw [hconnect]⟩

/-- Instances of C17: the token of user 1 is accepted; a token that does not
verify is refused and the connection is not registered. -/
theorem authMiddleware_accepts_iff_witness :
    authMiddleware Example.auth Example.world.db Example.goodHandshake =
      { socket := some { id := 10, userId := 1,
                         user := { username := "alice", profilePic := "a.png" } }
        nextCalls := [.proceed] } ∧
    ((∃ message, (authMiddleware Example.auth Example.world.db Example.badHandshake).nextCalls =
        [.error message]) ∧
      (authMiddleware Example.auth Example.world.db Example.badHandshake).socket = none ∧
      connect Example.auth Example.badHandshake Example.world = Example.world ∧
      (connect Example.auth Example.badHandshake Example.world).userSockets =
        Example.world.userSockets) :=
  ⟨(authMiddleware_accepts_iff Example.auth Example.goodHandshake Example.world).2.1
      "token-1" 1 { id := 1, info := { username := "alice", profilePic := "a.png" } }
      (by decide) (by decide) (by decide) rfl (by decide),
    (authMiddleware_accepts_iff Example.auth Example.badHandshake Example.world).2.2
      (by decide)⟩

/-! ## Notifications of likes and comments -/

theorem toggleLikeSave_notifications (env : RestEnv) (post : Post) (isLiked : Bool) (w : World) :
    (toggleLikeSave env post isLiked w).1.db.notifications = w.db.notifications := by
  unfold toggleLikeSave
  by_cases h1 : env.postSaveFails = true
  · simp [h1, restCatch]
  · by_cases h2 : env.populateFails = true
    · simp [h1, h2, restCatch, Db.savePost]
    · simp [h1, h2, Db.savePost]

theorem toggleLike_notifications (env : RestEnv) (userId : UserId) (postId : PostId) (w : World)
    (post : Post) (hpost : Post.findById w.db postId = some post) :
    (toggleLike env userId postId w).1.db.notifications = w.db.notifications ∨
    (userId ≠ post.author ∧ userId ∉ post.likes ∧ env.notificationCreateFails = false ∧
      (toggleLike env userId postId w).1.db.notifications =
        w.db.notifications ++ [likeNotification post userId postId]) := by
  unfold toggleLike
  by_cases h1 : env.postFindFails = true
  · simp [h1, restCatch]
  · by_cases h2 : userId ∈ post.likes
    · simp [h1, hpost, h2, toggleLikeSave_notifications]
    · by_cases h3 : post.author = userId
      · simp [h1, hpost, h2, h3, toggleLikeSave_notifications]
      · by_cases h4 : env.notificationCreateFails = true
        · simp [h1, hpost, h2, h3, h4, restCatch]
        · right
          refine ⟨fun h => h3 h.symm, h2, by simpa using h4, ?_⟩
          simp [h1, hpost, h2, h3, h4, toggleLikeSave_notifications, Db.insertNotification,
            likeNotification]

theorem toggleLike_ok_create (env : RestEnv) (userId : UserId) (postId : PostId) (w : World)
    (post : Post) (hpost : Post.findById w.db postId = some post)
    (hother : userId ≠ post.author) (hnew : userId ∉ post.likes)
    (hok : (toggleLike env userId postId w).2.status = 200) :
    env.notificationCreateFails = false := by
  unfold toggleLike at hok
  by_cases h1 : env.postFindFails = true
  · simp [h1, restCatch] at hok
  · by_cases h4 : env.notificationCreateFails = true
    · have h3 : ¬ post.author = userId := fun h => hother h.symm
      simp [h1, hpost, hnew, h3, h4, restCatch] at hok
    · simpa using h4

theorem createComment_notifications (env : RestEnv) (userId : UserId) (postId : PostId)
    (content : String) (parentCommentId : Option CommentId) (w : World) (post : Post)
    (hpost : Post.findById w.db postId = some post) :
    ((createComment env userId postId content parentCommentId w).1.db.notifications =
        w.db.notifications ∧
      (userId ≠ post.author →
        (createComment env userId postId content parentCommentId w).2.status ≠ 201)) ∨
    (userId ≠ post.author ∧
      (createComment env userId postId content parentCommentId w).1.db.notifications =
        w.db.notifications ++ [commentNotification post userId postId env.newCommentId]) := by
  unfold createComment
  by_cases h1 : env.postFindFails = true
  · simp [h1, restCatch]
  · simp only [h1, Bool.false_eq_true, if_false, hpost]
    split
    · simp [restCatch]
    · split
      · simp
      · split
        · simp [restCatch]
        · split
          · simp [restCatch, Db.insertComment]
          · split
            · simp [restCatch, Db.insertComment, Db.savePost]
            · by_cases h3 : post.author = userId
              · left
                simp [h3, Db.insertComment, Db.savePost]
              · have hne : userId ≠ post.author := fun h => h3 h.symm
                by_cases h4 : env.notificationCreateFails = true
                · simp [h3, h4, restCatch, Db.insertComment, Db.savePost]
                · right
                  simp [h3, h4, hne, Db.insertComment, Db.savePost, Db.insertNotification,
                    commentNotification]

/-- C12: for a stored post, (1) `toggleLike` and `createComment` by the
post's author leave the notifications as they were, however the run ends;
(2) for any other user, an unlike leaves them as they were, a like answered
with 200 adds exactly one notification, of type like, to the post's author
from the acting user, and a comment answered with 201 adds exactly one
notification, of type comment, to the post's author from the acting user. -/
theorem no_self_notification (env : RestEnv) (userId : UserId) (postId : PostId)
    (content : String) (parentCommentId : Option CommentId) (w : World) (post : Post)
    (hpost : Post.findById w.db postId = some post) :
    (userId = post.author →
      (toggleLike env userId postId w).1.db.notifications = w.db.notifications ∧
      (createComment env userId postId content parentCommentId w).1.db.notifications =
        w.db.notifications) ∧
    (userId ≠ post.author →
      (userId ∈ post.likes →
        (toggleLike env userId postId w).1.db.notifications = w.db.notifications) ∧
      (userId ∉ post.likes → (toggleLike env userId postId w).2.status = 200 →
        (toggleLike env userId postId w).1.db.notifications =
          w.db.notifications ++
            [{ recipient := post.author
               sender := userId
               type := "like"
               post := some postId
               comment := none
               chat := none
               message := none
               isRead := false
               readAt := none }]) ∧
      ((createComment env userId postId content parentCommentId w).2.status = 201 →
        (createComment env userId postId content parentCommentId w).1.db.notifications =
          w.db.notifications ++
            [{ recipient := post.author
               sender := userId
               type := "comment"
               post := some postId
               comment := some env.newCommentId
               chat := none
               message := none
               isRead := false
               readAt := none }])) := by
  constructor
  · intro hself
    constructor
    · rcases toggleLike_notifications env userId postId w post hpost with h | ⟨hne, -⟩
      · exact h
      · exact absurd hself hne
    · rcases createComment_notifications env userId postId content parentCommentId w post hpost
        with h | ⟨hne, -⟩
      · exact h.1
      · exact absurd hself hne
  · intro hother
    refine ⟨?_, ?_, ?_⟩
    · intro hliked
      rcases toggleLike_notifications env userId postId w post hpost with h | ⟨-, hnew, -⟩
      · exact h
      · exact absurd hliked hnew
    · intro hnew hok
      have hcreate := toggleLike_ok_create env userId postId w post hpost hother hnew hok
      have h3 : ¬ post.author = userId := fun h => hother h.symm
      unfold toggleLike
      have h1 : env.postFindFails = false := by
        by_cases h1 : env.postFindFails = true
        · unfold toggleLike at hok
          simp [h1, restCatch] at hok
        · simpa using h1
      simp [h1, hpost, hnew, h3, hcreate, toggleLikeSave_notifications, Db.insertNotification,
        likeNotification]
    · intro hok
      rcases createComment_notifications env userId postId content parentCommentId w post hpost
        with h | ⟨-, h⟩
      · exact absurd hok (h.2 hother)
      · exact h

/-- Instances of C12 on the post of user 1: the author likes and comments on
it, user 3 unlikes it, user 2 likes it and comments on it. -/
theorem no_self_notification_witness :
    ((toggleLike Example.restEnv 1 500 Example.blog).1.db.notifications =
        Example.blog.db.notifications ∧
      (createComment Example.restEnv 1 500 "mine" none Example.blog).1.db.notifications =
        Example.blog.db.notifications) ∧
    (toggleLike Example.restEnv 3 500 Example.blog).1.db.notifications =
      Example.blog.db.notifications ∧
    (toggleLike Example.restEnv 2 500 Example.blog).1.db.notifications =
      Example.blog.db.notifications ++
        [{ recipient := 1, sender := 2, type := "like", post := some 500, comment := none,
           chat := none, message := none, isRead := false, readAt := none }] ∧
    (createComment Example.restEnv 2 500 "nice" none Example.blog).1.db.notifications =
      Example.blog.db.notifications ++
        [{ recipient := 1, sender := 2, type := "comment", post := some 500,
           comment := some 800, chat := none, message := none, isRead := false,
           readAt := none }] :=
  ⟨(no_self_notification Example.restEnv 1 500 "mine" none Example.blog Example.post
      (by decide)).1 rfl,
    ((no_self_notification Example.restEnv 3 500 "nice" none Example.blog Example.post
      (by decide)).2 (by decide)).1 (by decide),
    ((no_self_notification Example.restEnv 2 500 "nice" none Example.blog Example.post
      (by decide)).2 (by decide)).2.1 (by decide) (by decide),
    ((no_self_notification Example.restEnv 2 500 "nice" none Example.blog Example.post
      (by decide)).2 (by decide)).2.2 (by decide)⟩

/-! ## The typing registry holds no empty set -/

/-- C26: in every state reached from the empty `typingUsers` map through
`handleTypingStart`, `handleTypingStop` and `handleDisconnect`, every chat id
that is a key of `typingUsers` maps to a set with at least one user. -/
theorem typing_sets_never_empty (events : List TypingEvent) (w0 : World)
    (hinit : w0.typingUsers = []) :
    (∀ e ∈ (runTypingEvents events w0).typingUsers, 0 < e.2.length) ∧
    (∀ chatId users, JSMap.get (runTypingEvents events w0).typingUsers chatId = some users →
      0 < users.length) := by
  have hwf : TypingWellFormed (runTypingEvents events w0).typingUsers :=
    runTypingEvents_wellFormed events w0 (hinit ▸ TypingWellFormed.nil)
  constructor
  · intro e he
    exact List.length_pos.mpr (hwf.2 e he)
  · intro chatId users hget
    exact List.length_pos.mpr (hwf.2 _ (JSMap.mem_of_get _ _ _ hget))

/-- An instance of C26: the typing events of the example. -/
theorem typing_sets_never_empty_witness :
    (∀ e ∈ (runTypingEvents Example.typingEvents Example.world).typingUsers, 0 < e.2.length) ∧
    (∀ chatId users,
      JSMap.get (runTypingEvents Example.typingEvents Example.world).typingUsers chatId =
        some users → 0 < users.length) :=
  typing_sets_never_empty Example.typingEvents Example.world rfl

/-! ## What the socket handlers leave alone -/

theorem notifyParticipant_rooms (env : Env) (socket : Socket) (chatId : ChatId)
    (messageId : MessageId) (w : World) (p : UserId) :
    (notifyParticipant env socket chatId messageId w p).rooms = w.rooms := by
  unfold notifyParticipant
  split
  · split
    · rfl
    · simp only
      split <;> rfl
  · rfl

theorem foldl_notifyParticipant_rooms (env : Env) (socket : Socket) (chatId : ChatId)
    (messageId : MessageId) (ps : List UserId) (w : World) :
    (ps.foldl (notifyParticipant env socket chatId messageId) w).rooms = w.rooms := by
  induction ps generalizing w with
  | nil => rfl
  | cons a rest ih =>
    rw [List.foldl_cons, ih, notifyParticipant_rooms]

/-- The registry and the room membership are the same before and after
`handleNewMessage`. -/
theorem handleNewMessage_registry_rooms (env : Env) (socket : Socket) (data : NewMessageData)
    (w : World) :
    (handleNewMessage env socket data w).1.userSockets = w.userSockets ∧
    (handleNewMessage env socket data w).1.rooms = w.rooms := by
  unfold handleNewMessage
  by_cases h1 : env.chatFindFails = true
  · simp [h1, newMessageCatch, World.emit]
  · cases hc : Chat.findById w.db data.chatId with
    | none => simp [h1]
    | some chat =>
      by_cases h2 : socket.userId ∈ chat.participants
      · by_cases h3 : (!(data.toMessage env socket).valid || env.messageSaveFails) = true
        · simp [h1, h2, h3, newMessageCatch, World.emit]
        · by_cases h5 : env.chatSaveFails = true
          · simp [h1, h2, h3, h5, newMessageCatch, World.emit]
          · by_cases h6 : env.populateFails = true
            · simp [h1, h2, h3, h5, h6, newMessageCatch, World.emit]
            · simp [h1, h2, h3, h5, h6, foldl_notifyParticipant_rooms,
                (foldl_notifyParticipant_chats env socket data.chatId _ _ _).2.2.2, World.emit]
      · simp [h1, h2]

theorem handleMarkRead_registry (env : Env) (socket : Socket) (chatId : ChatId) (w : World) :
    (handleMarkRead env socket chatId w).1.userSockets = w.userSockets := by
  unfold handleMarkRead
  by_cases h1 : env.chatFindFails = true
  · simp [h1, markReadCatch]
  · cases hc : Chat.findById w.db chatId with
    | none => simp [h1]
    | some chat =>
      by_cases h2 : socket.userId ∈ chat.participants
      · by_cases h3 : env.updateManyFails = true
        · simp [h1, h2, h3, markReadCatch]
        · by_cases h4 : env.chatSaveFails = true
          · simp [h1, h2, h3, h4, markReadCatch]
          · simp [h1, h2, h3, h4, World.emit]
      · simp [h1, h2]

/-- An event that is no connection of user `u` leaves a missing registry
entry of `u` missing. -/
theorem SocketEvent.apply_keeps_unregistered (e : SocketEvent) (w : World) (u : UserId)
    (hquiet : e.connects u = false) (hnone : JSMap.get w.userSockets u = none) :
    JSMap.get (e.apply w).userSockets u = none := by
  cases e with
  | connection socket =>
    have hne : u ≠ socket.userId := by
      intro h
      simp [SocketEvent.connects, h] at hquiet
    simp only [SocketEvent.apply, onConnection]
    rw [JSMap.get_set_other _ _ _ _ hne]
    exact hnone
  | joinChat socket chatId => exact hnone
  | leaveChat socket chatId => exact hnone
  | typingStart socket chatId =>
    simpa [SocketEvent.apply, handleTypingStart, World.emit] using hnone
  | typingStop socket chatId =>
    simpa [SocketEvent.apply, handleTypingStop, World.emit] using hnone
  | newMessage env socket data =>
    simp only [SocketEvent.apply, (handleNewMessage_registry_rooms env socket data w).1]
    exact hnone
  | markRead env socket chatId =>
    simp only [SocketEvent.apply, handleMarkRead_registry]
    exact hnone
  | disconnect socket =>
    show JSMap.get (JSMap.delete w.userSockets socket.userId) u = none
    by_cases h : u = socket.userId
    · rw [h]; exact JSMap.get_delete_self _ _
    · rw [JSMap.get_delete_other _ _ _ h]; exact hnone

theorem runSocketEvents_keeps_unregistered (events : List SocketEvent) (w : World) (u : UserId)
    (hquiet : ∀ e ∈ events, e.connects u = false) (hnone : JSMap.get w.userSockets u = none) :
    JSMap.get (runSocketEvents events w).userSockets u = none := by
  unfold runSocketEvents
  induction events generalizing w with
  | nil => exact hnone
  | cons e rest ih =>
    rw [List.foldl_cons]
    apply ih
    · intro e' he'
      exact hquiet e' (List.mem_cons_of_mem _ he')
    · exact SocketEvent.apply_keeps_unregistered e w u (hquiet e (List.mem_cons_self _ _)) hnone

/-- C24: after `handleDisconnect` of a connection of user `u`, in particular
of the one registered for `u`, the registry has no entry for `u`; it has none
after any further events in which `u` does not connect, and `emitToUser` and
`emitNotification` for `u` then emit nothing; the next connection of `u`
writes the entry again. -/
theorem disconnected_user_gets_no_emit (socket again : Socket) (w : World)
    (events : List SocketEvent) (event data : String)
    (hquiet : ∀ e ∈ events, e.connects socket.userId = false)
    (hagain : again.userId = socket.userId) :
    JSMap.get (handleDisconnect socket w).userSockets socket.userId = none ∧
    JSMap.get (runSocketEvents events (handleDisconnect socket w)).userSockets socket.userId =
      none ∧
    emittedBy (runSocketEvents events (handleDisconnect socket w))
        (emitToUser socket.userId event data
          (runSocketEvents events (handleDisconnect socket w))) = [] ∧
    emittedBy (runSocketEvents events (handleDisconnect socket w))
        (emitNotification socket.userId data
          (runSocketEvents events (handleDisconnect socket w))) = [] ∧
    JSMap.get (onConnection again
        (runSocketEvents events (handleDisconnect socket w))).userSockets socket.userId =
      some again.id := by
  have h0 : JSMap.get (handleDisconnect socket w).userSockets socket.userId = none := by
    simp only [handleDisconnect]
    exact JSMap.get_delete_self _ _
  have h1 := runSocketEvents_keeps_unregistered events _ socket.userId hquiet h0
  refine ⟨h0, h1, ?_, ?_, ?_⟩
  · simp [emitToUser, h1, emittedBy]
  · simp [emitNotification, h1, emittedBy]
  · simp only [onConnection, hagain]
    exact JSMap.get_set_self _ _ _

/-- An instance of C24: connection 10 of user 1 disconnects, user 2 is
active, then user 1 connects with connection 11. -/
theorem disconnected_user_gets_no_emit_witness :
    JSMap.get (handleDisconnect Example.alice (onConnection Example.alice
        Example.world)).userSockets 1 = none ∧
    JSMap.get (runSocketEvents Example.quietEvents (handleDisconnect Example.alice
        (onConnection Example.alice Example.world))).userSockets 1 = none ∧
    emittedBy (runSocketEvents Example.quietEvents (handleDisconnect Example.alice
          (onConnection Example.alice Example.world)))
        (emitToUser 1 "ping" "x" (runSocketEvents Example.quietEvents
          (handleDisconnect Example.alice (onConnection Example.alice Example.world)))) = [] ∧
    emittedBy (runSocketEvents Example.quietEvents (handleDisconnect Example.alice
          (onConnection Example.alice Example.world)))
        (emitNotification 1 "x" (runSocketEvents Example.quietEvents
          (handleDisconnect Example.alice (onConnection Example.alice Example.world)))) = [] ∧
    JSMap.get (onConnection Example.aliceAgain (runSocketEvents Example.quietEvents
        (handleDisconnect Example.alice (onConnection Example.alice
          Example.world)))).userSockets 1 = some 11 :=
  disconnected_user_gets_no_emit Example.alice Example.aliceAgain
    (onConnection Example.alice Example.world) Example.quietEvents "ping" "x"
    (by decide) rfl

/-! ## Who receives the new-message broadcast -/

/-- C25: the join-chat listener puts any connection into the room of any
chat, without a membership check; when a connection `other`, of a participant
or not, the sender's own or not, has joined the room of the chat, a completed
`handleNewMessage` emits the new-message event to the room of the chat with
no exclusion, and the event is delivered to `other` and to every connection
that is in the room. -/
theorem new_message_reaches_whole_room (env : Env) (socket other : Socket)
    (data : NewMessageData) (w : World)
    (hok : (handleNewMessage env socket data (onJoinChat other data.chatId w)).2 =
      .completed) :
    (other.id, Room.chat data.chatId) ∈ (onJoinChat other data.chatId w).rooms ∧
    ∃ e ∈ emittedBy (onJoinChat other data.chatId w)
        (handleNewMessage env socket data (onJoinChat other data.chatId w)).1,
      e.event = "new-message" ∧ e.target = .to (.chat data.chatId) ∧
      Target.delivers
        (handleNewMessage env socket data (onJoinChat other data.chatId w)).1.rooms
        e.target other.id = true ∧
      ∀ s, (s, Room.chat data.chatId) ∈ (onJoinChat other data.chatId w).rooms →
        Target.delivers
          (handleNewMessage env socket data (onJoinChat other data.chatId w)).1.rooms
          e.target s = true := by
  have hjoined : (other.id, Room.chat data.chatId) ∈ (onJoinChat other data.chatId w).rooms := by
    simp [onJoinChat]
  obtain ⟨chat, hchat, hmem, hfind, hvalid, hmsg, hsave, hpop, -⟩ :=
    handleNewMessage_completed env socket data _ hok
  obtain ⟨-, -, -, ⟨es, hemitted, -⟩, -⟩ :=
    handleNewMessage_run_effects env socket data _ chat hfind hchat hmem hvalid hmsg hsave hpop
  have hrooms := (handleNewMessage_registry_rooms env socket data
    (onJoinChat other data.chatId w)).2
  have hdeliver : ∀ s, (s, Room.chat data.chatId) ∈ (onJoinChat other data.chatId w).rooms →
      Target.delivers
        (handleNewMessage env socket data (onJoinChat other data.chatId w)).1.rooms
        (Target.to (Room.chat data.chatId)) s = true := by
    intro s hs
    rw [hrooms]
    simp [Target.delivers, hs]
  refine ⟨hjoined, ?_⟩
  rw [hemitted]
  exact ⟨_, List.mem_cons_self _ _, rfl, rfl, hdeliver other.id hjoined, hdeliver⟩

/-- An instance of C25: user 4, no participant of chat 100, has joined its
room; user 1 sends to chat 100. -/
theorem new_message_reaches_whole_room_witness :
    (Example.dora.id, Room.chat Example.hello.chatId) ∈
      (onJoinChat Example.dora Example.hello.chatId Example.world).rooms ∧
    ∃ e ∈ emittedBy (onJoinChat Example.dora Example.hello.chatId Example.world)
        (handleNewMessage Example.env Example.alice Example.hello
          (onJoinChat Example.dora Example.hello.chatId Example.world)).1,
      e.event = "new-message" ∧ e.target = .to (.chat Example.hello.chatId) ∧
      Target.delivers
        (handleNewMessage Example.env Example.alice Example.hello
          (onJoinChat Example.dora Example.hello.chatId Example.world)).1.rooms
        e.target Example.dora.id = true ∧
      ∀ s, (s, Room.chat Example.hello.chatId) ∈
          (onJoinChat Example.dora Example.hello.chatId Example.world).rooms →
        Target.delivers
          (handleNewMessage Example.env Example.alice Example.hello
            (onJoinChat Example.dora Example.hello.chatId Example.world)).1.rooms
          e.target s = true :=
  new_message_reaches_whole_room Example.env Example.alice Example.dora Example.hello
    Example.world (by decide)

/-! ## Likes are not pushed -/

theorem toggleLike_emitted (env : RestEnv) (userId : UserId) (postId : PostId) (w : World) :
    (toggleLike env userId postId w).1.emitted = w.emitted := by
  have hsave : ∀ (post : Post) (isLiked : Bool) (w' : World),
      (toggleLikeSave env post isLiked w').1.emitted = w'.emitted := by
    intro post isLiked w'
    unfold toggleLikeSave
    by_cases h1 : env.postSaveFails = true
    · simp [h1, restCatch]
    · by_cases h2 : env.populateFails = true
      · simp [h1, h2, restCatch]
      · simp [h1, h2]
  unfold toggleLike
  by_cases h1 : env.postFindFails = true
  · simp [h1, restCatch]
  · cases hpost : Post.findById w.db postId with
    | none => simp [h1]
    | some post =>
      by_cases h2 : userId ∈ post.likes
      · simp [h1, h2, hsave]
      · by_cases h3 : post.author = userId
        · simp [h1, h2, h3, hsave]
        · by_cases h4 : env.notificationCreateFails = true
          · simp [h1, h2, h3, h4, restCatch]
          · simp [h1, h2, h3, h4, hsave]

/-- C22 as stated fails: user 1, the author of post 500, is connected with
connection 10; user 2 likes the post; `toggleLike` answers 200 and writes the
notification for user 1, and emits nothing. -/
theorem toggleLike_pushes_nothing_to_online_author :
    JSMap.get Example.blogAuthorOnline.userSockets Example.post.author = some 10 ∧
    (toggleLike Example.restEnv 2 500 Example.blogAuthorOnline).2.status = 200 ∧
    (toggleLike Example.restEnv 2 500 Example.blogAuthorOnline).1.db.notifications =
      [likeNotification Example.post 2 500] ∧
    emittedBy Example.blogAuthorOnline
      (toggleLike Example.restEnv 2 500 Example.blogAuthorOnline).1 = [] := by
  decide

/-- C22 amended: when a user likes another user's post through `toggleLike`
and the request is answered with 200, the durable notification for the post's
author is written and no event is emitted, whether the author has an entry in
the registry or not. -/
theorem toggleLike_writes_record_only (env : RestEnv) (userId : UserId) (postId : PostId)
    (w : World) (post : Post)
    (hpost : Post.findById w.db postId = some post)
    (hother : userId ≠ post.author)
    (hnew : userId ∉ post.likes)
    (hok : (toggleLike env userId postId w).2.status = 200) :
    (toggleLike env userId postId w).1.db.notifications =
      w.db.notifications ++
        [{ recipient := post.author
           sender := userId
           type := "like"
           post := some postId
           comment := none
           chat := none
           message := none
           isRead := false
           readAt := none }] ∧
    emittedBy w (toggleLike env userId postId w).1 = [] ∧
    (toggleLike env userId postId w).1.userSockets = w.userSockets := by
  have hcreate := toggleLike_ok_create env userId postId w post hpost hother hnew hok
  refine ⟨?_, ?_, ?_⟩
  · rcases toggleLike_notifications env userId postId w post hpost with h | ⟨-, -, -, h⟩
    · exfalso
      have h3 : ¬ post.author = userId := fun h => hother h.symm
      have h1 : env.postFindFails = false := by
        by_cases h1 : env.postFindFails = true
        · unfold toggleLike at hok
          simp [h1, restCatch] at hok
        · simpa using h1
      unfold toggleLike at h
      simp [h1, hpost, hnew, h3, hcreate, toggleLikeSave_notifications,
        Db.insertNotification] at h
    · exact h
  · simp [emittedBy, toggleLike_emitted]
  · have hsave : ∀ (post : Post) (isLiked : Bool) (w' : World),
        (toggleLikeSave env post isLiked w').1.userSockets = w'.userSockets := by
      intro post isLiked w'
      unfold toggleLikeSave
      by_cases h1 : env.postSaveFails = true
      · simp [h1, restCatch]
      · by_cases h2 : env.populateFails = true
        · simp [h1, h2, restCatch]
        · simp [h1, h2]
    unfold toggleLike
    by_cases h1 : env.postFindFails = true
    · simp [h1, restCatch]
    · have h3 : ¬ post.author = userId := fun h => hother h.symm
      simp [h1, hpost, hnew, h3, hcreate, hsave]

/-- An instance of C22 as amended: user 2 likes the post of user 1, who is
connected. -/
theorem toggleLike_writes_record_only_witness :
    (toggleLike Example.restEnv 2 500 Example.blogAuthorOnline).1.db.notifications =
      Example.blogAuthorOnline.db.notifications ++
        [{ recipient := Example.post.author
           sender := 2
           type := "like"
           post := some 500
           comment := none
           chat := none
           message := none
           isRead := false
           readAt := none }] ∧
    emittedBy Example.blogAuthorOnline
      (toggleLike Example.restEnv 2 500 Example.blogAuthorOnline).1 = [] ∧
    (toggleLike Example.restEnv 2 500 Example.blogAuthorOnline).1.userSockets =
      Example.blogAuthorOnline.userSockets :=
  toggleLike_writes_record_only Example.restEnv 2 500 Example.blogAuthorOnline Example.post
    (by decide) (by decide) (by decide) (by decide)

/-! ## The reply check of `sendMessage` -/

/-- C23 as stated fails: user 1, a participant of chat 100, sends with a
`replyTo` that names no message and, being no well-formed identifier, makes
`Message.findById` reject; the answer is 500 with the error text Failed to
send message, not 400. -/
theorem sendMessage_unknown_reply_gets_500 :
    Chat.findById Example.world.db Example.replyToNothing.chatId = some Example.chat ∧
    1 ∈ Example.chat.participants ∧
    Example.replyToNothing.replyTo = some 999 ∧
    Message.findById Example.world.db 999 = none ∧
    Example.replyLookupRejects.messageFindFails = true ∧
    (sendMessage Example.replyLookupRejects 1 Example.replyToNothing Example.world).2 =
      { status := 500, success := false, error := some "Failed to send message",
        message := none } := by
  decide

/-- C23 amended: for a request by a participant of the chat whose `replyTo`
names a message that does not exist or belongs to another chat, `sendMessage`
creates no message, leaves the chats as they were and creates no
notification.  (1) When the lookup of the reply answers, the response is 400
with the error text Invalid reply message and the world is as it was.
(2) When the lookup rejects, as it does for a `replyTo` that is no
well-formed identifier, the error is logged and the response is 500 with the
error text Failed to send message. -/
theorem sendMessage_rejects_invalid_reply (env : Env) (currentUserId : UserId)
    (data : NewMessageData) (w : World) (chat : Chat) (replyId : MessageId)
    (hfind : env.chatFindFails = false)
    (hchat : Chat.findById w.db data.chatId = some chat)
    (hmem : currentUserId ∈ chat.participants)
    (hreply : data.replyTo = some replyId)
    (hinvalid : ∀ m, Message.findById w.db replyId = some m → m.chat ≠ data.chatId) :
    (env.messageFindFails = false →
      sendMessage env currentUserId data w =
        (w, { status := 400, success := false, error := some "Invalid reply message",
              message := none })) ∧
    (env.messageFindFails = true →
      (sendMessage env currentUserId data w).2 =
        { status := 500, success := false, error := some "Failed to send message",
          message := none } ∧
      (sendMessage env currentUserId data w).1.errorLog =
        w.errorLog ++ ["Send message error:"]) ∧
    (sendMessage env currentUserId data w).1.db.messages = w.db.messages ∧
    (sendMessage env currentUserId data w).1.db.chats = w.db.chats ∧
    (sendMessage env currentUserId data w).1.db.notifications = w.db.notifications := by
  have hvalid : replyReferenceValid w.db data.chatId data.replyTo = false := by
    rw [hreply]
    unfold replyReferenceValid
    cases hm : Message.findById w.db replyId with
    | none => simp [hm]
    | some m => simpa [hm] using hinvalid m hm
  by_cases hlookup : env.messageFindFails = true
  · have hrun : sendMessage env currentUserId data w =
        restCatch "Send message error:" "Failed to send message" w := by
      unfold sendMessage
      simp [hfind, hchat, hmem, hlookup, hreply]
    refine ⟨fun h => ?_, fun _ => ?_, ?_, ?_, ?_⟩
    · rw [hlookup] at h
      cases h
    · rw [hrun]
      exact ⟨rfl, rfl⟩
    all_goals rw [hrun]; rfl
  · have hlookup' : env.messageFindFails = false := by simpa using hlookup
    have hrun : sendMessage env currentUserId data w =
        (w, { status := 400, success := false, error := some "Invalid reply message",
              message := none }) := by
      unfold sendMessage
      simp [hfind, hchat, hmem, hlookup', hvalid, Response.refuse]
    refine ⟨fun _ => hrun, fun h => absurd h hlookup, ?_, ?_, ?_⟩ <;> rw [hrun]

/-- Three instances of C23 as amended: user 1 replies in chat 100 to a
message of chat 200 and to a message that is not stored, the lookup
answering; and to a message that is not stored, the lookup rejecting. -/
theorem sendMessage_rejects_invalid_reply_witness :
    (sendMessage Example.env 1 Example.restReplyAcrossChats Example.world =
      (Example.world, { status := 400, success := false,
                        error := some "Invalid reply message", message := none })) ∧
    (sendMessage Example.env 1 Example.replyToNothing Example.world =
      (Example.world, { status := 400, success := false,
                        error := some "Invalid reply message", message := none })) ∧
    ((sendMessage Example.replyLookupRejects 1 Example.replyToNothing Example.world).2 =
        { status := 500, success := false, error := some "Failed to send message",
          message := none } ∧
      (sendMessage Example.replyLookupRejects 1 Example.replyToNothing Example.world).1.errorLog =
        Example.world.errorLog ++ ["Send message error:"]) ∧
    (sendMessage Example.replyLookupRejects 1 Example.replyToNothing
      Example.world).1.db.messages = Example.world.db.messages ∧
    (sendMessage Example.replyLookupRejects 1 Example.replyToNothing
      Example.world).1.db.chats = Example.world.db.chats ∧
    (sendMessage Example.replyLookupRejects 1 Example.replyToNothing
      Example.world).1.db.notifications = Example.world.db.notifications :=
  ⟨(sendMessage_rejects_invalid_reply Example.env 1 Example.restReplyAcrossChats Example.world
      Example.chat 700 rfl (by decide) (by decide) rfl
      (fun m hm => by
        rw [show Message.findById Example.world.db 700 = some Example.foreignMessage
          by decide] at hm
        cases hm
        decide)).1 rfl,
    (sendMessage_rejects_invalid_reply Example.env 1 Example.replyToNothing Example.world
      Example.chat 999 rfl (by decide) (by decide) rfl
      (fun m hm => by
        rw [show Message.findById Example.world.db 999 = none by decide] at hm
        cases hm)).1 rfl,
    (sendMessage_rejects_invalid_reply Example.replyLookupRejects 1 Example.replyToNothing
      Example.world Example.chat 999 rfl (by decide) (by decide) rfl
      (fun m hm => by
        rw [show Message.findById Example.world.db 999 = none by decide] at hm
        cases hm)).2.1 rfl,
    (sendMessage_rejects_invalid_reply Example.replyLookupRejects 1 Example.replyToNothing
      Example.world Example.chat 999 rfl (by decide) (by decide) rfl
      (fun m hm => by
        rw [show Message.findById Example.world.db 999 = none by decide] at hm
        cases hm)).2.2⟩

/-! ## Likes toggle -/

theorem Post.findById_post_id (db : Db) (postId : PostId) (post : Post)
    (h : Post.findById db postId = some post) : post.id = postId := by
  unfold Post.findById at h
  simpa using List.find?_some h

theorem Post.findById_savePost (db : Db) (postId : PostId) (post post' : Post)
    (h : Post.findById db postId = some post) (hid : post'.id = post.id) :
    Post.findById (db.savePost post') postId = some post' := by
  have hc := Post.findById_post_id db postId post h
  unfold Post.findById at h
  unfold Post.findById Db.savePost
  simp only
  generalize db.posts = posts at h
  induction posts with
  | nil => simp at h
  | cons c rest ih =>
    rw [List.find?_cons] at h
    by_cases hcid : c.id = postId
    · have h1 : c.id = post'.id := by rw [hid, hc, hcid]
      have h2 : post'.id = postId := by rw [hid, hc]
      simp [List.find?_cons, h1, h2]
    · have h1 : ¬ c.id = post'.id := by rw [hid, hc]; exact hcid
      simp only [hcid, decide_False] at h
      simp only [List.map_cons, if_neg h1, List.find?_cons, hcid, decide_False]
      exact ih h

theorem toggleLikeSave_ok (env : RestEnv) (post : Post) (isLiked : Bool) (w : World)
    (hok : (toggleLikeSave env post isLiked w).2.status = 200) :
    (toggleLikeSave env post isLiked w).1.db = w.db.savePost post := by
  unfold toggleLikeSave at hok ⊢
  by_cases h1 : env.postSaveFails = true
  · simp [h1, restCatch] at hok
  · by_cases h2 : env.populateFails = true
    · simp [h1, h2, restCatch] at hok
    · simp [h1, h2]

/-- The post stored after a `toggleLike` answered with 200: the user is taken
out of the likes when present and appended when absent. -/
theorem toggleLike_ok_post (env : RestEnv) (userId : UserId) (postId : PostId) (w : World)
    (post : Post) (hpost : Post.findById w.db postId = some post)
    (hok : (toggleLike env userId postId w).2.status = 200) :
    Post.findById (toggleLike env userId postId w).1.db postId =
      some { post with
        likes := if userId ∈ post.likes then
            post.likes.filter (fun id => !decide (id = userId))
          else post.likes ++ [userId] } := by
  unfold toggleLike at hok ⊢
  by_cases h1 : env.postFindFails = true
  · simp [h1, restCatch] at hok
  · have h1' : env.postFindFails = false := by simpa using h1
    by_cases h2 : userId ∈ post.likes
    · have hc : post.likes.contains userId = true := by simpa using h2
      simp only [h1', hpost, hc, if_true, Bool.false_eq_true, if_false] at hok ⊢
      rw [toggleLikeSave_ok env _ _ _ hok]
      simp only [h2, if_true]
      exact Post.findById_savePost _ _ post _ hpost rfl
    · have hc : post.likes.contains userId = false := by simpa using h2
      by_cases h3 : post.author = userId
      · simp only [h1', hpost, hc, Bool.false_eq_true, if_false, h3, ne_eq,
          not_true_eq_false] at hok ⊢
        rw [toggleLikeSave_ok env _ _ _ hok]
        simp only [h2, if_false]
        exact Post.findById_savePost _ _ post _ hpost rfl
      · by_cases h4 : env.notificationCreateFails = true
        · simp [h1, hpost, h2, h3, h4, restCatch] at hok
        · have h4' : env.notificationCreateFails = false := by simpa using h4
          simp only [h1', hpost, hc, Bool.false_eq_true, if_false, h3, ne_eq,
            not_false_eq_true, if_true, h4'] at hok ⊢
          rw [toggleLikeSave_ok env _ _ _ hok]
          simp only [h2, if_false]
          exact Post.findById_savePost _ _ post _ hpost rfl

/-- C30: for a stored post whose likes hold no user twice, a `toggleLike` by
`userId` answered with 200 stores the post with `userId` among the likes
exactly when it was not there before, with every other user among the likes
exactly when that user was before, and with no user twice; a second
`toggleLike` by `userId` answered with 200 stores the post with the likers it
had at the start, again with no user twice. -/
theorem toggleLike_involution (env1 env2 : RestEnv) (userId : UserId) (postId : PostId)
    (w : World) (post : Post)
    (hpost : Post.findById w.db postId = some post)
    (hnodup : post.likes.Nodup)
    (hok1 : (toggleLike env1 userId postId w).2.status = 200)
    (hok2 : (toggleLike env2 userId postId (toggleLike env1 userId postId w).1).2.status =
      200) :
    ∃ post1 post2,
      Post.findById (toggleLike env1 userId postId w).1.db postId = some post1 ∧
      Post.findById
        (toggleLike env2 userId postId (toggleLike env1 userId postId w).1).1.db postId =
        some post2 ∧
      (userId ∈ post1.likes ↔ userId ∉ post.likes) ∧
      (∀ v, v ≠ userId → (v ∈ post1.likes ↔ v ∈ post.likes)) ∧
      post1.likes.Nodup ∧
      (∀ v, v ∈ post2.likes ↔ v ∈ post.likes) ∧
      post2.likes.Nodup := by
  have h1 := toggleLike_ok_post env1 userId postId w post hpost hok1
  have h2 := toggleLike_ok_post env2 userId postId _ _ h1 hok2
  refine ⟨_, _, h1, h2, ?_, ?_, ?_, ?_, ?_⟩
  · by_cases hu : userId ∈ post.likes <;> simp [hu]
  · intro v hv
    by_cases hu : userId ∈ post.likes <;> simp [hu, hv]
  · by_cases hu : userId ∈ post.likes
    · simp only [hu, if_true]
      exact hnodup.filter _
    · simp only [hu, if_false]
      rw [List.nodup_append]
      exact ⟨hnodup, by simp, by
        intro a ha hb
        simp only [List.mem_singleton] at hb
        exact hu (hb ▸ ha)⟩
  · intro v
    by_cases hu : userId ∈ post.likes
    · by_cases hv : v = userId
      · subst hv; simp [hu]
      · simp [hu, hv]
    · by_cases hv : v = userId
      · subst hv; simp [hu]
      · simp [hu, hv]
  · by_cases hu : userId ∈ post.likes
    · simp only [hu, if_true, List.mem_filter, decide_True, Bool.not_true, Bool.false_eq_true,
        and_false, if_false]
      rw [List.nodup_append]
      refine ⟨hnodup.filter _, by simp, ?_⟩
      intro a ha hb
      simp only [List.mem_singleton] at hb
      subst hb
      simp at ha
    · simp only [hu, if_false, List.mem_append, List.mem_singleton, or_true, if_true]
      exact (List.Nodup.filter _ (by
        rw [List.nodup_append]
        exact ⟨hnodup, by simp, by
          intro a ha hb
          simp only [List.mem_singleton] at hb
          exact hu (hb ▸ ha)⟩))

/-- An instance of C30: user 2 likes the post of user 1 and takes the like
back. -/
theorem toggleLike_involution_witness :
    ∃ post1 post2,
      Post.findById (toggleLike Example.restEnv 2 500 Example.blog).1.db 500 = some post1 ∧
      Post.findById (toggleLike Example.restEnv 2 500
        (toggleLike Example.restEnv 2 500 Example.blog).1).1.db 500 = some post2 ∧
      (2 ∈ post1.likes ↔ 2 ∉ Example.post.likes) ∧
      (∀ v, v ≠ 2 → (v ∈ post1.likes ↔ v ∈ Example.post.likes)) ∧
      post1.likes.Nodup ∧
      (∀ v, v ∈ post2.likes ↔ v ∈ Example.post.likes) ∧
      post2.likes.Nodup :=
  toggleLike_involution Example.restEnv Example.restEnv 2 500 Example.blog Example.post
    (by decide) (by decide) (by decide) (by decide)

/-! ## What `handleMarkRead` leaves alone -/

theorem Chat.findById_saveChat_other (db : Db) (chatId : ChatId) (chat' : Chat)
    (hne : chat'.id ≠ chatId) :
    Chat.findById (db.saveChat chat') chatId = Chat.findById db chatId := by
  unfold Chat.findById Db.saveChat
  simp only
  induction db.chats with
  | nil => rfl
  | cons c rest ih =>
    by_cases hc : c.id = chat'.id
    · have hcc : ¬ c.id = chatId := by rw [hc]; exact hne
      simp only [List.map_cons, if_pos hc, List.find?_cons, hne, decide_False, hcc]
      exact ih
    · simp only [List.map_cons, if_neg hc, List.find?_cons]
      by_cases hcc : c.id = chatId
      · simp [hcc]
      · simp only [hcc, decide_False]
        exact ih

/-- The store after `handleMarkRead`: as it was, or with the receipts pushed,
or with the receipts pushed and the chat saved with the user's counter at 0. -/
theorem handleMarkRead_db (env : Env) (socket : Socket) (chatId : ChatId) (w : World) :
    (handleMarkRead env socket chatId w).1.db = w.db ∨
    (handleMarkRead env socket chatId w).1.db = w.db.markRead chatId socket.userId env.now ∨
    ∃ chat, Chat.findById w.db chatId = some chat ∧
      (handleMarkRead env socket chatId w).1.db =
        (w.db.markRead chatId socket.userId env.now).saveChat
          { chat with unreadCount := JSMap.set chat.unreadCount socket.userId 0 } := by
  unfold handleMarkRead
  by_cases h1 : env.chatFindFails = true
  · simp [h1, markReadCatch]
  · cases hc : Chat.findById w.db chatId with
    | none => simp [h1]
    | some chat =>
      by_cases h2 : socket.userId ∈ chat.participants
      · by_cases h3 : env.updateManyFails = true
        · simp [h1, h2, h3, markReadCatch]
        · by_cases h4 : env.chatSaveFails = true
          · right; left
            simp [h1, h2, h3, h4, markReadCatch]
          · right; right
            simp [h1, h2, h3, h4, World.emit]
      · simp [h1, h2]

theorem markMessageRead_frame (chatId : ChatId) (u : UserId) (now : Time) (m : Message) :
    (m.sender = u ∨ m.chat ≠ chatId → markMessageRead chatId u now m = m) ∧
    m.readBy <+: (markMessageRead chatId u now m).readBy ∧
    { markMessageRead chatId u now m with readBy := m.readBy } = m := by
  unfold markMessageRead
  split
  · rename_i hcond
    refine ⟨?_, ?_, rfl⟩
    · rintro (h | h)
      · exact absurd h hcond.2.1
      · exact absurd hcond.1 h
    · exact List.prefix_append _ _
  · exact ⟨fun _ => rfl, List.prefix_refl _, rfl⟩

/-- C27: whatever the outcome of `handleMarkRead` by user `u` on chat `c`,
(1) every stored chat is found again with the unread counters of all users
other than `u` as they were, and a chat other than `c` is wholly as it was;
(2) the stored messages are the same messages in the same order, each with
every field but `readBy` as it was and with its earlier receipts as the first
receipts of its `readBy` list, and a message sent by `u` or of another chat is
wholly as it was. -/
theorem handleMarkRead_frame (env : Env) (socket : Socket) (chatId : ChatId) (w : World) :
    (∀ c chat, Chat.findById w.db c = some chat →
      ∃ chat', Chat.findById (handleMarkRead env socket chatId w).1.db c = some chat' ∧
        (c ≠ chatId → chat' = chat) ∧
        ∀ v, v ≠ socket.userId →
          JSMap.get chat'.unreadCount v = JSMap.get chat.unreadCount v) ∧
    List.Forall₂
      (fun m m' =>
        (m.sender = socket.userId ∨ m.chat ≠ chatId → m' = m) ∧
        m.readBy <+: m'.readBy ∧
        { m' with readBy := m.readBy } = m)
      w.db.messages (handleMarkRead env socket chatId w).1.db.messages := by
  constructor
  · intro c chat hchat
    rcases handleMarkRead_db env socket chatId w with h | h | ⟨chat0, hchat0, h⟩
    · rw [h]; exact ⟨chat, hchat, fun _ => rfl, fun _ _ => rfl⟩
    · rw [h]; exact ⟨chat, hchat, fun _ => rfl, fun _ _ => rfl⟩
    · rw [h]
      have hid0 := Chat.findById_id _ _ _ hchat0
      by_cases hc : c = chatId
      · subst hc
        rw [hchat] at hchat0
        cases hchat0
        refine ⟨_, Chat.findById_saveChat (w.db.markRead c socket.userId env.now) c chat _
          hchat rfl, fun h => absurd rfl h, ?_⟩
        intro v hv
        exact JSMap.get_set_other _ _ _ _ hv
      · refine ⟨chat, ?_, fun _ => rfl, fun _ _ => rfl⟩
        rw [Chat.findById_saveChat_other _ _ _ (by
          show chat0.id ≠ c
          rw [hid0]
          exact fun h => hc h.symm)]
        exact hchat
  · have hsame : List.Forall₂
        (fun m m' =>
          (m.sender = socket.userId ∨ m.chat ≠ chatId → m' = m) ∧
          m.readBy <+: m'.readBy ∧
          { m' with readBy := m.readBy } = m)
        w.db.messages w.db.messages := by
      rw [List.forall₂_same]
      intro m _
      exact ⟨fun _ => rfl, List.prefix_refl _, rfl⟩
    have hmarked : List.Forall₂
        (fun m m' =>
          (m.sender = socket.userId ∨ m.chat ≠ chatId → m' = m) ∧
          m.readBy <+: m'.readBy ∧
          { m' with readBy := m.readBy } = m)
        w.db.messages (w.db.messages.map (markMessageRead chatId socket.userId env.now)) := by
      rw [List.forall₂_map_right_iff, List.forall₂_same]
      intro m _
      exact markMessageRead_frame chatId socket.userId env.now m
    rcases handleMarkRead_messages env socket chatId w with h | h
    · rw [h]; exact hsame
    · rw [h]; exact hmarked

/-! ## `sendMessage` and `handleNewMessage` store the same -/

theorem sendMessageNotify_db (env : Env) (socket : Socket) (chatId : ChatId)
    (messageId : MessageId) (w1 w2 : World) (p : UserId) (hdb : w1.db = w2.db) :
    (sendMessageNotify env socket.userId chatId messageId w1 p).db =
      (notifyParticipant env socket chatId messageId w2 p).db := by
  unfold sendMessageNotify notifyParticipant
  by_cases hp : p = socket.userId
  · simp [hp, hdb]
  · by_cases hf : env.notificationCreateFails p = true
    · simp [hp, hf, hdb]
    · simp only [ne_eq, hp, not_false_eq_true, if_true, hf, Bool.false_eq_true, if_false]
      split <;> simp [World.emit, hdb, sendMessageNotification, messageNotification]

theorem foldl_sendMessageNotify_db (env : Env) (socket : Socket) (chatId : ChatId)
    (messageId : MessageId) (ps : List UserId) (w1 w2 : World) (hdb : w1.db = w2.db) :
    (ps.foldl (sendMessageNotify env socket.userId chatId messageId) w1).db =
      (ps.foldl (notifyParticipant env socket chatId messageId) w2).db := by
  induction ps generalizing w1 w2 with
  | nil => exact hdb
  | cons a rest ih =>
    rw [List.foldl_cons, List.foldl_cons]
    exact ih _ _ (sendMessageNotify_db env socket chatId messageId w1 w2 a hdb)

/-- C28: for a payload whose `replyTo` is absent or names a stored message of
the same chat, the reply lookup of the controller answering, `sendMessage` by
a user and `handleNewMessage` by a connection of that user leave the same
store under the same environment: the same messages with the same new message,
the same chats with the same `lastMessage` and `unreadCount`, and the same
notifications; and the controller answers 201 exactly when the handler runs to
its end. -/
theorem sendMessage_agrees_with_handleNewMessage (env : Env) (socket : Socket)
    (data : NewMessageData) (w : World)
    (hreply : replyReferenceValid w.db data.chatId data.replyTo = true)
    (hlookup : env.messageFindFails = false) :
    (sendMessage env socket.userId data w).1.db = (handleNewMessage env socket data w).1.db ∧
    (sendMessage env socket.userId data w).1.db.messages =
      (handleNewMessage env socket data w).1.db.messages ∧
    (sendMessage env socket.userId data w).1.db.chats =
      (handleNewMessage env socket data w).1.db.chats ∧
    (sendMessage env socket.userId data w).1.db.notifications =
      (handleNewMessage env socket data w).1.db.notifications ∧
    ((sendMessage env socket.userId data w).2.status = 201 ↔
      (handleNewMessage env socket data w).2 = .completed) := by
  have hdoc : sendMessageDocument env socket.userId data = data.toMessage env socket := rfl
  have hmain : (sendMessage env socket.userId data w).1.db =
        (handleNewMessage env socket data w).1.db ∧
      ((sendMessage env socket.userId data w).2.status = 201 ↔
        (handleNewMessage env socket data w).2 = .completed) := by
    unfold sendMessage handleNewMessage
    by_cases h1 : env.chatFindFails = true
    · simp [h1, restCatch, newMessageCatch, World.emit]
    · cases hc : Chat.findById w.db data.chatId with
      | none => simp [h1, Response.refuse]
      | some chat =>
        by_cases h2 : socket.userId ∈ chat.participants
        · by_cases h3 : (!(data.toMessage env socket).valid || env.messageSaveFails) = true
          · simp [h1, h2, hlookup, hreply, hdoc, h3, restCatch, newMessageCatch, World.emit]
          · by_cases h5 : env.chatSaveFails = true
            · simp [h1, h2, hlookup, hreply, hdoc, h3, h5, restCatch, newMessageCatch,
                World.emit]
            · by_cases h6 : env.populateFails = true
              · simp [h1, h2, hlookup, hreply, hdoc, h3, h5, h6, restCatch, newMessageCatch,
                  World.emit]
              · simp [h1, h2, hlookup, hreply, hdoc, h3, h5, h6, Response.ok]
                exact foldl_sendMessageNotify_db env socket data.chatId _ _ _ _ rfl
        · simp [h1, h2, Response.refuse]
  exact ⟨hmain.1, by rw [hmain.1], by rw [hmain.1], by rw [hmain.1], hmain.2⟩

/-- Instances of C28: user 1 sends to chat 100, once with no reply reference
and once with a reply to a message of chat 100. -/
theorem sendMessage_agrees_with_handleNewMessage_witness :
    ((sendMessage Example.env Example.alice.userId Example.hello Example.world).1.db =
        (handleNewMessage Example.env Example.alice Example.hello Example.world).1.db ∧
      (sendMessage Example.env Example.alice.userId Example.hello Example.world).1.db.messages =
        (handleNewMessage Example.env Example.alice Example.hello Example.world).1.db.messages ∧
      (sendMessage Example.env Example.alice.userId Example.hello Example.world).1.db.chats =
        (handleNewMessage Example.env Example.alice Example.hello Example.world).1.db.chats ∧
      (sendMessage Example.env Example.alice.userId Example.hello
          Example.world).1.db.notifications =
        (handleNewMessage Example.env Example.alice Example.hello
          Example.world).1.db.notifications ∧
      ((sendMessage Example.env Example.alice.userId Example.hello Example.world).2.status =
          201 ↔
        (handleNewMessage Example.env Example.alice Example.hello Example.world).2 =
          .completed)) ∧
    (sendMessage Example.env Example.alice.userId Example.forged Example.world).1.db =
      (handleNewMessage Example.env Example.alice Example.forged Example.world).1.db :=
  ⟨sendMessage_agrees_with_handleNewMessage Example.env Example.alice Example.hello
      Example.world (by decide) rfl,
    (sendMessage_agrees_with_handleNewMessage Example.env Example.alice Example.forged
      Example.world (by decide) rfl).1⟩

/-! ## Pagination -/

theorem queryNumber_pos (q : Option Nat) (d : Nat) (hd : 1 ≤ d) : 1 ≤ queryNumber q d := by
  unfold queryNumber
  split
  · exact hd
  · exact hd
  · rename_i n hn
    cases n with
    | zero => exact absurd rfl (hn)
    | succ k => omega

theorem pageSlice_length {α : Type} (matching : List α) (skip limit : Nat) :
    (pageSlice matching skip limit).length = min limit (matching.length - skip) := by
  simp [pageSlice, List.length_take, List.length_drop]

/-- The two flags of the `pagination` object, for a page and a limit of at
least 1 and a query that returns the documents at the positions from `skip`
up to `skip + limit` of the `total` that match. -/
theorem pagination_flags (page limit total : Nat) (hpage : 1 ≤ page) (hlimit : 1 ≤ limit) :
    ((pagination page limit total (min limit (total - skipOf page limit))).hasNext = true ↔
      page < (pagination page limit total (min limit (total - skipOf page limit))).totalPages) ∧
    ((pagination page limit total (min limit (total - skipOf page limit))).hasPrev = true ↔
      1 < page) := by
  constructor
  · simp only [pagination, skipOf, ceilDiv, decide_eq_true_eq]
    obtain ⟨q, rfl⟩ : ∃ q, page = q + 1 := ⟨page - 1, by omega⟩
    simp only [Nat.add_sub_cancel]
    have hpos : 0 < limit := by omega
    have hright : q + 1 < (total + limit - 1) / limit ↔
        (q + 1 + 1) * limit ≤ total + limit - 1 := by
      rw [Nat.lt_iff_add_one_le]
      exact Nat.le_div_iff_mul_le hpos
    have hmul : (q + 1 + 1) * limit = q * limit + limit + limit := by ring
    rw [hright, hmul]
    generalize q * limit = x
    omega
  · simp [pagination]

theorem pagination_of_slice {α : Type} (matching : List α) (page limit : Nat)
    (hpage : 1 ≤ page) (hlimit : 1 ≤ limit) (p : Pagination)
    (hp : p = pagination page limit matching.length
      (pageSlice matching (skipOf page limit) limit).length) :
    (p.hasNext = true ↔ p.currentPage < p.totalPages) ∧
    (p.hasPrev = true ↔ 1 < p.currentPage) := by
  rw [hp, pageSlice_length]
  exact pagination_flags page limit matching.length hpage hlimit

/-- C29: (1) for a page and a limit of at least 1 and a query that returns
the documents at the positions from `skip = (page - 1) * limit` up to
`skip + limit` of those that match, the `pagination` object has `hasNext`
exactly when the page is below `totalPages`, the rounded-up quotient of the
count by the limit, and `hasPrev` exactly when the page is above 1; (2) so
has the `pagination` object of every response of `getChatMessages`,
`getNotifications` and `getUserChats` that carries one. -/
theorem pagination_consistent {α : Type} (matching : List α) (page limit : Nat)
    (hpage : 1 ≤ page) (hlimit : 1 ≤ limit) :
    (((pagination page limit matching.length
          (pageSlice matching (skipOf page limit) limit).length).hasNext = true ↔
        page < ceilDiv matching.length limit) ∧
      ((pagination page limit matching.length
          (pageSlice matching (skipOf page limit) limit).length).hasPrev = true ↔
        1 < page)) ∧
    (∀ (env : Env) (currentUserId : UserId) (chatId : ChatId) (pageQuery limitQuery : Option Nat)
        (w : World) (p : Pagination),
      (getChatMessages env currentUserId chatId pageQuery limitQuery w).2.pagination = some p →
      (p.hasNext = true ↔ p.currentPage < p.totalPages) ∧
      (p.hasPrev = true ↔ 1 < p.currentPage)) ∧
    (∀ (findFails : Bool) (currentUserId : UserId) (pageQuery limitQuery : Option Nat)
        (unreadOnly : Option String) (w : World) (p : Pagination),
      (getNotifications findFails currentUserId pageQuery limitQuery unreadOnly w).2.pagination =
        some p →
      (p.hasNext = true ↔ p.currentPage < p.totalPages) ∧
      (p.hasPrev = true ↔ 1 < p.currentPage)) ∧
    (∀ (findFails : Bool) (currentUserId : UserId) (pageQuery limitQuery : Option Nat)
        (w : World) (p : Pagination),
      (getUserChats findFails currentUserId pageQuery limitQuery w).2.pagination = some p →
      (p.hasNext = true ↔ p.currentPage < p.totalPages) ∧
      (p.hasPrev = true ↔ 1 < p.currentPage)) := by
  refine ⟨?_, ?_, ?_, ?_⟩
  · exact pagination_of_slice matching page limit hpage hlimit _ rfl
  · intro env currentUserId chatId pageQuery limitQuery w p hp
    have h1 := queryNumber_pos pageQuery 1 (le_refl 1)
    have h50 := queryNumber_pos limitQuery 50 (by omega)
    unfold getChatMessages at hp
    by_cases hf : env.chatFindFails = true
    · simp [hf, listCatch] at hp
    · cases hc : Chat.findById w.db chatId with
      | none => simp [hf, hc, ListResponse.refuse] at hp
      | some chat =>
        by_cases hm : currentUserId ∈ chat.participants
        · by_cases hq : env.messageFindFails = true
          · simp [hf, hc, hm, hq, listCatch] at hp
          · by_cases hu : env.updateManyFails = true
            · simp [hf, hc, hm, hq, hu, listCatch] at hp
            · by_cases hs : env.chatSaveFails = true
              · simp [hf, hc, hm, hq, hu, hs, listCatch] at hp
              · simp [hf, hc, hm, hq, hu, hs] at hp
                apply pagination_of_slice
                  (w.db.messages.filter (fun m => decide (m.chat = chatId))).reverse _ _ h1 h50
                rw [← hp, List.length_reverse]
        · simp [hf, hc, hm, ListResponse.refuse] at hp
  · intro findFails currentUserId pageQuery limitQuery unreadOnly w p hp
    have h1 := queryNumber_pos pageQuery 1 (le_refl 1)
    have h20 := queryNumber_pos limitQuery 20 (by omega)
    unfold getNotifications at hp
    by_cases hf : findFails = true
    · simp [hf, listCatch] at hp
    · simp only [hf, Bool.false_eq_true, if_false, Option.some.injEq] at hp
      apply pagination_of_slice
        (w.db.notifications.filter (fun n =>
          decide (n.recipient = currentUserId) &&
            (if unreadOnly = some "true" then !n.isRead else true))).reverse _ _ h1 h20
      rw [← hp, List.length_reverse]
  · intro findFails currentUserId pageQuery limitQuery w p hp
    have h1 := queryNumber_pos pageQuery 1 (le_refl 1)
    have h20 := queryNumber_pos limitQuery 20 (by omega)
    unfold getUserChats at hp
    by_cases hf : findFails = true
    · simp [hf, listCatch] at hp
    · simp only [hf, Bool.false_eq_true, if_false, Option.some.injEq] at hp
      apply pagination_of_slice
        ((w.db.chats.filter (fun c => c.participants.contains currentUserId)).mergeSort
          (fun a b => decide (b.lastMessageAt ≤ a.lastMessageAt))) _ _ h1 h20
      rw [← hp, List.length_mergeSort]

/-- An instance of C29: page 2 with limit 2 of five documents has a next and
a previous page, page 3 has no next page. -/
theorem pagination_consistent_witness :
    (((pagination 2 2 [10, 20, 30, 40, 50].length
          (pageSlice [10, 20, 30, 40, 50] (skipOf 2 2) 2).length).hasNext = true ↔
        2 < ceilDiv [10, 20, 30, 40, 50].length 2) ∧
      ((pagination 2 2 [10, 20, 30, 40, 50].length
          (pageSlice [10, 20, 30, 40, 50] (skipOf 2 2) 2).length).hasPrev = true ↔
        1 < 2)) ∧
    pagination 2 2 5 (pageSlice [10, 20, 30, 40, 50] (skipOf 2 2) 2).length =
      { currentPage := 2, totalPages := 3, total := 5, hasNext := true, hasPrev := true } ∧
    pagination 3 2 5 (pageSlice [10, 20, 30, 40, 50] (skipOf 3 2) 2).length =
      { currentPage := 3, totalPages := 3, total := 5, hasNext := false, hasPrev := true } :=
  ⟨(pagination_consistent [10, 20, 30, 40, 50] 2 2 (by decide) (by decide)).1,
    by decide, by decide⟩

/-! ## Unread counters stay at or above 0 -/

theorem JSMap.nonneg_set (m : JSMap UserId Int) (k : UserId) (v : Int)
    (hm : ∀ e ∈ m, 0 ≤ e.2) (hv : 0 ≤ v) : ∀ e ∈ JSMap.set m k v, 0 ≤ e.2 := by
  intro e he
  rcases JSMap.mem_set _ _ _ _ he with h | h
  · rw [h]; exact hv
  · exact hm e h

theorem orZero_get_nonneg (m : JSMap UserId Int) (k : UserId) (hm : ∀ e ∈ m, 0 ≤ e.2) :
    0 ≤ orZero (JSMap.get m k) := by
  cases hget : JSMap.get m k with
  | none => simp [orZero]
  | some v => exact hm _ (JSMap.mem_of_get _ _ _ hget)

theorem foldl_bumpUnread_nonneg (senderId : UserId) (ps : List UserId) (m : JSMap UserId Int)
    (hm : ∀ e ∈ m, 0 ≤ e.2) : ∀ e ∈ ps.foldl (bumpUnread senderId) m, 0 ≤ e.2 := by
  induction ps generalizing m with
  | nil => exact hm
  | cons a rest ih =>
    rw [List.foldl_cons]
    apply ih
    unfold bumpUnread
    split
    · exact JSMap.nonneg_set _ _ _ hm (by
        have := orZero_get_nonneg m a hm
        omega)
    · exact hm

theorem UnreadNonNegative.of_chats (db db' : Db) (hchats : db'.chats = db.chats)
    (h : UnreadNonNegative db) : UnreadNonNegative db' := by
  unfold UnreadNonNegative at h ⊢
  rw [hchats]
  exact h

theorem UnreadNonNegative.saveChat (db : Db) (chat : Chat) (h : UnreadNonNegative db)
    (hchat : ∀ e ∈ chat.unreadCount, 0 ≤ e.2) : UnreadNonNegative (db.saveChat chat) := by
  intro c hc
  simp only [Db.saveChat, List.mem_map] at hc
  obtain ⟨c0, hc0, rfl⟩ := hc
  split
  · exact hchat
  · exact h c0 hc0

theorem Chat.mem_of_findById (db : Db) (chatId : ChatId) (chat : Chat)
    (h : Chat.findById db chatId = some chat) : chat ∈ db.chats :=
  List.mem_of_find?_eq_some h

theorem UnreadNonNegative.recordMessage (db : Db) (chatId : ChatId) (chat : Chat)
    (senderId : UserId) (messageId : MessageId) (now : Time) (m : Message)
    (h : UnreadNonNegative db) (hchat : Chat.findById db chatId = some chat) :
    UnreadNonNegative ((db.insertMessage m).saveChat
      (chat.recordMessage senderId messageId now)) := by
  apply UnreadNonNegative.saveChat
  · exact UnreadNonNegative.of_chats db _ rfl h
  · exact foldl_bumpUnread_nonneg _ _ _ (h chat (Chat.mem_of_findById _ _ _ hchat))

theorem UnreadNonNegative.resetUnread (db : Db) (chatId : ChatId) (chat : Chat)
    (userId : UserId) (now : Time)
    (h : UnreadNonNegative db) (hchat : Chat.findById db chatId = some chat) :
    UnreadNonNegative ((db.markRead chatId userId now).saveChat
      { chat with unreadCount := JSMap.set chat.unreadCount userId 0 }) := by
  apply UnreadNonNegative.saveChat
  · exact UnreadNonNegative.of_chats db _ rfl h
  · exact JSMap.nonneg_set _ _ _ (h chat (Chat.mem_of_findById _ _ _ hchat)) (le_refl 0)

/-- The chats after `handleNewMessage`: as they were, or with the loaded chat
saved after `recordMessage`. -/
theorem handleNewMessage_chats (env : Env) (socket : Socket) (data : NewMessageData)
    (w : World) :
    (handleNewMessage env socket data w).1.db.chats = w.db.chats ∨
    ∃ chat, Chat.findById w.db data.chatId = some chat ∧
      (handleNewMessage env socket data w).1.db.chats =
        ((w.db.insertMessage (data.toMessage env socket)).saveChat
          (chat.recordMessage socket.userId (data.toMessage env socket).id env.now)).chats := by
  unfold handleNewMessage
  by_cases h1 : env.chatFindFails = true
  · simp [h1, newMessageCatch, World.emit]
  · cases hc : Chat.findById w.db data.chatId with
    | none => simp [h1]
    | some chat =>
      by_cases h2 : socket.userId ∈ chat.participants
      · by_cases h3 : (!(data.toMessage env socket).valid || env.messageSaveFails) = true
        · simp [h1, h2, h3, newMessageCatch, World.emit]
        · by_cases h5 : env.chatSaveFails = true
          · simp [h1, h2, h3, h5, newMessageCatch, World.emit, Db.insertMessage]
          · right
            refine ⟨chat, rfl, ?_⟩
            by_cases h6 : env.populateFails = true
            · simp [h1, h2, h3, h5, h6, newMessageCatch, World.emit]
            · simp [h1, h2, h3, h5, h6,
                (foldl_notifyParticipant_chats env socket data.chatId _ _ _).1, World.emit,
                Chat.recordMessage]
      · simp [h1, h2]

theorem handleNewMessage_unreadNonNegative (env : Env) (socket : Socket)
    (data : NewMessageData) (w : World) (h : UnreadNonNegative w.db) :
    UnreadNonNegative (handleNewMessage env socket data w).1.db := by
  rcases handleNewMessage_chats env socket data w with hsame | ⟨chat, hchat, hsaved⟩
  · exact UnreadNonNegative.of_chats w.db _ hsame h
  · exact UnreadNonNegative.of_chats _ _ hsaved
      (UnreadNonNegative.recordMessage w.db data.chatId chat _ _ _ _ h hchat)

theorem sendMessageNotify_chats (env : Env) (currentUserId : UserId) (chatId : ChatId)
    (messageId : MessageId) (w : World) (p : UserId) :
    (sendMessageNotify env currentUserId chatId messageId w p).db.chats = w.db.chats := by
  unfold sendMessageNotify
  split
  · split <;> rfl
  · rfl

theorem foldl_sendMessageNotify_chats (env : Env) (currentUserId : UserId) (chatId : ChatId)
    (messageId : MessageId) (ps : List UserId) (w : World) :
    (ps.foldl (sendMessageNotify env currentUserId chatId messageId) w).db.chats =
      w.db.chats := by
  induction ps generalizing w with
  | nil => rfl
  | cons a rest ih =>
    rw [List.foldl_cons, ih, sendMessageNotify_chats]

theorem sendMessage_chats (env : Env) (currentUserId : UserId) (data : NewMessageData)
    (w : World) :
    (sendMessage env currentUserId data w).1.db.chats = w.db.chats ∨
    ∃ chat, Chat.findById w.db data.chatId = some chat ∧
      (sendMessage env currentUserId data w).1.db.chats =
        ((w.db.insertMessage (sendMessageDocument env currentUserId data)).saveChat
          (chat.recordMessage currentUserId (sendMessageDocument env currentUserId data).id
            env.now)).chats := by
  unfold sendMessage
  by_cases h1 : env.chatFindFails = true
  · simp [h1, restCatch]
  · cases hc : Chat.findById w.db data.chatId with
    | none => simp [h1]
    | some chat =>
      by_cases h2 : currentUserId ∈ chat.participants
      · by_cases hq : (data.replyTo.isSome && env.messageFindFails) = true
        · simp [h1, h2, hq, restCatch]
        · by_cases hr : replyReferenceValid w.db data.chatId data.replyTo = true
          · by_cases h3 : (!(sendMessageDocument env currentUserId data).valid ||
                env.messageSaveFails) = true
            · simp [h1, h2, hq, hr, h3, restCatch]
            · by_cases h5 : env.chatSaveFails = true
              · simp [h1, h2, hq, hr, h3, h5, restCatch, Db.insertMessage]
              · right
                refine ⟨chat, rfl, ?_⟩
                by_cases h6 : env.populateFails = true
                · simp [h1, h2, hq, hr, h3, h5, h6, restCatch]
                · simp [h1, h2, hq, hr, h3, h5, h6, foldl_sendMessageNotify_chats,
                    Chat.recordMessage]
          · simp [h1, h2, hq, hr]
      · simp [h1, h2]

theorem sendMessage_unreadNonNegative (env : Env) (currentUserId : UserId)
    (data : NewMessageData) (w : World) (h : UnreadNonNegative w.db) :
    UnreadNonNegative (sendMessage env currentUserId data w).1.db := by
  rcases sendMessage_chats env currentUserId data w with hsame | ⟨chat, hchat, hsaved⟩
  · exact UnreadNonNegative.of_chats w.db _ hsame h
  · exact UnreadNonNegative.of_chats _ _ hsaved
      (UnreadNonNegative.recordMessage w.db data.chatId chat _ _ _ _ h hchat)

theorem handleMarkRead_unreadNonNegative (env : Env) (socket : Socket) (chatId : ChatId)
    (w : World) (h : UnreadNonNegative w.db) :
    UnreadNonNegative (handleMarkRead env socket chatId w).1.db := by
  rcases handleMarkRead_db env socket chatId w with hdb | hdb | ⟨chat, hchat, hdb⟩
  · rw [hdb]; exact h
  · rw [hdb]; exact UnreadNonNegative.of_chats w.db _ rfl h
  · rw [hdb]; exact UnreadNonNegative.resetUnread w.db chatId chat _ _ h hchat

theorem markMessagesAsRead_db (env : Env) (currentUserId : UserId) (chatId : ChatId)
    (w : World) :
    (markMessagesAsRead env currentUserId chatId w).1.db = w.db ∨
    (markMessagesAsRead env currentUserId chatId w).1.db =
      w.db.markRead chatId currentUserId env.now ∨
    ∃ chat, Chat.findById w.db chatId = some chat ∧
      (markMessagesAsRead env currentUserId chatId w).1.db =
        (w.db.markRead chatId currentUserId env.now).saveChat
          { chat with unreadCount := JSMap.set chat.unreadCount currentUserId 0 } := by
  unfold markMessagesAsRead
  by_cases h1 : env.chatFindFails = true
  · simp [h1, restCatch]
  · cases hc : Chat.findById w.db chatId with
    | none => simp [h1]
    | some chat =>
      by_cases h2 : currentUserId ∈ chat.participants
      · by_cases h3 : env.updateManyFails = true
        · simp [h1, h2, h3, restCatch]
        · by_cases h4 : env.chatSaveFails = true
          · right; left
            simp [h1, h2, h3, h4, restCatch]
          · right; right
            simp [h1, h2, h3, h4]
      · simp [h1, h2]

theorem getChatMessages_db (env : Env) (currentUserId : UserId) (chatId : ChatId)
    (pageQuery limitQuery : Option Nat) (w : World) :
    (getChatMessages env currentUserId chatId pageQuery limitQuery w).1.db = w.db ∨
    (getChatMessages env currentUserId chatId pageQuery limitQuery w).1.db =
      w.db.markRead chatId currentUserId env.now ∨
    ∃ chat, Chat.findById w.db chatId = some chat ∧
      (getChatMessages env currentUserId chatId pageQuery limitQuery w).1.db =
        (w.db.markRead chatId currentUserId env.now).saveChat
          { chat with unreadCount := JSMap.set chat.unreadCount currentUserId 0 } := by
  unfold getChatMessages
  by_cases h1 : env.chatFindFails = true
  · simp [h1, listCatch]
  · cases hc : Chat.findById w.db chatId with
    | none => simp [h1]
    | some chat =>
      by_cases h2 : currentUserId ∈ chat.participants
      · by_cases hq : env.messageFindFails = true
        · simp [h1, h2, hq, listCatch]
        · by_cases h3 : env.updateManyFails = true
          · simp [h1, h2, hq, h3, listCatch]
          · by_cases h4 : env.chatSaveFails = true
            · right; left
              simp [h1, h2, hq, h3, h4, listCatch]
            · right; right
              simp [h1, h2, hq, h3, h4]
      · simp [h1, h2]

theorem ChatOp.apply_unreadNonNegative (op : ChatOp) (w : World)
    (h : UnreadNonNegative w.db) : UnreadNonNegative (op.apply w).db := by
  cases op with
  | socketSend env socket data => exact handleNewMessage_unreadNonNegative env socket data w h
  | restSend env currentUserId data =>
    exact sendMessage_unreadNonNegative env currentUserId data w h
  | socketRead env socket chatId => exact handleMarkRead_unreadNonNegative env socket chatId w h
  | restRead env currentUserId chatId =>
    simp only [ChatOp.apply]
    rcases markMessagesAsRead_db env currentUserId chatId w with hdb | hdb | ⟨chat, hchat, hdb⟩
    · rw [hdb]; exact h
    · rw [hdb]; exact UnreadNonNegative.of_chats w.db _ rfl h
    · rw [hdb]; exact UnreadNonNegative.resetUnread w.db chatId chat _ _ h hchat
  | getMessages env currentUserId chatId pageQuery limitQuery =>
    simp only [ChatOp.apply]
    rcases getChatMessages_db env currentUserId chatId pageQuery limitQuery w
      with hdb | hdb | ⟨chat, hchat, hdb⟩
    · rw [hdb]; exact h
    · rw [hdb]; exact UnreadNonNegative.of_chats w.db _ rfl h
    · rw [hdb]; exact UnreadNonNegative.resetUnread w.db chatId chat _ _ h hchat

theorem runChatOps_unreadNonNegative (ops : List ChatOp) (w : World)
    (h : UnreadNonNegative w.db) : UnreadNonNegative (runChatOps ops w).db := by
  unfold runChatOps
  induction ops generalizing w with
  | nil => exact h
  | cons op rest ih =>
    rw [List.foldl_cons]
    exact ih _ (ChatOp.apply_unreadNonNegative op w h)

/-- C21: starting from a store in which every chat is newly created, its
`unreadCount` map empty, every sequence of `handleNewMessage`, `sendMessage`,
`handleMarkRead`, `markMessagesAsRead` and `getChatMessages` runs, whatever
their outcomes, leaves every stored unread counter at or above 0: for every
chat and every key `p` of its map, `unreadCount[p] ≥ 0`. -/
theorem unread_counters_nonnegative (ops : List ChatOp) (w0 : World)
    (hnew : ∀ chat ∈ w0.db.chats, chat.unreadCount = []) :
    ∀ chat ∈ (runChatOps ops w0).db.chats, ∀ p n,
      JSMap.get chat.unreadCount p = some n → 0 ≤ n := by
  have h0 : UnreadNonNegative w0.db := by
    intro chat hchat e he
    rw [hnew chat hchat] at he
    cases he
  intro chat hchat p n hget
  exact runChatOps_unreadNonNegative ops w0 h0 chat hchat _ (JSMap.mem_of_get _ _ _ hget)

/-- An instance of C21: sends and reads of users 1 and 2 on a new chat; after
the first two sends the counter of user 2 stands at 2. -/
theorem unread_counters_nonnegative_witness :
    (∀ chat ∈ Example.freshWorld.db.chats, chat.unreadCount = []) ∧
    ((runChatOps (Example.chatOps.take 2) Example.freshWorld).db.chats.map
      (fun chat => chat.unreadCount) = [[(2, 2)]]) ∧
    (∀ chat ∈ (runChatOps Example.chatOps Example.freshWorld).db.chats, ∀ p n,
      JSMap.get chat.unreadCount p = some n → 0 ≤ n) :=
  ⟨by decide, by decide,
    unread_counters_nonnegative Example.chatOps Example.freshWorld (by decide)⟩

end LinkUp
